import Mathlib

/-!
Cluster cache RPC core (iocore/cluster/ClusterCache.cc)

A shallow embedding of the parts of `ClusterCache.cc` that the checked
properties talk about:

* the write-VC reuse cache `ClusterVConnectionCache` (`MD5ToIndex`, `insert`,
  `lookup`) and its periodic purge `ClusterVConnectionCacheEvent::eventHandler`;
* the request sequence counter `new_cache_sequence_number`;
* the request builder `CacheContinuation::do_op`;
* the responder: the entry point `cache_op_ClusterFunction`, the handlers of
  `CacheContinuation` and `replyOpEvent`;
* the initiator entry point `cache_op_result_ClusterFunction`.

The second part embeds `handle_dns` of the example plugin
`example/blacklist-1/blacklist-1.c`.

Conventions of the embedding.

* Pointers are natural numbers, the null pointer is `0`.
* A `Queue<Entry>` is the list of its entries from head to tail.
* The outcome of `MUTEX_TRY_LOCK` depends on other threads; it is read from a
  lock oracle `held : Nat → Bool` (`held n = true`: the mutex of bucket `n` is
  owned by another thread, so the try-lock fails).
* Calls into collaborators (VC close, allocator, scheduler, transport) are
  recorded, in program order, in a list of effects.
* Statistics counters (`CLUSTER_INCREMENT_DYN_STAT`) and `Debug` output are
  left out.
-/

namespace ClusterCache

/-! ## Digests and the bucket index -/

/-- Modelled from the spec: the digest type `INK_MD5` is declared outside
`src/`.  The spec calls it a 128-bit content digest; it is kept as two 64-bit
words, compared word by word, and `fold` yields one 64-bit word (the source
only uses that `fold()` fits a `uint64_t`). -/
structure INK_MD5 where
  b0 : Nat
  b1 : Nat
deriving DecidableEq, Repr

/-- Modelled from the spec: `INK_MD5::fold` (declared outside `src/`), the
64-bit fold of the two digest words. -/
def INK_MD5.fold (p : INK_MD5) : Nat :=
  (p.b0 ^^^ p.b1) % 2 ^ 64

/-- Table width, `enum { MAX_TABLE_ENTRIES = 256, ... }`. -/
def MAX_TABLE_ENTRIES : Nat := 256

/-- Scan period in seconds, `enum { ..., SCAN_INTERVAL = 10 }`. -/
def SCAN_INTERVAL : Nat := 10

/-- Conversion of an unsigned value to `int32_t` (two's complement). -/
def to_int32 (x : Nat) : Int :=
  if x % 2 ^ 32 < 2 ^ 31 then ((x % 2 ^ 32 : Nat) : Int)
  else ((x % 2 ^ 32 : Nat) : Int) - 2 ^ 32

/-- The source function `ClusterVConnectionCache::MD5ToIndex`:
`h = i >> 32; l = i & 0xFFFFFFFF` as `int32_t`, then
`((h ^ l) % MAX_TABLE_ENTRIES) & (MAX_TABLE_ENTRIES - 1)` with the truncating
remainder of C. -/
def MD5ToIndex (p : INK_MD5) : Int :=
  let i : Nat := p.fold
  let h : Int := to_int32 (i >>> 32)
  let l : Int := to_int32 (i &&& 0xFFFFFFFF)
  Int.land (Int.tmod (Int.xor h l) (MAX_TABLE_ENTRIES : Int))
    ((MAX_TABLE_ENTRIES : Int) - 1)

/-- Array subscript derived from `MD5ToIndex`, as used in
`hash_table[index]` and `hash_lock[index]`. -/
def bucket_of (p : INK_MD5) : Nat :=
  (MD5ToIndex p).toNat

/-! ## The reuse cache -/

/-- The source type `ClusterVConnectionCache::Entry`; the intrusive `link`
is represented by the position in the bucket list. -/
structure Entry where
  mark_for_delete : Bool
  key : INK_MD5
  vc : Nat
deriving DecidableEq, Repr

/-- Modelled from the spec: `ClusterVCCacheEntryAlloc.alloc()` (the class
allocator is declared outside `src/`) hands out an object in the state of the
default constructor `Entry() : mark_for_delete(0), vc(0)`. -/
def ClusterVCCacheEntryAlloc_alloc : Entry :=
  { mark_for_delete := false, key := { b0 := 0, b1 := 0 }, vc := 0 }

/-- The array `hash_table[MAX_TABLE_ENTRIES]` of queues. -/
abbrev HashTable := Nat → List Entry

/-- The table right after construction: every queue is empty. -/
def empty_table : HashTable := fun _ => []

/-- Replace the queue of one bucket. -/
def set_bucket (t : HashTable) (index : Nat) (q : List Entry) : HashTable :=
  fun n => if n = index then q else t n

/-- The miss value `(ClusterVConnection *) -1` of `lookup` (64-bit pointers). -/
def LOOKUP_MISS : Nat := 2 ^ 64 - 1

/-- The source function `ClusterVConnectionCache::insert`.  Returns the
`int` result and the table afterwards. -/
def insert (t : HashTable) (held : Nat → Bool) (key : INK_MD5) (vc : Nat) :
    Int × HashTable :=
  let index := bucket_of key
  if held index then
    (0, t)
  else
    let e : Entry := { ClusterVCCacheEntryAlloc_alloc with key := key, vc := vc }
    (1, set_bucket t index (t index ++ [e]))

/-- The `while (e)` loop of `lookup` over one queue: on the first entry whose
key equals `key` it yields that entry's vc and the queue with the entry
unlinked; `none` when the loop runs off the end. -/
def lookup_loop (key : INK_MD5) : List Entry → Option (Nat × List Entry)
  | [] => none
  | e :: rest =>
    if key = e.key then some (e.vc, rest)
    else
      match lookup_loop key rest with
      | none => none
      | some (vc, rest1) => some (vc, e :: rest1)

/-- The source function `ClusterVConnectionCache::lookup`.  Returns the
pointer result and the table afterwards. -/
def lookup (t : HashTable) (held : Nat → Bool) (key : INK_MD5) : Nat × HashTable :=
  let index := bucket_of key
  if held index then
    (0, t)
  else
    match lookup_loop key (t index) with
    | some (vc, q) => (vc, set_bucket t index q)
    | none => (LOOKUP_MISS, t)

/-- Calls made by the purge handler, in program order. -/
inductive PurgeEffect where
  | allow_remote_close (vc : Nat)
  | do_io_close (vc : Nat)
  | free_entry (e : Entry)
  | schedule_in_msec (n : Nat)
  | schedule_in_sec (n : Nat)
deriving DecidableEq, Repr

/-- The `while (entry)` loop of the purge handler over one queue: a marked
entry is unlinked, its vc gets `allow_remote_close()` and `do_io(CLOSE)` and
the entry is freed; an unmarked entry is marked and kept. -/
def purge_loop : List Entry → List Entry × List PurgeEffect
  | [] => ([], [])
  | entry :: rest =>
    if entry.mark_for_delete then
      ((purge_loop rest).1,
        [PurgeEffect.allow_remote_close entry.vc, PurgeEffect.do_io_close entry.vc,
          PurgeEffect.free_entry entry] ++ (purge_loop rest).2)
    else
      ({ entry with mark_for_delete := true } :: (purge_loop rest).1, (purge_loop rest).2)

/-- Handler return code `EVENT_DONE`. -/
def EVENT_DONE : Int := 0

/-- The source function `ClusterVConnectionCacheEvent::eventHandler` of the
handler owning bucket `hash_index`.  Returns the handler result, the table
afterwards and the calls made. -/
def eventHandler (t : HashTable) (held : Nat → Bool) (hash_index : Nat) :
    Int × HashTable × List PurgeEffect :=
  if held hash_index then
    (EVENT_DONE, t, [PurgeEffect.schedule_in_msec 10])
  else
    (EVENT_DONE, set_bucket t hash_index (purge_loop (t hash_index)).1,
      (purge_loop (t hash_index)).2 ++ [PurgeEffect.schedule_in_sec SCAN_INTERVAL])

/-! ## The request sequence counter -/

/-- The reply-less sequence number, `#define CACHE_NO_RESPONSE 0`. -/
def CACHE_NO_RESPONSE : Nat := 0

/-- Initial value of the process-wide counter,
`static int cluster_sequence_number = 1`. -/
def cluster_sequence_number_init : Nat := 1

/-- Modelled from the spec: `ink_atomic_increment` is declared outside `src/`;
the spec calls it an atomic fetch-add.  On a 32-bit cell holding the bit
pattern `mem` it yields the previous value and the cell afterwards (wrapping
modulo `2 ^ 32`). -/
def ink_atomic_increment (mem : Nat) (count : Nat) : Nat × Nat :=
  (mem % 2 ^ 32, (mem + count) % 2 ^ 32)

/-- The source function `new_cache_sequence_number`, on the bit pattern of
`cluster_sequence_number`: the `do { res = fetch-add } while (!res)` loop.
Returns `res` and the counter afterwards. -/
def new_cache_sequence_number (cluster_sequence_number : Nat) : Nat × Nat :=
  if h : (ink_atomic_increment cluster_sequence_number 1).1 = 0 then
    new_cache_sequence_number (ink_atomic_increment cluster_sequence_number 1).2
  else
    ink_atomic_increment cluster_sequence_number 1
termination_by (if cluster_sequence_number % 2 ^ 32 = 0 then 1 else 0)
decreasing_by
  simp only [ink_atomic_increment] at h ⊢
  have h1 : ¬ (cluster_sequence_number + 1) % 2 ^ 32 % 2 ^ 32 = 0 := by omega
  rw [if_pos h, if_neg h1]
  exact Nat.zero_lt_one

/-- The results of `n` consecutive calls of `new_cache_sequence_number`,
oldest first, together with the counter afterwards. -/
def sequence_numbers : Nat → Nat → List Nat × Nat
  | 0, counter => ([], counter)
  | n + 1, counter =>
    let r := new_cache_sequence_number counter
    let rest := sequence_numbers n r.2
    (r.1 :: rest.1, rest.2)

/-! ## The request builder `CacheContinuation::do_op` -/

/-- The opcode values `CACHE_...` are declared outside `src/`.  The
second `switch` of `do_op` lists the twelve named ones as labels of one
statement, so they are pairwise distinct; `other` stands for any `int` that
is none of them. -/
inductive CacheOpcode where
  | CACHE_OPEN_READ
  | CACHE_OPEN_READ_BUFFER
  | CACHE_OPEN_READ_LONG
  | CACHE_OPEN_READ_BUFFER_LONG
  | CACHE_OPEN_WRITE
  | CACHE_OPEN_WRITE_BUFFER
  | CACHE_OPEN_WRITE_LONG
  | CACHE_OPEN_WRITE_BUFFER_LONG
  | CACHE_UPDATE
  | CACHE_REMOVE
  | CACHE_LINK
  | CACHE_DEREF
  | other (code : Int)
deriving DecidableEq, Repr

/-- The argument block `CacheOpArgs_General` (declared outside `src/`), with
the members `do_op` reads. -/
structure CacheOpArgs_General where
  url_md5 : INK_MD5
  pin_in_cache : Int
  frag_type : Nat
  cfl_flags : Nat
deriving DecidableEq, Repr

/-- The argument block `CacheOpArgs_Link` (declared outside `src/`); the
members `from` and `to` are the two digests. -/
structure CacheOpArgs_Link where
  from_md5 : INK_MD5
  to_md5 : INK_MD5
  cfl_flags : Nat
  frag_type : Nat
deriving DecidableEq, Repr

/-- The argument block `CacheOpArgs_Deref` (declared outside `src/`). -/
structure CacheOpArgs_Deref where
  md5 : INK_MD5
  cfl_flags : Nat
  frag_type : Nat
deriving DecidableEq, Repr

/-- The untyped `void *args` of `do_op`.  The code reads it through casts to
the three argument blocks; each field is what the block behind the pointer
yields when read through that cast. -/
structure OpArgs where
  as_general : CacheOpArgs_General
  as_link : CacheOpArgs_Link
  as_deref : CacheOpArgs_Deref
deriving DecidableEq, Repr

/-- The wire shape `CacheOpMsg_short` (declared outside `src/`), with the
members the code in `src/` touches.  `header_init` records that `init()` has
written the common header.  Stored values are taken to fit their fields; in
particular the cast `(uint32_t)` of the enum value `frag_type` keeps it. -/
structure CacheOpMsg_short where
  header_init : Bool
  opcode : CacheOpcode
  frag_type : Nat
  cfl_flags : Nat
  md5 : INK_MD5
  seq_number : Nat
  nbytes : Int
  data : Nat
  buffer_size : Int
deriving DecidableEq, Repr

/-- The wire shape `CacheOpMsg_short_2` (declared outside `src/`). -/
structure CacheOpMsg_short_2 where
  header_init : Bool
  opcode : CacheOpcode
  frag_type : Nat
  cfl_flags : Nat
  md5_1 : INK_MD5
  md5_2 : INK_MD5
  seq_number : Nat
deriving DecidableEq, Repr

/-- The wire shape `CacheOpMsg_long` (declared outside `src/`). -/
structure CacheOpMsg_long where
  header_init : Bool
  opcode : CacheOpcode
  frag_type : Nat
  cfl_flags : Nat
  url_md5 : INK_MD5
  seq_number : Nat
  nbytes : Int
  data : Nat
  buffer_size : Int
deriving DecidableEq, Repr

/-- The raw message buffer `data->data()` before `do_op` writes to it, as seen
through each of the three casts the code applies to `msg`. -/
structure MsgBuffer where
  as_short : CacheOpMsg_short
  as_short_2 : CacheOpMsg_short_2
  as_long : CacheOpMsg_long
deriving DecidableEq, Repr

/-- The message buffer after `do_op` has filled it through one of the casts. -/
inductive WireMsg where
  | short (m : CacheOpMsg_short)
  | short_2 (m : CacheOpMsg_short_2)
  | long (m : CacheOpMsg_long)
deriving DecidableEq, Repr

/-- Handlers `do_op` installs on the initiator VC. -/
inductive VCHandler where
  | openReadStart
  | openWriteStart
  | removeEvent
deriving DecidableEq, Repr

/-- The operation kinds `VIO::READ` and `VIO::WRITE` stored in `vio.op`. -/
inductive VioOp where
  | READ
  | WRITE
deriving DecidableEq, Repr

/-- The members of the initiator VC `ClusterCacheVC` that `do_op` writes.
A member is `none` (for `in_progress`: `false`) as long as `do_op` has not
assigned it. -/
structure ClusterCacheVC where
  handler : Option VCHandler
  vio_op : Option VioOp
  frag_type : Option Nat
  time_pin : Option Int
  cs : Option Nat
  in_progress : Bool
deriving DecidableEq, Repr

/-- The object handed out by `new_ClusterCacheVC(c)`, before `do_op` writes
any member. -/
def new_ClusterCacheVC : ClusterCacheVC :=
  { handler := none, vio_op := none, frag_type := none, time_pin := none, cs := none,
    in_progress := false }

/-- Send priorities of the transport. -/
inductive Priority where
  | PRIORITY_HIGH
  | PRIORITY_MID
  | PRIORITY_LOW
deriving DecidableEq, Repr

/-- Calls `do_op` makes into the transport and the allocator, in program
order. -/
inductive OpEffect where
  | new_ClusterCacheVC (c : Nat)
  | cluster_bind_session (cs : Nat)
  | cluster_set_events (cs : Nat) (mask : Nat)
  | cluster_send_message (cs : Nat) (msg : WireMsg) (data_len : Int) (timeout : Int)
      (priority : Priority)
  | cluster_close_session (cs : Nat)
  | free_ClusterCacheVC
deriving DecidableEq, Repr

/-- The pointer `do_op` returns: null, or the address of `ccvc->_action`. -/
inductive ActionHandle where
  | null
  | ccvc_action
deriving DecidableEq, Repr

/-- What a returning call of `do_op` leaves behind. -/
structure DoOpResult where
  action : ActionHandle
  msg : WireMsg
  ccvc : Option ClusterCacheVC
  cluster_sequence_number : Nat
  effects : List OpEffect
deriving DecidableEq, Repr

/-- Outcome of a call of `do_op`: a failed `ink_release_assert` ends the
process (with the calls made until then), otherwise the call returns. -/
inductive DoOpOutcome where
  | aborted (assertion : String) (effects : List OpEffect)
  | returned (r : DoOpResult)
deriving DecidableEq, Repr

/-- First `switch` of `do_op`: the deprecated open-read-buffer opcodes are
mapped to the open-read ones. -/
def map_opcode (user_opcode : CacheOpcode) : CacheOpcode :=
  match user_opcode with
  | CacheOpcode.CACHE_OPEN_READ_BUFFER => CacheOpcode.CACHE_OPEN_READ
  | CacheOpcode.CACHE_OPEN_READ_BUFFER_LONG => CacheOpcode.CACHE_OPEN_READ_LONG
  | o => o

/-- The `if (c) { ... }` block of `do_op`: allocation and set-up of the
initiator VC for a non-null caller. -/
def setup_ccvc (c : Nat) (cs : Nat) (args : OpArgs) (opcode : CacheOpcode) :
    Option ClusterCacheVC × List OpEffect :=
  if c ≠ 0 then
    let ccvc := new_ClusterCacheVC
    let ccvc :=
      if opcode = CacheOpcode.CACHE_OPEN_READ ∨ opcode = CacheOpcode.CACHE_OPEN_READ_LONG then
        { ccvc with handler := some VCHandler.openReadStart, vio_op := some VioOp.READ,
                    frag_type := some args.as_general.frag_type }
      else if opcode = CacheOpcode.CACHE_OPEN_WRITE ∨
          opcode = CacheOpcode.CACHE_OPEN_WRITE_LONG then
        { ccvc with handler := some VCHandler.openWriteStart, vio_op := some VioOp.WRITE,
                    frag_type := some args.as_general.frag_type }
      else if opcode = CacheOpcode.CACHE_REMOVE then
        { ccvc with handler := some VCHandler.removeEvent,
                    frag_type := some args.as_general.frag_type }
      else ccvc
    (some { ccvc with cs := some cs },
      [OpEffect.new_ClusterCacheVC c, OpEffect.cluster_bind_session cs])
  else
    (none, [])

/-- The cast `(uint32_t) x` of a signed value. -/
def to_uint32 (x : Int) : Nat :=
  (x % 2 ^ 32).toNat

/-- What the shape `switch` of `do_op` leaves behind when no assertion fails:
the filled message, the initiator VC and the sequence counter. -/
structure FilledMsg where
  msg : WireMsg
  ccvc : Option ClusterCacheVC
  cluster_sequence_number : Nat
deriving DecidableEq, Repr

/-- Second `switch` of `do_op`: selects the wire shape from the (mapped)
opcode and fills the message in place.  `Except.error` carries the text of
the failed `ink_release_assert`. -/
def fill_msg (c : Nat) (args : OpArgs) (opcode : CacheOpcode) (data : MsgBuffer)
    (nbytes : Int) (ccvc : Option ClusterCacheVC) (cluster_sequence_number : Nat) :
    Except String FilledMsg :=
  match opcode with
  | CacheOpcode.CACHE_OPEN_WRITE_BUFFER | CacheOpcode.CACHE_OPEN_WRITE_BUFFER_LONG =>
    Except.error "write buffer not supported"
  | CacheOpcode.CACHE_OPEN_READ_BUFFER | CacheOpcode.CACHE_OPEN_READ_BUFFER_LONG =>
    Except.error "read buffer not supported"
  | CacheOpcode.CACHE_OPEN_WRITE | CacheOpcode.CACHE_OPEN_READ =>
    if c = 0 then Except.error "c > 0"
    else
      let seq := new_cache_sequence_number cluster_sequence_number
      let general := args.as_general
      let m : CacheOpMsg_short :=
        { data.as_short with
          header_init := true, opcode := opcode, cfl_flags := general.cfl_flags,
          md5 := general.url_md5, seq_number := seq.1, frag_type := general.frag_type }
      if opcode = CacheOpcode.CACHE_OPEN_WRITE then
        Except.ok
          { msg := WireMsg.short
              { m with nbytes := nbytes, data := to_uint32 general.pin_in_cache,
                       buffer_size := 0 },
            ccvc := ccvc.map (fun v => { v with time_pin := some general.pin_in_cache }),
            cluster_sequence_number := seq.2 }
      else
        Except.ok
          { msg := WireMsg.short { m with nbytes := 0, data := 0, buffer_size := 0 },
            ccvc := ccvc,
            cluster_sequence_number := seq.2 }
  | CacheOpcode.CACHE_OPEN_READ_LONG | CacheOpcode.CACHE_OPEN_WRITE_LONG =>
    if c = 0 then Except.error "c > 0"
    else
      let seq := new_cache_sequence_number cluster_sequence_number
      let general := args.as_general
      Except.ok
        { msg := WireMsg.long
            { data.as_long with
              header_init := true, opcode := opcode, cfl_flags := general.cfl_flags,
              url_md5 := general.url_md5, seq_number := seq.1, nbytes := nbytes,
              data := to_uint32 general.pin_in_cache,
              frag_type := general.frag_type, buffer_size := 0 },
          ccvc := ccvc.map
            (fun v => { v with time_pin := some (to_uint32 general.pin_in_cache : Int) }),
          cluster_sequence_number := seq.2 }
  | CacheOpcode.CACHE_UPDATE | CacheOpcode.CACHE_REMOVE | CacheOpcode.CACHE_DEREF =>
    let seq := new_cache_sequence_number cluster_sequence_number
    Except.ok
      { msg := WireMsg.short
          { data.as_short with
            header_init := true, opcode := opcode, frag_type := args.as_deref.frag_type,
            cfl_flags := args.as_deref.cfl_flags,
            md5 := if opcode = CacheOpcode.CACHE_DEREF then args.as_deref.md5
                   else args.as_general.url_md5,
            seq_number := seq.1 },
        ccvc := ccvc,
        cluster_sequence_number := seq.2 }
  | CacheOpcode.CACHE_LINK =>
    let seq := new_cache_sequence_number cluster_sequence_number
    Except.ok
      { msg := WireMsg.short_2
          { data.as_short_2 with
            header_init := true, opcode := opcode, cfl_flags := args.as_link.cfl_flags,
            md5_1 := args.as_link.from_md5, md5_2 := args.as_link.to_md5,
            seq_number := seq.1, frag_type := args.as_link.frag_type },
        ccvc := ccvc,
        cluster_sequence_number := seq.2 }
  | CacheOpcode.other _ => Except.error "error request_op"

/-- The source function `CacheContinuation::do_op` (the live definition).
`c` is the caller continuation (null: no reply wanted), `cs` the session,
`data` the message buffer, `cluster_sequence_number` the state of the
process-wide counter and `send_result` the value `cluster_send_message`
returns for the one send the function issues. -/
def do_op (c : Nat) (cs : Nat) (args : OpArgs) (user_opcode : CacheOpcode)
    (data : MsgBuffer) (data_len : Int) (nbytes : Int) (cluster_sequence_number : Nat)
    (send_result : Int) : DoOpOutcome :=
  let opcode := map_opcode user_opcode
  let setup := setup_ccvc c cs args opcode
  match fill_msg c args opcode data nbytes setup.1 cluster_sequence_number with
  | Except.error assertion => DoOpOutcome.aborted assertion setup.2
  | Except.ok filled =>
    let ccvc := filled.ccvc.map (fun v => { v with in_progress := true })
    let pre : List OpEffect :=
      match filled.ccvc with
      | none => [OpEffect.cluster_set_events cs 0]
      | some _ => []
    let send := OpEffect.cluster_send_message cs filled.msg data_len (-1) Priority.PRIORITY_HIGH
    if send_result = 0 then
      DoOpOutcome.returned
        { action := match ccvc with
            | some _ => ActionHandle.ccvc_action
            | none => ActionHandle.null,
          msg := filled.msg, ccvc := ccvc,
          cluster_sequence_number := filled.cluster_sequence_number,
          effects := setup.2 ++ pre ++ [send] }
    else
      DoOpOutcome.returned
        { action := ActionHandle.null,
          msg := filled.msg, ccvc := none,
          cluster_sequence_number := filled.cluster_sequence_number,
          effects := setup.2 ++ pre ++ [send, OpEffect.cluster_close_session cs] ++
            (match ccvc with
              | some _ => [OpEffect.free_ClusterCacheVC]
              | none => []) }

/-! ## Sample states -/

/-- A lock oracle under which every try-lock succeeds. -/
def no_lock_held : Nat → Bool := fun _ => false

/-- A lock oracle under which every try-lock fails. -/
def all_locks_held : Nat → Bool := fun _ => true

/-- A digest that hashes to bucket 7. -/
def sample_digest : INK_MD5 := { b0 := 5, b1 := 0x100000003 }

/-- A second digest that hashes to bucket 7. -/
def other_digest : INK_MD5 := { b0 := 1, b1 := 6 }

/-- A table whose bucket 7 holds three entries, two of them with
`sample_digest`; all other buckets are empty. -/
def sample_table : HashTable := fun n =>
  if n = 7 then
    [{ mark_for_delete := false, key := other_digest, vc := 100 },
     { mark_for_delete := true, key := sample_digest, vc := 200 },
     { mark_for_delete := false, key := sample_digest, vc := 300 }]
  else []

/-! ## Reachable states of the reuse cache -/

/-- Number of entries of the whole table (all `MAX_TABLE_ENTRIES` buckets)
whose key is the digest `D`. -/
def entries_with_digest (t : HashTable) (D : INK_MD5) : Nat :=
  ((List.range MAX_TABLE_ENTRIES).map
    (fun n => (t n).countP (fun e => decide (e.key = D)))).sum

/-- States reachable from the empty table by `insert`, `lookup` and the purge
handlers of the buckets, under any lock outcomes. -/
inductive Reachable : HashTable → Prop where
  | init : Reachable empty_table
  | insert (t : HashTable) (held : Nat → Bool) (D : INK_MD5) (vc : Nat) :
      Reachable t → Reachable (insert t held D vc).2
  | lookup (t : HashTable) (held : Nat → Bool) (D : INK_MD5) :
      Reachable t → Reachable (lookup t held D).2
  | sweep (t : HashTable) (held : Nat → Bool) (hash_index : Nat) :
      Reachable t → hash_index < MAX_TABLE_ENTRIES →
      Reachable (eventHandler t held hash_index).2.1

/-- States reachable as in `Reachable`, when `insert(D, vc)` is only invoked
on a table that holds no entry with digest `D`. -/
inductive ReachableGuarded : HashTable → Prop where
  | init : ReachableGuarded empty_table
  | insert (t : HashTable) (held : Nat → Bool) (D : INK_MD5) (vc : Nat) :
      ReachableGuarded t → entries_with_digest t D = 0 →
      ReachableGuarded (insert t held D vc).2
  | lookup (t : HashTable) (held : Nat → Bool) (D : INK_MD5) :
      ReachableGuarded t → ReachableGuarded (lookup t held D).2
  | sweep (t : HashTable) (held : Nat → Bool) (hash_index : Nat) :
      ReachableGuarded t → hash_index < MAX_TABLE_ENTRIES →
      ReachableGuarded (eventHandler t held hash_index).2.1

/-- States reachable from the empty table by `insert`, `lookup` and the purge
handlers of the buckets, under any lock outcomes, when what `insert` is given
is the address of a VC, as at its three call sites: neither null nor the miss
value `(ClusterVConnection *) -1`. -/
inductive ReachableReal : HashTable → Prop where
  | init : ReachableReal empty_table
  | insert (t : HashTable) (held : Nat → Bool) (D : INK_MD5) (vc : Nat) :
      ReachableReal t → vc ≠ 0 → vc ≠ LOOKUP_MISS → ReachableReal (insert t held D vc).2
  | lookup (t : HashTable) (held : Nat → Bool) (D : INK_MD5) :
      ReachableReal t → ReachableReal (lookup t held D).2
  | sweep (t : HashTable) (held : Nat → Bool) (hash_index : Nat) :
      ReachableReal t → hash_index < MAX_TABLE_ENTRIES →
      ReachableReal (eventHandler t held hash_index).2.1

/-- The table after two successful inserts of `sample_digest` into the empty
table. -/
def twice_inserted_table : HashTable :=
  (insert (insert empty_table no_lock_held sample_digest 100).2 no_lock_held
    sample_digest 200).2

/-- The table after successful inserts of `sample_digest` and then
`other_digest` into the empty table. -/
def two_digest_table : HashTable :=
  (insert (insert empty_table no_lock_held sample_digest 100).2 no_lock_held
    other_digest 200).2

/-- Every entry sits in the bucket of its key, and no bucket holds two
entries with the same key. -/
def table_inv (t : HashTable) : Prop :=
  (∀ n, ∀ e ∈ t n, bucket_of e.key = n) ∧
  (∀ n D, (t n).countP (fun e => decide (e.key = D)) ≤ 1)

/-! ## Runs of lookups -/

/-- The call `lookup(D)` on table `t` leaves through the `// Hit` branch: the
try-lock succeeds and the loop finds an entry. -/
def lookup_hits (t : HashTable) (held : Nat → Bool) (D : INK_MD5) : Bool :=
  !held (bucket_of D) && (lookup_loop D (t (bucket_of D))).isSome

/-- A sequence of `lookup` calls, one per digest of the list, run one after
the other.  Yields the hits in call order, each as the digest looked up with
the vc returned, and the table after the last call. -/
def lookup_run (t : HashTable) (held : Nat → Bool) :
    List INK_MD5 → List (INK_MD5 × Nat) × HashTable
  | [] => ([], t)
  | D :: ds =>
    if lookup_hits t held D then
      ((D, (lookup t held D).1) :: (lookup_run (lookup t held D).2 held ds).1,
        (lookup_run (lookup t held D).2 held ds).2)
    else
      lookup_run (lookup t held D).2 held ds

/-- Key and vc of an entry. -/
def Entry.key_vc (e : Entry) : INK_MD5 × Nat := (e.key, e.vc)

/-! ## The purge, stated on lists -/

/-- The calls the purge makes for one marked entry: `allow_remote_close` and
`do_io(CLOSE)` on its vc, then the entry is freed. -/
def purge_calls (e : Entry) : List PurgeEffect :=
  [PurgeEffect.allow_remote_close e.vc, PurgeEffect.do_io_close e.vc,
    PurgeEffect.free_entry e]

/-- The entry `e` with its mark set. -/
def Entry.marked (e : Entry) : Entry :=
  { e with mark_for_delete := true }

/-! ## Sequences of calls on the reuse cache -/

/-- One call on the reuse cache together with the lock outcomes it meets:
`insert(key, vc)`, `lookup(key)`, or a run of the purge handler of bucket
`hash_index`. -/
inductive CacheOp where
  | insert (held : Nat → Bool) (key : INK_MD5) (vc : Nat)
  | lookup (held : Nat → Bool) (key : INK_MD5)
  | sweep (held : Nat → Bool) (hash_index : Nat)

/-- The table after the call. -/
def CacheOp.run (t : HashTable) : CacheOp → HashTable
  | CacheOp.insert held key vc => (ClusterCache.insert t held key vc).2
  | CacheOp.lookup held key => (ClusterCache.lookup t held key).2
  | CacheOp.sweep held hash_index => (eventHandler t held hash_index).2.1

/-- The table after a sequence of calls, run one after the other. -/
def run_ops (t : HashTable) : List CacheOp → HashTable
  | [] => t
  | op :: ops => run_ops (op.run t) ops

/-- The call is an `insert`. -/
def CacheOp.is_insert : CacheOp → Bool
  | CacheOp.insert _ _ _ => true
  | _ => false

/-- Position in a queue of the first entry whose key is `key`: the entry the
loop of `lookup` unlinks. -/
def first_index (key : INK_MD5) : List Entry → Option Nat
  | [] => none
  | e :: rest => if key = e.key then some 0 else (first_index key rest).map (fun j => j + 1)

/-- The call leaves the entry at position `i` of bucket `n` linked: it is
neither a `lookup` that acquires the lock of bucket `n` and hits that entry,
nor a purge run that acquires the lock of bucket `n`. -/
def CacheOp.spares (t : HashTable) (n i : Nat) : CacheOp → Bool
  | CacheOp.insert _ _ _ => true
  | CacheOp.lookup held key =>
    held (bucket_of key) || decide (bucket_of key ≠ n) ||
      decide (first_index key (t n) ≠ some i)
  | CacheOp.sweep held hash_index => held hash_index || decide (hash_index ≠ n)

/-- Position after the call of the entry that is at position `i` of bucket
`n` before it, for a call that spares the entry: a `lookup` that unlinks an
entry in front of it moves it up by one. -/
def CacheOp.track (t : HashTable) (n i : Nat) : CacheOp → Nat
  | CacheOp.lookup held key =>
    if held (bucket_of key) = false ∧ bucket_of key = n then
      match first_index key (t n) with
      | some j => if j < i then i - 1 else i
      | none => i
    else i
  | _ => i

/-- Every call of the sequence spares the entry that starts at position `i`
of bucket `n`. -/
def spared_run (t : HashTable) (n i : Nat) : List CacheOp → Bool
  | [] => true
  | op :: ops => op.spares t n i && spared_run (op.run t) n (op.track t n i) ops

/-- Position after the sequence of calls of the entry that starts at position
`i` of bucket `n`. -/
def track_run (t : HashTable) (n i : Nat) : List CacheOp → Nat
  | [] => i
  | op :: ops => track_run (op.run t) n (op.track t n i) ops

/-- Number of unmarked entries among the first `i` of a queue: the position,
after a purge run, of an unmarked entry that is at position `i` before it. -/
def unmarked_before (q : List Entry) (i : Nat) : Nat :=
  (q.take i).countP (fun e => !e.mark_for_delete)

/-- The calls between the insert and the first lock-acquiring purge run in the
instance: a lookup of the inserted digest that hits an older entry, one that
misses the lock, and a purge run that misses the lock. -/
def sample_ops_1 : List CacheOp :=
  [CacheOp.lookup no_lock_held sample_digest, CacheOp.lookup all_locks_held sample_digest,
   CacheOp.sweep all_locks_held 7]

/-- The calls between the two lock-acquiring purge runs in the instance: a
lookup of the inserted digest that hits an older entry, and an insert of
another digest into the same bucket. -/
def sample_ops_2 : List CacheOp :=
  [CacheOp.lookup no_lock_held sample_digest, CacheOp.insert no_lock_held other_digest 500]

/-! ## Reading the common members of a filled message -/

/-- The member `seq_number` of a filled message. -/
def WireMsg.seq_number : WireMsg → Nat
  | WireMsg.short m => m.seq_number
  | WireMsg.short_2 m => m.seq_number
  | WireMsg.long m => m.seq_number

/-- The member `opcode` of a filled message. -/
def WireMsg.opcode : WireMsg → CacheOpcode
  | WireMsg.short m => m.opcode
  | WireMsg.short_2 m => m.opcode
  | WireMsg.long m => m.opcode

/-- The send call among the recorded calls. -/
def OpEffect.is_send : OpEffect → Bool
  | OpEffect.cluster_send_message _ _ _ _ _ => true
  | _ => false

/-! ## Sample request -/

/-- A sample argument block. -/
def sample_args : OpArgs :=
  { as_general := { url_md5 := sample_digest, pin_in_cache := 5, frag_type := 1,
                    cfl_flags := 3 },
    as_link := { from_md5 := sample_digest, to_md5 := other_digest, cfl_flags := 3,
                 frag_type := 1 },
    as_deref := { md5 := sample_digest, cfl_flags := 3, frag_type := 1 } }

/-- A sample message buffer, all members zero. -/
def sample_buffer : MsgBuffer :=
  { as_short := { header_init := false, opcode := CacheOpcode.other 0, frag_type := 0,
                  cfl_flags := 0, md5 := { b0 := 0, b1 := 0 }, seq_number := 0,
                  nbytes := 0, data := 0, buffer_size := 0 },
    as_short_2 := { header_init := false, opcode := CacheOpcode.other 0, frag_type := 0,
                    cfl_flags := 0, md5_1 := { b0 := 0, b1 := 0 },
                    md5_2 := { b0 := 0, b1 := 0 }, seq_number := 0 },
    as_long := { header_init := false, opcode := CacheOpcode.other 0, frag_type := 0,
                 cfl_flags := 0, url_md5 := { b0 := 0, b1 := 0 }, seq_number := 0,
                 nbytes := 0, data := 0, buffer_size := 0 } }

/-- The session close among the recorded calls. -/
def OpEffect.is_close : OpEffect → Bool
  | OpEffect.cluster_close_session _ => true
  | _ => false

/-- The result of the send-failure run of `do_op` used as an instance: a
REMOVE request from caller 1 on session 7 whose send returns 5. -/
def sample_failed_send : DoOpResult :=
  { action := ActionHandle.null,
    msg := WireMsg.short
      { sample_buffer.as_short with
        header_init := true, opcode := CacheOpcode.CACHE_REMOVE, frag_type := 1,
        cfl_flags := 3, md5 := sample_digest, seq_number := 1 },
    ccvc := none,
    cluster_sequence_number := 2,
    effects :=
      [OpEffect.new_ClusterCacheVC 1, OpEffect.cluster_bind_session 7,
       OpEffect.cluster_send_message 7
         (WireMsg.short
           { sample_buffer.as_short with
             header_init := true, opcode := CacheOpcode.CACHE_REMOVE, frag_type := 1,
             cfl_flags := 3, md5 := sample_digest, seq_number := 1 })
         64 (-1) Priority.PRIORITY_HIGH,
       OpEffect.cluster_close_session 7, OpEffect.free_ClusterCacheVC] }

/-! ## The responder: events, record and collaborators

The responder handlers are embedded as the release build compiles them:
`ink_assert(e)` evaluates `e` and goes on whatever its value, and
`ink_debug_assert` is empty; `ink_release_assert` ends the process.  A member
call through a null `cache_vc`, `vio` or `reader` ends the handler as a
crash. -/

/-- Event codes seen by the responder and the initiator.  Their numeric
values are declared outside `src/`; the named ones are taken to be pairwise
distinct (those of one `switch` are), and `other` stands for any further
code, with the flag telling whether it lies in the cluster frame range. -/
inductive Event where
  | CLUSTER_INTERNEL_ERROR
  | CLUSTER_CACHE_DATA_ABORT
  | CLUSTER_CACHE_DATA_CLOSE
  | CLUSTER_CACHE_DATA_READ_BEGIN
  | CLUSTER_CACHE_DATA_READ_REENABLE
  | CLUSTER_CACHE_DATA_WRITE_BEGIN
  | CLUSTER_CACHE_DATA_WRITE_DONE
  | CLUSTER_CACHE_HEADER_ONLY_UPDATE
  | CACHE_EVENT_OPEN_READ
  | CACHE_EVENT_OPEN_READ_FAILED
  | CACHE_EVENT_OPEN_WRITE
  | CACHE_EVENT_OPEN_WRITE_FAILED
  | CACHE_EVENT_REMOVE
  | CACHE_EVENT_REMOVE_FAILED
  | CACHE_EVENT_LINK
  | CACHE_EVENT_LINK_FAILED
  | CACHE_EVENT_UPDATE_FAILED
  | CACHE_EVENT_DEREF_FAILED
  | VC_EVENT_READ_READY
  | VC_EVENT_READ_COMPLETE
  | VC_EVENT_EOS
  | VC_EVENT_ERROR
  | VC_EVENT_WRITE_READY
  | VC_EVENT_WRITE_COMPLETE
  | other (code : Int) (cluster_msg : Bool)
deriving DecidableEq, Repr

/-- Modelled from the spec: the test
`event > CLUSTER_MSG_START && event <= CLUSTER_INTERNEL_ERROR` on event codes
declared outside `src/`.  The range is taken to hold the cluster frame events
(`CLUSTER_CACHE_...` and `CLUSTER_INTERNEL_ERROR`) and none of the
`CACHE_EVENT_...` and `VC_EVENT_...` codes. -/
def Event.is_cluster_msg : Event → Bool
  | Event.CLUSTER_INTERNEL_ERROR => true
  | Event.CLUSTER_CACHE_DATA_ABORT => true
  | Event.CLUSTER_CACHE_DATA_CLOSE => true
  | Event.CLUSTER_CACHE_DATA_READ_BEGIN => true
  | Event.CLUSTER_CACHE_DATA_READ_REENABLE => true
  | Event.CLUSTER_CACHE_DATA_WRITE_BEGIN => true
  | Event.CLUSTER_CACHE_DATA_WRITE_DONE => true
  | Event.CLUSTER_CACHE_HEADER_ONLY_UPDATE => true
  | Event.other _ cluster_msg => cluster_msg
  | _ => false

/-- Modelled from the spec: `event_is_open` is declared outside `src/`; it
holds for the two successful open results. -/
def event_is_open (result : Event) : Bool :=
  decide (result = Event.CACHE_EVENT_OPEN_READ) || decide (result = Event.CACHE_EVENT_OPEN_WRITE)

/-- The fragment type `CACHE_FRAG_TYPE_HTTP` (declared outside `src/`; only
compared for equality). -/
def CACHE_FRAG_TYPE_HTTP : Nat := 1

/-- Handler return code `EVENT_CONT`. -/
def EVENT_CONT : Int := 1

/-- What the responder reads from a `CacheHTTPInfo`. -/
structure CacheHTTPInfo where
  valid : Bool
  object_size : Int
  marshal_length : Int
deriving DecidableEq, Repr

/-- What the responder reads from the request header `ic_request`:
`valid()` and whether `presence(...)` finds one of If-Modified-Since,
If-None-Match, If-Unmodified-Since, If-Match, Range. -/
structure CacheHTTPHdr where
  valid : Bool
  conditional : Bool
deriving DecidableEq, Repr

/-- What the responder reads from the local cache VC behind `cache_vc`. -/
structure CacheVC where
  ptr : Nat
  flags : Int
  object_size : Int
  http_info : CacheHTTPInfo
  read_from_writer : Bool
deriving DecidableEq, Repr

/-- The VIO returned by the local cache VC; `nbytes` is the member the
handlers read and write. -/
structure CacheVio where
  nbytes : Int
deriving DecidableEq, Repr

/-- The continuation handlers of a responder record. -/
inductive ContHandler where
  | setupVCdataRead
  | VCSmallDataRead
  | setupVCdataWrite
  | setupVCdataRemove
  | setupVCdataLink
  | setupVCdataDeref
  | VCdataRead
  | VCdataWrite
deriving DecidableEq, Repr

/-- The responder record `CacheContinuation`, with the members the live
handlers use.  `mbuf` stands for the pair `mbuf` / `reader` (allocated
together), `doc_data` for a non-null block list. -/
structure CacheContinuation where
  cs : Nat
  handler : Option ContHandler
  request_opcode : CacheOpcode
  frag_type : Nat
  seq_number : Nat
  cfl_flags : Nat
  url_md5 : INK_MD5
  pin_in_cache : Int
  nbytes : Int
  pending_action : Option Nat
  result : Event
  result_error : Int
  cache_vc : Option CacheVC
  cache_vc_info : CacheHTTPInfo
  doc_size : Int
  ic_request : CacheHTTPHdr
  ic_hostname_len : Int
  request_purge : Bool
  mbuf : Bool
  vio : Option CacheVio
  total_length : Int
  doc_data : Bool
  have_all_data : Bool
  expect_next : Bool
  writer_aborted : Bool
  rw_buf_msg_len : Int
deriving DecidableEq, Repr

/-- Modelled from the spec: `new_CacheCont` is declared outside `src/`; the
record it hands out has no pending action, no cache VC, no buffers, zero
counters and cleared latches (the spec lists the accumulated byte count, the
expect-next latch and the writer-aborted flag as created with the record). -/
def new_CacheCont : CacheContinuation :=
  { cs := 0, handler := none, request_opcode := CacheOpcode.other 0, frag_type := 0,
    seq_number := 0, cfl_flags := 0, url_md5 := { b0 := 0, b1 := 0 }, pin_in_cache := 0,
    nbytes := 0, pending_action := none, result := Event.other 0 false, result_error := 0,
    cache_vc := none,
    cache_vc_info := { valid := false, object_size := 0, marshal_length := 0 },
    doc_size := 0, ic_request := { valid := false, conditional := false },
    ic_hostname_len := 0, request_purge := false, mbuf := false, vio := none,
    total_length := 0, doc_data := false, have_all_data := false, expect_next := false,
    writer_aborted := false, rw_buf_msg_len := 0 }

/-- The reply message `CacheOpReplyMsg` (declared outside `src/`), with the
members the code in `src/` touches. -/
structure CacheOpReplyMsg where
  version : Nat
  need_byte_swap : Bool
  seq_number : Nat
  result : Event
  reason : Int
  h_len : Int
  doc_size : Int
  d_len : Int
deriving DecidableEq, Repr

/-- The version tag `CacheOpReplyMsg::CACHE_OP_REPLY_MESSAGE_VERSION`
(declared outside `src/`; only compared for equality). -/
def CACHE_OP_REPLY_MESSAGE_VERSION : Nat := 1

/-- Modelled from the spec: the constructor of `CacheOpReplyMsg` is declared
outside `src/`; it writes the common header (current version, native byte
order) and zeroes the other members. -/
def CacheOpReplyMsg_init : CacheOpReplyMsg :=
  { version := CACHE_OP_REPLY_MESSAGE_VERSION, need_byte_swap := false, seq_number := 0,
    result := Event.other 0 false, reason := 0, h_len := 0, doc_size := 0, d_len := 0 }

/-- A frame delivered with a cluster event, `ClusterCont *cc`: the version
tag of its common header, `cc->data_len`, and the members the handlers read
through the casts to `SetIOReadMessage`, `SetIOWriteMessage`,
`SetIOCloseMessage` and `int64_t`. -/
structure ClusterFrame where
  version : Nat
  data_len : Int
  read_nbytes : Int
  read_offset : Int
  write_nbytes : Int
  write_hdr_len : Int
  close_h_len : Int
  close_d_len : Int
  close_nbytes : Int
deriving DecidableEq, Repr

/-- Everything one handler invocation reads from outside the record: the
event argument `data` under the casts the handlers apply, and the values the
collaborators return during the invocation. -/
structure HandlerEnv where
  data_vc : CacheVC
  data_int : Int
  frame : ClusterFrame
  read_avail : Int
  reader_block : Bool
  send_result : Int
  close_result : Bool
  http_unmarshal : Int
  vio_ndone : Int
deriving DecidableEq, Repr

/-- Message kinds the responder sends. -/
inductive SendKind where
  | CLUSTER_CACHE_OP_RESULT_CLUSTER_FUNCTION
  | CLUSTER_CACHE_DATA_READ_DONE
  | CLUSTER_CACHE_DATA_ERROR
  | CLUSTER_CACHE_DATA_ABORT
deriving DecidableEq, Repr

/-- What a sent message carries: a reply (with or without a data block
chain behind the head block), a chain of `n` payload bytes, an event code,
or nothing. -/
inductive Payload where
  | reply (msg : CacheOpReplyMsg) (data : Bool)
  | bytes (n : Int)
  | event_code (e : Event)
  | empty
deriving DecidableEq, Repr

/-- The session event mask values used by the responder. -/
inductive EventMask where
  | RESPONSE_EVENT_NOTIFY_DEALER
deriving DecidableEq, Repr

/-- How the local cache VC is closed: `do_io_close()`,
`do_io_close(EHTTP_ERROR)`, or `do_io(VIO::CLOSE)` by the free routine. -/
inductive CloseKind where
  | plain
  | EHTTP_ERROR
  | by_free
deriving DecidableEq, Repr

/-- Calls the responder makes into its collaborators, in program order. -/
inductive RespEffect where
  | cluster_close_session (cs : Nat)
  | cluster_set_events (cs : Nat) (mask : EventMask)
  | cluster_send_message (cs : Nat) (kind : SendKind) (payload : Payload)
      (priority : Priority)
  | do_io_read (nbytes : Int)
  | do_io_pread (nbytes : Int) (offset : Int)
  | do_io_write (nbytes : Int)
  | do_io_close (kind : CloseKind)
  | vio_reenable
  | set_http_info
  | append_block (len : Int)
  | pending_action_cancel
  | free_MIOBuffer
  | allocator_free
deriving DecidableEq, Repr

/-- Outcome of a handler invocation: a crash on a null member call, or a
return with the handler result, the record (`none` once freed) and the calls
made. -/
inductive HandlerOutcome where
  | crashed (why : String) (effects : List RespEffect)
  | returned (ret : Int) (cont : Option CacheContinuation) (effects : List RespEffect)
deriving DecidableEq, Repr

/-- Conversion of a signed value to `int` / `int32_t` (two's complement). -/
def int_to_int32 (x : Int) : Int :=
  to_int32 (x % 2 ^ 32).toNat

/-- The source function `CacheContinuation::cacheContAllocator_free`: cancels
a pending action, frees the buffer, closes a cache VC that is still set with
`do_io(VIO::CLOSE)`, and gives the record back to the allocator. -/
def cacheContAllocator_free (c : CacheContinuation) : List RespEffect :=
  (if c.pending_action.isSome then [RespEffect.pending_action_cancel] else []) ++
  (if c.mbuf then [RespEffect.free_MIOBuffer] else []) ++
  (if c.cache_vc.isSome then [RespEffect.do_io_close CloseKind.by_free] else []) ++
  [RespEffect.allocator_free]

/-- Modelled from the spec: `free_CacheCont` is declared outside `src/`; it
is taken to be the free routine of the record that `src/` holds,
`cacheContAllocator_free` (the spec has the cache VC closed exactly once by
the time the record is gone). -/
def free_CacheCont (c : CacheContinuation) : List RespEffect :=
  cacheContAllocator_free c

/-- The terminal sequence `ink_assert(cluster_close_session(cs));
free_CacheCont(this); return EVENT_DONE;` after the calls `pre`. -/
def close_and_free (c : CacheContinuation) (pre : List RespEffect) : HandlerOutcome :=
  HandlerOutcome.returned EVENT_DONE none
    (pre ++ [RespEffect.cluster_close_session c.cs] ++ free_CacheCont c)

/-- Result of `replyOpEvent`: the value of the send, the record afterwards
and the calls made. -/
structure ReplyResult where
  send_result : Int
  cont : CacheContinuation
  effects : List RespEffect
deriving DecidableEq, Repr

/-- The reply message `replyOpEvent` builds from the record. -/
def reply_msg (c : CacheContinuation) : CacheOpReplyMsg :=
  let msg : CacheOpReplyMsg :=
    { CacheOpReplyMsg_init with
      seq_number := c.seq_number, result := c.result, reason := c.result_error }
  if event_is_open c.result && decide (c.result = Event.CACHE_EVENT_OPEN_READ) then
    { msg with
      h_len := if c.cache_vc_info.valid then c.cache_vc_info.marshal_length else msg.h_len,
      doc_size := c.doc_size,
      d_len := int_to_int32 c.total_length }
  else msg

/-- The source function `CacheContinuation::replyOpEvent`: builds the reply
from the record, hands `doc_data` over to it for an open-read result, and
sends it with `PRIORITY_MID`; the result is the value of the send. -/
def replyOpEvent (c : CacheContinuation) (env : HandlerEnv) : ReplyResult :=
  if event_is_open c.result && decide (c.result = Event.CACHE_EVENT_OPEN_READ) then
    { send_result := env.send_result,
      cont := { c with doc_data := false },
      effects := [RespEffect.cluster_send_message c.cs
        SendKind.CLUSTER_CACHE_OP_RESULT_CLUSTER_FUNCTION
        (Payload.reply (reply_msg c) c.doc_data) Priority.PRIORITY_MID] }
  else
    { send_result := env.send_result,
      cont := c,
      effects := [RespEffect.cluster_send_message c.cs
        SendKind.CLUSTER_CACHE_OP_RESULT_CLUSTER_FUNCTION
        (Payload.reply (reply_msg c) false) Priority.PRIORITY_MID] }

/-- The record of `setupVCdataRead` after a `CACHE_EVENT_OPEN_READ`: the
cache VC is kept and `doc_size` is read from it. -/
def open_read_record (c : CacheContinuation) (env : HandlerEnv) : CacheContinuation :=
  if c.frag_type = CACHE_FRAG_TYPE_HTTP then
    { c with pending_action := none, result := Event.CACHE_EVENT_OPEN_READ,
             cache_vc := some env.data_vc, cache_vc_info := env.data_vc.http_info,
             doc_size := env.data_vc.http_info.object_size }
  else
    { c with pending_action := none, result := Event.CACHE_EVENT_OPEN_READ,
             cache_vc := some env.data_vc, doc_size := env.data_vc.object_size }

/-- The local `request_conditional` of `setupVCdataRead`. -/
def request_conditional (c : CacheContinuation) : Bool :=
  decide (c.frag_type = CACHE_FRAG_TYPE_HTTP) && c.ic_request.valid && c.ic_request.conditional

/-- The tail of `setupVCdataRead` after the small-object test (`// send
reponse back`): the reply is sent; on a send error, a result other than
`CACHE_EVENT_OPEN_READ` or a `doc_size` of 0 the session is closed and the
record freed, otherwise streaming is entered (`// for big file`). -/
def reply_then_stream (c : CacheContinuation) (env : HandlerEnv) : HandlerOutcome :=
  if (replyOpEvent c env).send_result ≠ 0 ∨
      (replyOpEvent c env).cont.result ≠ Event.CACHE_EVENT_OPEN_READ ∨
      (replyOpEvent c env).cont.doc_size = 0 then
    close_and_free (replyOpEvent c env).cont (replyOpEvent c env).effects
  else
    HandlerOutcome.returned EVENT_CONT
      (some { (replyOpEvent c env).cont with
              expect_next := true, handler := some ContHandler.VCdataRead })
      ((replyOpEvent c env).effects ++
        [RespEffect.cluster_set_events c.cs EventMask.RESPONSE_EVENT_NOTIFY_DEALER])

/-- The source function `CacheContinuation::setupVCdataRead`;
`SIZE_OF_FRAGEMENT` is the threshold constant declared outside `src/`. -/
def setupVCdataRead (SIZE_OF_FRAGEMENT : Int) (c : CacheContinuation) (event : Event)
    (env : HandlerEnv) : HandlerOutcome :=
  if event.is_cluster_msg then close_and_free c []
  else if event = Event.CACHE_EVENT_OPEN_READ then
    if 0 < (open_read_record c env).doc_size ∧
        (open_read_record c env).doc_size < SIZE_OF_FRAGEMENT ∧
        env.data_vc.read_from_writer = false ∧ request_conditional c = false then
      HandlerOutcome.returned EVENT_CONT
        (some { open_read_record c env with
                handler := some ContHandler.VCSmallDataRead, mbuf := true,
                vio := some { nbytes := (open_read_record c env).doc_size } })
        [RespEffect.do_io_read (open_read_record c env).doc_size]
    else
      reply_then_stream
        { open_read_record c env with result_error := int_to_int32 env.data_vc.flags } env
  else
    reply_then_stream
      { c with pending_action := none, result := Event.CACHE_EVENT_OPEN_READ_FAILED,
               result_error := int_to_int32 env.data_int } env

/-- The tail of `VCSmallDataRead`: `replyOpEvent()`, then the session is
closed and the record freed. -/
def reply_close_free (c : CacheContinuation) (env : HandlerEnv)
    (pre : List RespEffect) : HandlerOutcome :=
  close_and_free (replyOpEvent c env).cont (pre ++ (replyOpEvent c env).effects)

/-- The source function `CacheContinuation::VCSmallDataRead`. -/
def VCSmallDataRead (c : CacheContinuation) (event : Event) (env : HandlerEnv) :
    HandlerOutcome :=
  if event.is_cluster_msg then close_and_free c []
  else
    match event with
    | Event.VC_EVENT_READ_READY =>
      if c.mbuf = false then HandlerOutcome.crashed "reader is null" []
      else if c.vio.isNone then HandlerOutcome.crashed "vio is null" []
      else
        HandlerOutcome.returned EVENT_CONT
          (some { c with total_length := c.total_length + env.read_avail,
                         doc_data := if c.doc_data then c.doc_data else env.reader_block })
          [RespEffect.vio_reenable]
    | Event.VC_EVENT_EOS =>
      reply_close_free
        { c with doc_data := false, result := Event.CACHE_EVENT_OPEN_READ_FAILED } env []
    | Event.VC_EVENT_READ_COMPLETE =>
      if c.mbuf = false then HandlerOutcome.crashed "reader is null" []
      else
        reply_close_free
          { c with total_length := c.total_length + env.read_avail,
                   doc_data := if c.doc_data then c.doc_data else env.reader_block,
                   have_all_data := true } env []
    | _ =>
      reply_close_free { c with result := Event.CACHE_EVENT_OPEN_READ_FAILED } env []

/-- The record of `setupVCdataWrite` before the reply: the result and
`result_error` are set from the event. -/
def open_write_record (c : CacheContinuation) (event : Event) (env : HandlerEnv) :
    CacheContinuation :=
  if event = Event.CACHE_EVENT_OPEN_WRITE then
    { c with pending_action := none, result := Event.CACHE_EVENT_OPEN_WRITE,
             cache_vc := some env.data_vc,
             result_error := int_to_int32 env.data_vc.flags }
  else
    { c with pending_action := none, result := Event.CACHE_EVENT_OPEN_WRITE_FAILED,
             result_error := int_to_int32 env.data_int }

/-- The source function `CacheContinuation::setupVCdataWrite`. -/
def setupVCdataWrite (c : CacheContinuation) (event : Event) (env : HandlerEnv) :
    HandlerOutcome :=
  if event.is_cluster_msg then close_and_free c []
  else if (replyOpEvent (open_write_record c event env) env).send_result ≠ 0 ∨
      (replyOpEvent (open_write_record c event env) env).cont.result ≠
        Event.CACHE_EVENT_OPEN_WRITE then
    close_and_free (replyOpEvent (open_write_record c event env) env).cont
      (replyOpEvent (open_write_record c event env) env).effects
  else
    HandlerOutcome.returned EVENT_CONT
      (some { (replyOpEvent (open_write_record c event env) env).cont with
              expect_next := true, handler := some ContHandler.VCdataWrite })
      ((replyOpEvent (open_write_record c event env) env).effects ++
        [RespEffect.cluster_set_events c.cs EventMask.RESPONSE_EVENT_NOTIFY_DEALER])

/-- The source function `CacheContinuation::setupVCdataRemove`. -/
def setupVCdataRemove (c : CacheContinuation) (event : Event) (env : HandlerEnv) :
    HandlerOutcome :=
  if event.is_cluster_msg then close_and_free c []
  else
    reply_close_free
      { c with pending_action := none,
               result := if event = Event.CACHE_EVENT_REMOVE then Event.CACHE_EVENT_REMOVE
                         else Event.CACHE_EVENT_REMOVE_FAILED,
               result_error := if event = Event.CACHE_EVENT_REMOVE_FAILED
                               then int_to_int32 env.data_int else 0 } env []

/-- The source functions `setupVCdataLink` and `setupVCdataDeref`: the
`ink_assert(!"not implement")` does not stop a release build, the handler
returns 0. -/
def setupVCdataLink (c : CacheContinuation) : HandlerOutcome :=
  HandlerOutcome.returned 0 (some c) []

/-- The label `free_exit` of `VCdataRead`: the cache VC is closed with
`do_io_close()` and cleared, then the session is closed and the record
freed. -/
def free_exit (c : CacheContinuation) (pre : List RespEffect) : HandlerOutcome :=
  if c.cache_vc.isNone then HandlerOutcome.crashed "cache_vc is null" pre
  else
    close_and_free { c with cache_vc := none }
      (pre ++ [RespEffect.do_io_close CloseKind.plain])

/-- The source function `CacheContinuation::VCdataRead`. -/
def VCdataRead (c : CacheContinuation) (event : Event) (env : HandlerEnv) :
    HandlerOutcome :=
  match event with
  | Event.CLUSTER_CACHE_DATA_ABORT | Event.CLUSTER_CACHE_DATA_CLOSE
  | Event.CLUSTER_INTERNEL_ERROR =>
    free_exit { c with expect_next := false } []
  | Event.CLUSTER_CACHE_DATA_READ_BEGIN =>
    if c.cache_vc.isNone then HandlerOutcome.crashed "cache_vc is null" []
    else
      HandlerOutcome.returned EVENT_CONT
        (some { c with mbuf := true, vio := some { nbytes := env.frame.read_nbytes },
                       expect_next := false })
        [RespEffect.do_io_pread env.frame.read_nbytes env.frame.read_offset]
  | Event.CLUSTER_CACHE_DATA_READ_REENABLE =>
    if c.vio.isNone then HandlerOutcome.crashed "vio is null" []
    else
      HandlerOutcome.returned EVENT_CONT (some { c with expect_next := false })
        [RespEffect.vio_reenable]
  | Event.VC_EVENT_READ_READY | Event.VC_EVENT_READ_COMPLETE =>
    if c.mbuf = false then HandlerOutcome.crashed "reader is null" []
    else
      let c1 := { c with total_length := c.total_length + env.read_avail }
      let sent := [RespEffect.cluster_send_message c.cs SendKind.CLUSTER_CACHE_DATA_READ_DONE
        (Payload.bytes env.read_avail) Priority.PRIORITY_LOW]
      if env.send_result ≠ 0 then free_exit c1 sent
      else
        match c1.vio with
        | none => HandlerOutcome.crashed "vio is null" sent
        | some vio =>
          if c1.total_length ≥ vio.nbytes then free_exit c1 sent
          else
            HandlerOutcome.returned EVENT_CONT (some { c1 with expect_next := true })
              (sent ++
                [RespEffect.cluster_set_events c.cs EventMask.RESPONSE_EVENT_NOTIFY_DEALER])
  | _ =>
    free_exit c
      [RespEffect.cluster_send_message c.cs SendKind.CLUSTER_CACHE_DATA_ERROR
        (Payload.event_code event) Priority.PRIORITY_HIGH]

/-- The common exit of `VCdataWrite` after the `switch`: the session is
closed and the record freed. -/
def write_exit (c : CacheContinuation) (pre : List RespEffect) : HandlerOutcome :=
  close_and_free c pre

/-- The case `VC_EVENT_WRITE_COMPLETE` of `VCdataWrite` (also reached by
falling through from `CLUSTER_CACHE_DATA_CLOSE`): the cache VC is closed with
`do_io_close()` and cleared, then the common exit. -/
def write_complete (c : CacheContinuation) (pre : List RespEffect) : HandlerOutcome :=
  if c.cache_vc.isNone then HandlerOutcome.crashed "cache_vc is null" pre
  else
    write_exit { c with cache_vc := none } (pre ++ [RespEffect.do_io_close CloseKind.plain])

/-- The source function `CacheContinuation::VCdataWrite`. -/
def VCdataWrite (c : CacheContinuation) (event : Event) (env : HandlerEnv) :
    HandlerOutcome :=
  match event with
  | Event.CLUSTER_CACHE_DATA_WRITE_BEGIN =>
    let c1 := { c with expect_next := false }
    if c1.frag_type = CACHE_FRAG_TYPE_HTTP then
      if env.http_unmarshal ≥ 0 then
        if c1.cache_vc.isNone then HandlerOutcome.crashed "cache_vc is null" []
        else
          HandlerOutcome.returned EVENT_CONT
            (some { c1 with mbuf := true, vio := some { nbytes := env.frame.write_nbytes } })
            [RespEffect.set_http_info, RespEffect.do_io_write env.frame.write_nbytes]
      else if c1.cache_vc.isNone then
        HandlerOutcome.crashed "cache_vc is null"
          [RespEffect.cluster_send_message c.cs SendKind.CLUSTER_CACHE_DATA_ERROR
            (Payload.event_code Event.VC_EVENT_ERROR) Priority.PRIORITY_HIGH]
      else
        write_exit { c1 with cache_vc := none }
          [RespEffect.cluster_send_message c.cs SendKind.CLUSTER_CACHE_DATA_ERROR
            (Payload.event_code Event.VC_EVENT_ERROR) Priority.PRIORITY_HIGH,
           RespEffect.do_io_close CloseKind.EHTTP_ERROR]
    else if c1.cache_vc.isNone then HandlerOutcome.crashed "cache_vc is null" []
    else
      HandlerOutcome.returned EVENT_CONT
        (some { c1 with mbuf := true, vio := some { nbytes := env.frame.write_nbytes } })
        [RespEffect.do_io_write env.frame.write_nbytes]
  | Event.CLUSTER_CACHE_HEADER_ONLY_UPDATE =>
    let c1 := { c with expect_next := false }
    if c1.writer_aborted then write_exit c1 []
    else if c1.cache_vc.isNone then HandlerOutcome.crashed "cache_vc is null" []
    else if c1.frag_type = CACHE_FRAG_TYPE_HTTP then
      if env.http_unmarshal ≥ 0 then
        write_exit { c1 with cache_vc := none }
          [RespEffect.set_http_info, RespEffect.do_io_close CloseKind.plain]
      else
        write_exit { c1 with cache_vc := none }
          [RespEffect.do_io_close CloseKind.EHTTP_ERROR]
    else
      write_exit { c1 with cache_vc := none } [RespEffect.do_io_close CloseKind.plain]
  | Event.CLUSTER_CACHE_DATA_WRITE_DONE =>
    let c1 := { c with expect_next := false }
    if c1.writer_aborted then
      write_exit c1
        [RespEffect.cluster_send_message c.cs SendKind.CLUSTER_CACHE_DATA_ABORT
          Payload.empty Priority.PRIORITY_HIGH]
    else if c1.mbuf = false then HandlerOutcome.crashed "mbuf is null" []
    else
      match c1.vio with
      | none => HandlerOutcome.crashed "vio is null" [RespEffect.append_block env.frame.data_len]
      | some vio =>
        let c2 := { c1 with total_length := c1.total_length + env.frame.data_len }
        if c2.total_length < vio.nbytes then
          HandlerOutcome.returned EVENT_CONT (some { c2 with expect_next := true })
            [RespEffect.append_block env.frame.data_len, RespEffect.vio_reenable,
             RespEffect.cluster_set_events c.cs EventMask.RESPONSE_EVENT_NOTIFY_DEALER]
        else
          HandlerOutcome.returned EVENT_CONT (some c2)
            [RespEffect.append_block env.frame.data_len, RespEffect.vio_reenable]
  | Event.CLUSTER_CACHE_DATA_CLOSE =>
    let c1 := { c with expect_next := false }
    if c1.writer_aborted then write_exit c1 []
    else
      match c1.vio with
      | none => HandlerOutcome.crashed "vio is null" []
      | some _ =>
        let c2 := { c1 with vio := some { nbytes := env.frame.close_nbytes } }
        if env.frame.close_nbytes ≠ env.vio_ndone then
          HandlerOutcome.returned EVENT_CONT (some c2) [RespEffect.vio_reenable]
        else write_complete c2 []
  | Event.VC_EVENT_WRITE_COMPLETE => write_complete c []
  | Event.VC_EVENT_WRITE_READY =>
    if c.expect_next = false then
      HandlerOutcome.returned EVENT_CONT (some { c with expect_next := true })
        [RespEffect.cluster_set_events c.cs EventMask.RESPONSE_EVENT_NOTIFY_DEALER]
    else HandlerOutcome.returned EVENT_CONT (some c) []
  | Event.VC_EVENT_ERROR | Event.VC_EVENT_EOS =>
    if c.cache_vc.isNone then HandlerOutcome.crashed "cache_vc is null" []
    else
      let c1 := { c with writer_aborted := true, cache_vc := none, vio := none }
      if c1.expect_next then
        HandlerOutcome.returned EVENT_CONT (some c1)
          [RespEffect.do_io_close CloseKind.EHTTP_ERROR]
      else write_exit c1 [RespEffect.do_io_close CloseKind.EHTTP_ERROR]
  | Event.CLUSTER_CACHE_DATA_ABORT | Event.CLUSTER_INTERNEL_ERROR =>
    write_exit { c with expect_next := false } []
  | _ => write_exit c []

/-- Delivery of an event to a responder record, `handleEvent`: the handler
installed in the record runs.  `SIZE_OF_FRAGEMENT` is the threshold constant
of `setupVCdataRead`. -/
def handleEvent (SIZE_OF_FRAGEMENT : Int) (c : CacheContinuation) (event : Event)
    (env : HandlerEnv) : HandlerOutcome :=
  match c.handler with
  | some ContHandler.setupVCdataRead => setupVCdataRead SIZE_OF_FRAGEMENT c event env
  | some ContHandler.VCSmallDataRead => VCSmallDataRead c event env
  | some ContHandler.setupVCdataWrite => setupVCdataWrite c event env
  | some ContHandler.setupVCdataRemove => setupVCdataRemove c event env
  | some ContHandler.setupVCdataLink => setupVCdataLink c
  | some ContHandler.setupVCdataDeref => setupVCdataLink c
  | some ContHandler.VCdataRead => VCdataRead c event env
  | some ContHandler.VCdataWrite => VCdataWrite c event env
  | none => HandlerOutcome.crashed "no handler" []

/-- A sequence of events delivered to one record, each with what its
invocation reads from outside.  The run stops when the record is freed or a
handler crashes; the result is the outcome of the last invocation that ran,
with the calls of the whole run. -/
def run_events (SIZE_OF_FRAGEMENT : Int) (c : CacheContinuation) :
    List (Event × HandlerEnv) → HandlerOutcome
  | [] => HandlerOutcome.returned EVENT_CONT (some c) []
  | (event, env) :: rest =>
    match handleEvent SIZE_OF_FRAGEMENT c event env with
    | HandlerOutcome.crashed why fx => HandlerOutcome.crashed why fx
    | HandlerOutcome.returned ret none fx => HandlerOutcome.returned ret none fx
    | HandlerOutcome.returned _ (some c1) fx =>
      match run_events SIZE_OF_FRAGEMENT c1 rest with
      | HandlerOutcome.crashed why fx1 => HandlerOutcome.crashed why (fx ++ fx1)
      | HandlerOutcome.returned ret1 c2 fx1 => HandlerOutcome.returned ret1 c2 (fx ++ fx1)

/-! ## The responder entry point `cache_op_ClusterFunction` -/

/-- Sizes and flag masks declared outside `src/` that the entry point uses;
they are parameters of the embedding. -/
structure ProtoConsts where
  op_to_sizeof_fixedlen_msg : CacheOpcode → Int
  long_sizeof_fixedlen_msg : Int
  sizeof_CacheLookupHttpConfig : Int
  CFL_OVERWRITE_ON_WRITE : Nat
  CFL_REMOVE_USER_AGENTS : Nat
  CFL_REMOVE_LINK : Nat
  CFL_LOPENWRITE_HAVE_OLDINFO : Nat
  CFL_ALLOW_MULTIPLE_WRITES : Nat
  CACHE_OP_LONG_MESSAGE_VERSION : Nat

/-- Byte swapping of the three request shapes, `SwapBytes()` (declared
outside `src/`); a parameter of the embedding. -/
structure ByteSwaps where
  swap_short : CacheOpMsg_short → CacheOpMsg_short
  swap_short_2 : CacheOpMsg_short_2 → CacheOpMsg_short_2
  swap_long : CacheOpMsg_long → CacheOpMsg_long

/-- An inbound request as `cache_op_ClusterFunction` sees it: the length
`cc->data_len`, the common header (version tag, byte order), the copied
bytes through the three casts, and what unmarshalling the trailer yields. -/
structure InboundRequest where
  len : Int
  version : Nat
  need_byte_swap : Bool
  msg : MsgBuffer
  request_unmarshal : Int
  request : CacheHTTPHdr
  request_is_purge : Bool
  params_unmarshal : Int
  oldinfo_unmarshal : Int
deriving DecidableEq, Repr

/-- The argument `ci` of the long open-write call. -/
inductive OldInfoArg where
  | null
  | ic_old_info
  | CACHE_ALLOW_MULTIPLE_WRITES
deriving DecidableEq, Repr

/-- Calls of the entry point: record allocation, session binding and the
local cache calls with their arguments. -/
inductive DispatchEffect where
  | new_CacheCont
  | cluster_bind_session (cs : Nat)
  | cluster_close_session (cs : Nat)
  | free_CacheCont
  | open_read (key : INK_MD5) (frag_type : Nat) (hostname_len : Int)
  | open_read_http (key : INK_MD5) (frag_type : Nat) (hostname_len : Int)
  | open_write (key : INK_MD5) (frag_type : Nat) (overwrite : Bool) (pin_in_cache : Int)
      (hostname_len : Int)
  | open_write_http (key : INK_MD5) (ci : OldInfoArg) (pin_in_cache : Int) (frag_type : Nat)
      (hostname_len : Int)
  | remove (key : INK_MD5) (frag_type : Nat) (rm_user_agents : Bool) (rm_link : Bool)
      (hostname_len : Int)
  | link (key1 : INK_MD5) (key2 : INK_MD5) (frag_type : Nat) (hostname_len : Int)
  | deref (key : INK_MD5) (frag_type : Nat) (hostname_len : Int)
deriving DecidableEq, Repr

/-- The local cache calls among the calls of the entry point. -/
def DispatchEffect.is_cache_call : DispatchEffect → Bool
  | DispatchEffect.open_read _ _ _ => true
  | DispatchEffect.open_read_http _ _ _ => true
  | DispatchEffect.open_write _ _ _ _ _ => true
  | DispatchEffect.open_write_http _ _ _ _ _ => true
  | DispatchEffect.remove _ _ _ _ _ => true
  | DispatchEffect.link _ _ _ _ => true
  | DispatchEffect.deref _ _ _ => true
  | _ => false

/-- Outcome of the entry point: a failed `ink_release_assert` ends the
process, otherwise it returns, leaving a record (`none` after the bind
failure path freed it) and the calls made. -/
inductive DispatchOutcome where
  | aborted (assertion : String) (effects : List DispatchEffect)
  | returned (cont : Option CacheContinuation) (effects : List DispatchEffect)
deriving DecidableEq, Repr

/-- The source function `unmarshal_CacheOpMsg_short`. -/
def unmarshal_CacheOpMsg_short (sw : ByteSwaps) (data : CacheOpMsg_short)
    (NeedByteSwap : Bool) : CacheOpMsg_short :=
  if NeedByteSwap then sw.swap_short data else data

/-- The source function `unmarshal_CacheOpMsg_short_2`. -/
def unmarshal_CacheOpMsg_short_2 (sw : ByteSwaps) (data : CacheOpMsg_short_2)
    (NeedByteSwap : Bool) : CacheOpMsg_short_2 :=
  if NeedByteSwap then sw.swap_short_2 data else data

/-- The source function `unmarshal_CacheOpMsg_long`. -/
def unmarshal_CacheOpMsg_long (sw : ByteSwaps) (data : CacheOpMsg_long)
    (NeedByteSwap : Bool) : CacheOpMsg_long :=
  if NeedByteSwap then sw.swap_long data else data

/-- The source function `init_from_long` (the token copy is left out). -/
def init_from_long (cont : CacheContinuation) (msg : CacheOpMsg_long) : CacheContinuation :=
  { cont with
    seq_number := msg.seq_number, cfl_flags := msg.cfl_flags, url_md5 := msg.url_md5,
    frag_type := msg.frag_type,
    pin_in_cache :=
      if cont.request_opcode = CacheOpcode.CACHE_OPEN_WRITE_LONG ∨
          cont.request_opcode = CacheOpcode.CACHE_OPEN_READ_LONG then (msg.data : Int) else 0,
    nbytes := if msg.nbytes < 0 then 0 else msg.nbytes }

/-- The source function `init_from_short` (the token copy is left out). -/
def init_from_short (cont : CacheContinuation) (msg : CacheOpMsg_short) :
    CacheContinuation :=
  { cont with
    seq_number := msg.seq_number, cfl_flags := msg.cfl_flags, url_md5 := msg.md5,
    nbytes := if msg.nbytes < 0 then 0 else msg.nbytes,
    frag_type := msg.frag_type,
    pin_in_cache :=
      if cont.request_opcode = CacheOpcode.CACHE_OPEN_WRITE then (msg.data : Int) else 0 }

/-- The source function `init_from_short_2`. -/
def init_from_short_2 (cont : CacheContinuation) (msg : CacheOpMsg_short_2) :
    CacheContinuation :=
  { cont with
    seq_number := msg.seq_number, cfl_flags := msg.cfl_flags, url_md5 := msg.md5_1,
    frag_type := msg.frag_type }

/-- The test `flags & mask` of a flag word. -/
def has_flag (flags mask : Nat) : Bool :=
  decide (flags &&& mask ≠ 0)

/-- The action value `ACTION_RESULT_DONE` (declared outside `src/`; a
non-null value that is only compared for equality). -/
def ACTION_RESULT_DONE : Nat := 1

/-- An action pointer as the member `pending_action`: `none` when null. -/
def action_ptr (a : Nat) : Option Nat :=
  if a = 0 then none else some a

/-- The statement `if (a != ACTION_RESULT_DONE) c->pending_action = a;`. -/
def keep_action (c : CacheContinuation) (action : Nat) : CacheContinuation :=
  if action ≠ ACTION_RESULT_DONE then { c with pending_action := action_ptr action } else c

/-- The source function `cache_op_ClusterFunction` (the live definition).
`bind_result` is the value of `cluster_bind_session`, `action` the action the
local cache call returns.  The version test is
an `ink_assert`, so it does not stop the release build. -/
def cache_op_ClusterFunction (k : ProtoConsts) (sw : ByteSwaps) (cs : Nat)
    (req : InboundRequest) (bind_result : Int) (action : Nat) : DispatchOutcome :=
  let opcode := req.msg.as_long.opcode
  if bind_result ≠ 0 then
    DispatchOutcome.returned none
      [DispatchEffect.new_CacheCont, DispatchEffect.cluster_bind_session cs,
       DispatchEffect.cluster_close_session cs, DispatchEffect.free_CacheCont]
  else
    let pre := [DispatchEffect.new_CacheCont, DispatchEffect.cluster_bind_session cs]
    let c : CacheContinuation :=
      { new_CacheCont with
        request_opcode := opcode, frag_type := req.msg.as_long.frag_type,
        rw_buf_msg_len := req.len, cs := cs }
    match opcode with
    | CacheOpcode.CACHE_OPEN_WRITE_BUFFER | CacheOpcode.CACHE_OPEN_WRITE_BUFFER_LONG =>
      DispatchOutcome.aborted "cache_op_ClusterFunction WRITE_BUFFER not supported" pre
    | CacheOpcode.CACHE_OPEN_READ_BUFFER | CacheOpcode.CACHE_OPEN_READ_BUFFER_LONG =>
      DispatchOutcome.aborted "cache_op_ClusterFunction READ_BUFFER not supported" pre
    | CacheOpcode.CACHE_OPEN_READ =>
      let msg := unmarshal_CacheOpMsg_short sw req.msg.as_short req.need_byte_swap
      let c1 := init_from_short c msg
      let c2 := { c1 with handler := some ContHandler.setupVCdataRead,
                          ic_hostname_len := req.len - k.op_to_sizeof_fixedlen_msg opcode }
      DispatchOutcome.returned (some { c2 with pending_action := action_ptr action })
        (pre ++ [DispatchEffect.open_read msg.md5 c2.frag_type c2.ic_hostname_len])
    | CacheOpcode.CACHE_OPEN_READ_LONG =>
      let msg := unmarshal_CacheOpMsg_long sw req.msg.as_long req.need_byte_swap
      let c1 := init_from_long c msg
      let moi_len := req.len - k.long_sizeof_fixedlen_msg - req.request_unmarshal -
        k.sizeof_CacheLookupHttpConfig - req.params_unmarshal
      let c2 := { c1 with handler := some ContHandler.setupVCdataRead,
                          ic_request := req.request, request_purge := req.request_is_purge,
                          ic_hostname_len := if moi_len ≠ 0 then moi_len
                                             else c1.ic_hostname_len }
      DispatchOutcome.returned (some (keep_action c2 action))
        (pre ++ [DispatchEffect.open_read_http msg.url_md5 c2.frag_type c2.ic_hostname_len])
    | CacheOpcode.CACHE_OPEN_WRITE =>
      let msg := unmarshal_CacheOpMsg_short sw req.msg.as_short req.need_byte_swap
      let c1 := init_from_short c msg
      let c2 := { c1 with handler := some ContHandler.setupVCdataWrite,
                          ic_hostname_len := req.len - k.op_to_sizeof_fixedlen_msg opcode }
      DispatchOutcome.returned (some (keep_action c2 action))
        (pre ++ [DispatchEffect.open_write msg.md5 c2.frag_type
          (has_flag c2.cfl_flags k.CFL_OVERWRITE_ON_WRITE) c2.pin_in_cache c2.ic_hostname_len])
    | CacheOpcode.CACHE_OPEN_WRITE_LONG =>
      let msg := unmarshal_CacheOpMsg_long sw req.msg.as_long req.need_byte_swap
      let c1 := init_from_long c msg
      let moi_len0 := req.len - k.long_sizeof_fixedlen_msg
      let have_old : Bool :=
        decide (moi_len0 ≠ 0) && has_flag c1.cfl_flags k.CFL_LOPENWRITE_HAVE_OLDINFO
      let res : Int := if have_old then req.oldinfo_unmarshal else 0
      let ci : OldInfoArg :=
        if has_flag c1.cfl_flags k.CFL_ALLOW_MULTIPLE_WRITES then
          OldInfoArg.CACHE_ALLOW_MULTIPLE_WRITES
        else if have_old then OldInfoArg.ic_old_info else OldInfoArg.null
      let moi_len := moi_len0 - res
      let c2 := { c1 with handler := some ContHandler.setupVCdataWrite,
                          ic_hostname_len := if moi_len ≠ 0 then moi_len
                                             else c1.ic_hostname_len }
      DispatchOutcome.returned (some (keep_action c2 action))
        (pre ++ [DispatchEffect.open_write_http msg.url_md5 ci c2.pin_in_cache c2.frag_type
          c2.ic_hostname_len])
    | CacheOpcode.CACHE_REMOVE =>
      let msg := unmarshal_CacheOpMsg_short sw req.msg.as_short req.need_byte_swap
      let c1 := init_from_short c msg
      let host_len := req.len - k.op_to_sizeof_fixedlen_msg opcode
      let c2 := { c1 with handler := some ContHandler.setupVCdataRemove,
                          ic_hostname_len := if host_len ≠ 0 then host_len
                                             else c1.ic_hostname_len }
      DispatchOutcome.returned (some (keep_action c2 action))
        (pre ++ [DispatchEffect.remove msg.md5 c2.frag_type
          (has_flag c2.cfl_flags k.CFL_REMOVE_USER_AGENTS)
          (has_flag c2.cfl_flags k.CFL_REMOVE_LINK) c2.ic_hostname_len])
    | CacheOpcode.CACHE_LINK =>
      let msg := unmarshal_CacheOpMsg_short_2 sw req.msg.as_short_2 req.need_byte_swap
      let c1 := init_from_short_2 c msg
      let host_len := req.len - k.op_to_sizeof_fixedlen_msg opcode
      let c2 := { c1 with handler := some ContHandler.setupVCdataLink,
                          ic_hostname_len := if host_len ≠ 0 then host_len
                                             else c1.ic_hostname_len }
      DispatchOutcome.returned (some (keep_action c2 action))
        (pre ++ [DispatchEffect.link msg.md5_1 msg.md5_2 c2.frag_type c2.ic_hostname_len])
    | CacheOpcode.CACHE_DEREF =>
      let msg := unmarshal_CacheOpMsg_short sw req.msg.as_short req.need_byte_swap
      let c1 := init_from_short c msg
      let host_len := req.len - k.op_to_sizeof_fixedlen_msg opcode
      let c2 := { c1 with handler := some ContHandler.setupVCdataDeref,
                          ic_hostname_len := if host_len ≠ 0 then host_len
                                             else c1.ic_hostname_len }
      DispatchOutcome.returned (some (keep_action c2 action))
        (pre ++ [DispatchEffect.deref msg.md5 c2.frag_type c2.ic_hostname_len])
    | _ => DispatchOutcome.returned (some c) pre

/-! ## The initiator entry point `cache_op_result_ClusterFunction` -/

/-- Modelled from the spec: `event_reply_may_have_moi` is declared outside
`src/`; it is taken to hold for the results that have a case in the `switch`
it guards (any other result would run into the release assertion of the
`default` case). -/
def event_reply_may_have_moi (result : Event) : Bool :=
  match result with
  | Event.CACHE_EVENT_OPEN_READ => true
  | Event.CACHE_EVENT_OPEN_WRITE => true
  | Event.CACHE_EVENT_LINK => true
  | Event.CACHE_EVENT_LINK_FAILED => true
  | Event.CACHE_EVENT_OPEN_READ_FAILED => true
  | Event.CACHE_EVENT_OPEN_WRITE_FAILED => true
  | Event.CACHE_EVENT_REMOVE_FAILED => true
  | Event.CACHE_EVENT_UPDATE_FAILED => true
  | Event.CACHE_EVENT_DEREF_FAILED => true
  | _ => false

/-- The members of the initiator VC that `cache_op_result_ClusterFunction`
writes; a member is `none` (for `remote_closed`, `first_buf`: `false`) as long
as the function has not assigned it. -/
structure ReplyState where
  doc_len : Option Int
  d_len : Option Int
  total_len : Option Int
  remote_closed : Bool
  flags : Option Nat
  first_buf : Bool
deriving DecidableEq, Repr

/-- The reply members of an initiator VC before a reply is handled. -/
def ReplyState.init : ReplyState :=
  { doc_len := none, d_len := none, total_len := none, remote_closed := false,
    flags := none, first_buf := false }

/-- Outcome of `cache_op_result_ClusterFunction`: a failed
`ink_release_assert` ends the process before any event is delivered,
otherwise the initiator VC gets `handleEvent(event, data)`. -/
inductive ReplyOutcome where
  | aborted (assertion : String)
  | delivered (cvc : ReplyState) (event : Event) (data : Int)
deriving DecidableEq, Repr

/-- The source function `cache_op_result_ClusterFunction`.  `msg` is the
reply as copied from the frame, `swap` the byte swap `SwapBytes()` of the
reply shape (declared outside `src/`), `has_data` tells whether `cc->data` is
non-null after the fixed part has been consumed. -/
def cache_op_result_ClusterFunction (swap : CacheOpReplyMsg → CacheOpReplyMsg)
    (cvc : ReplyState) (msg : CacheOpReplyMsg) (has_data : Bool) : ReplyOutcome :=
  if msg.version ≠ CACHE_OP_REPLY_MESSAGE_VERSION then
    ReplyOutcome.aborted "cache_op_result_ClusterFunction() bad msg version"
  else
    let msg := if msg.need_byte_swap then swap msg else msg
    let event := msg.result
    if event_reply_may_have_moi msg.result then
      match msg.result with
      | Event.CACHE_EVENT_OPEN_READ =>
        let cvc1 := if has_data ∧ msg.h_len > 0 then { cvc with first_buf := true } else cvc
        let cvc2 := { cvc1 with doc_len := some msg.doc_size, d_len := some msg.d_len,
                                total_len := some msg.d_len }
        let cvc3 := if msg.d_len ≥ msg.doc_size then { cvc2 with remote_closed := true }
                    else cvc2
        ReplyOutcome.delivered { cvc3 with flags := some (to_uint32 msg.reason) } event 0
      | Event.CACHE_EVENT_OPEN_WRITE =>
        ReplyOutcome.delivered { cvc with flags := some (to_uint32 msg.reason) } event 0
      | Event.CACHE_EVENT_LINK | Event.CACHE_EVENT_LINK_FAILED =>
        ReplyOutcome.delivered cvc event 0
      | Event.CACHE_EVENT_OPEN_READ_FAILED | Event.CACHE_EVENT_OPEN_WRITE_FAILED
      | Event.CACHE_EVENT_REMOVE_FAILED | Event.CACHE_EVENT_UPDATE_FAILED
      | Event.CACHE_EVENT_DEREF_FAILED =>
        ReplyOutcome.delivered { cvc with remote_closed := true } event
          (int_to_int32 msg.reason)
      | _ => ReplyOutcome.aborted "invalid moi data for received msg"
    else ReplyOutcome.delivered cvc event 0

/-! ## Observers and sample values for the responder -/

/-- The calls of an outcome. -/
def HandlerOutcome.effects : HandlerOutcome → List RespEffect
  | HandlerOutcome.crashed _ fx => fx
  | HandlerOutcome.returned _ _ fx => fx

/-- The outcome is the inlined small-object path of `setupVCdataRead`: the
handler returns `EVENT_CONT` with `VCSmallDataRead` installed, and its only
call is one `do_io_read` for `doc_size` bytes (no reply is sent). -/
def HandlerOutcome.is_small_path (o : HandlerOutcome) (doc_size : Int) : Bool :=
  match o with
  | HandlerOutcome.returned ret (some c) fx =>
    decide (ret = EVENT_CONT) && decide (c.handler = some ContHandler.VCSmallDataRead) &&
      decide (fx = [RespEffect.do_io_read doc_size])
  | _ => false

/-- The session close among the calls of the responder. -/
def RespEffect.is_session_close : RespEffect → Bool
  | RespEffect.cluster_close_session _ => true
  | _ => false

/-- The close of the local cache VC among the calls of the responder, by a
handler or by the free routine. -/
def RespEffect.is_vc_close : RespEffect → Bool
  | RespEffect.do_io_close _ => true
  | _ => false

/-- Payload length of a call if it is the send of a `READ_DONE` frame, else
0. -/
def RespEffect.read_done_len : RespEffect → Int
  | RespEffect.cluster_send_message _ SendKind.CLUSTER_CACHE_DATA_READ_DONE
      (Payload.bytes n) _ => n
  | _ => 0

/-- Sum of the payload lengths of the `READ_DONE` frames among the calls. -/
def read_done_bytes (fx : List RespEffect) : Int :=
  (fx.map RespEffect.read_done_len).sum

/-- A local cache VC holding an HTTP object of `size` bytes, not being
written. -/
def sample_vc (size : Int) : CacheVC :=
  { ptr := 9, flags := 0, object_size := size,
    http_info := { valid := true, object_size := size, marshal_length := 312 },
    read_from_writer := false }

/-- A frame with all members zero. -/
def zero_frame : ClusterFrame :=
  { version := 0, data_len := 0, read_nbytes := 0, read_offset := 0, write_nbytes := 0,
    write_hdr_len := 0, close_h_len := 0, close_d_len := 0, close_nbytes := 0 }

/-- An invocation whose event argument is the cache VC `sample_vc size` and
in which every send returns 0. -/
def sample_env (size : Int) : HandlerEnv :=
  { data_vc := sample_vc size, data_int := 0, frame := zero_frame, read_avail := 0,
    reader_block := true, send_result := 0, close_result := true, http_unmarshal := 0,
    vio_ndone := 0 }

/-- A responder record of session 7 waiting in `setupVCdataRead` for the
open-read result of an HTTP request without conditional headers. -/
def sample_read_record : CacheContinuation :=
  { new_CacheCont with
    cs := 7, handler := some ContHandler.setupVCdataRead,
    request_opcode := CacheOpcode.CACHE_OPEN_READ_LONG, frag_type := CACHE_FRAG_TYPE_HTTP,
    seq_number := 1, url_md5 := sample_digest,
    ic_request := { valid := true, conditional := false } }

/-- Sample sizes and flag masks. -/
def sample_consts : ProtoConsts :=
  { op_to_sizeof_fixedlen_msg := fun _ => 48, long_sizeof_fixedlen_msg := 64,
    sizeof_CacheLookupHttpConfig := 32, CFL_OVERWRITE_ON_WRITE := 2,
    CFL_REMOVE_USER_AGENTS := 4, CFL_REMOVE_LINK := 8, CFL_LOPENWRITE_HAVE_OLDINFO := 16,
    CFL_ALLOW_MULTIPLE_WRITES := 32, CACHE_OP_LONG_MESSAGE_VERSION := 1 }

/-- Byte swaps that are never applied on a native receiver; here the
identity. -/
def native_swaps : ByteSwaps :=
  { swap_short := fun m => m, swap_short_2 := fun m => m, swap_long := fun m => m }

/-- An inbound `OPEN_READ_LONG` request of 400 bytes for `sample_digest`,
HTTP fragment type, sequence number 1, without conditional headers. -/
def sample_request : InboundRequest :=
  { len := 400, version := 1, need_byte_swap := false,
    msg := { sample_buffer with
             as_long := { sample_buffer.as_long with
                          header_init := true, opcode := CacheOpcode.CACHE_OPEN_READ_LONG,
                          frag_type := CACHE_FRAG_TYPE_HTTP, url_md5 := sample_digest,
                          seq_number := 1 } },
    request_unmarshal := 200, request := { valid := true, conditional := false },
    request_is_purge := false, params_unmarshal := 50, oldinfo_unmarshal := 0 }

/-- The record `cache_op_ClusterFunction` leaves for `sample_request` on
session 7 when the cache call returns the action 33. -/
def sample_dispatched : CacheContinuation :=
  { new_CacheCont with
    cs := 7, handler := some ContHandler.setupVCdataRead,
    request_opcode := CacheOpcode.CACHE_OPEN_READ_LONG, frag_type := CACHE_FRAG_TYPE_HTTP,
    seq_number := 1, url_md5 := sample_digest, pending_action := some 33,
    ic_request := { valid := true, conditional := false }, ic_hostname_len := 54,
    rw_buf_msg_len := 400 }

/-- The calls `cache_op_ClusterFunction` makes for `sample_request`. -/
def sample_dispatch_calls : List DispatchEffect :=
  [DispatchEffect.new_CacheCont, DispatchEffect.cluster_bind_session 7,
   DispatchEffect.open_read_http sample_digest CACHE_FRAG_TYPE_HTTP 54]

/-- In the calls `fx` the session `cs` is closed exactly once, and that close
comes before the record is given back to the allocator. -/
def closes_before_free (cs : Nat) (fx : List RespEffect) : Prop :=
  fx.countP RespEffect.is_session_close = 1 ∧
  ∃ a b, fx = a ++ RespEffect.cluster_close_session cs :: b ∧
    RespEffect.allocator_free ∉ a ∧ RespEffect.allocator_free ∈ b

/-- The same for the calls of the entry point `cache_op_ClusterFunction`. -/
def dispatch_closes_before_free (cs : Nat) (fx : List DispatchEffect) : Prop :=
  fx.countP (fun e => decide (e = DispatchEffect.cluster_close_session cs)) = 1 ∧
  ∃ a b, fx = a ++ DispatchEffect.cluster_close_session cs :: b ∧
    DispatchEffect.free_CacheCont ∉ a ∧ DispatchEffect.free_CacheCont ∈ b

/-- Number of closes of the local cache VC among the calls. -/
def vc_closes (fx : List RespEffect) : Nat :=
  fx.countP RespEffect.is_vc_close

/-- The closes still owed to the local cache VC of a record: 1 while
`cache_vc` is set, 0 once it is cleared. -/
def CacheContinuation.owed (c : CacheContinuation) : Nat :=
  if c.cache_vc.isSome then 1 else 0

/-- The record runs one of the handlers installed after a successful local
cache open. -/
def CacheContinuation.after_open (c : CacheContinuation) : Bool :=
  decide (c.handler = some ContHandler.VCSmallDataRead) ||
  decide (c.handler = some ContHandler.VCdataRead) ||
  decide (c.handler = some ContHandler.VCdataWrite)

/-- Accounting of the closes of the local cache VC over one invocation on
record `c`: a crash closes nothing, a continuing invocation closes what it no
longer owes, a freeing invocation closes all that was owed. -/
def step_ok (c : CacheContinuation) (o : HandlerOutcome) : Prop :=
  match o with
  | HandlerOutcome.crashed _ fx => vc_closes fx = 0
  | HandlerOutcome.returned _ (some c1) fx =>
    c1.after_open = true ∧ vc_closes fx + c1.owed = c.owed
  | HandlerOutcome.returned _ none fx => vc_closes fx = c.owed

/-- The events of a streamed read on the record `sample_dispatched`: the
open-read hit on an object of 100000 bytes, a `READ_BEGIN` frame declaring
`declared` bytes from offset 0, and one `VC_EVENT_READ_READY` at which the
reader holds `avail` bytes; every send returns 0. -/
def sample_stream_events (declared avail : Int) : List (Event × HandlerEnv) :=
  [(Event.CACHE_EVENT_OPEN_READ, sample_env 100000),
   (Event.CLUSTER_CACHE_DATA_READ_BEGIN,
     { sample_env 100000 with frame := { zero_frame with read_nbytes := declared } }),
   (Event.VC_EVENT_READ_READY, { sample_env 100000 with read_avail := avail })]

/-- What a run through `VCdataRead` keeps true of the record while it
continues: the handler stays installed, the cache VC stays set, and a VIO is
never there without the buffer and its reader. -/
def stream_inv (c : CacheContinuation) : Prop :=
  c.handler = some ContHandler.VCdataRead ∧ c.cache_vc.isSome = true ∧
  (c.vio.isSome = true → c.mbuf = true)

/-- The record `sample_dispatched` after `setupVCdataRead` has answered the
open-read hit on an object of 100000 bytes and entered streaming. -/
def sample_streaming : CacheContinuation :=
  { sample_dispatched with
    handler := some ContHandler.VCdataRead, pending_action := none,
    result := Event.CACHE_EVENT_OPEN_READ, cache_vc := some (sample_vc 100000),
    cache_vc_info := (sample_vc 100000).http_info, doc_size := 100000, expect_next := true }

/-- The record a native receiver initialises from a message `do_op` sent:
`unmarshal_CacheOpMsg_*` of the message's shape with `NeedByteSwap = 0`, then
the shape's `init_from_*`, on a record whose `request_opcode` is the opcode
of the message (`cache_op_ClusterFunction` stores it before the call). -/
def receive_native (sw : ByteSwaps) (cont : CacheContinuation) : WireMsg → CacheContinuation
  | WireMsg.short m =>
    init_from_short { cont with request_opcode := m.opcode }
      (unmarshal_CacheOpMsg_short sw m false)
  | WireMsg.short_2 m =>
    init_from_short_2 { cont with request_opcode := m.opcode }
      (unmarshal_CacheOpMsg_short_2 sw m false)
  | WireMsg.long m =>
    init_from_long { cont with request_opcode := m.opcode }
      (unmarshal_CacheOpMsg_long sw m false)

/-- The calls of an outcome of the entry point. -/
def DispatchOutcome.effects : DispatchOutcome → List DispatchEffect
  | DispatchOutcome.aborted _ fx => fx
  | DispatchOutcome.returned _ fx => fx

/-- The invocation that hands `VCdataRead` a `READ_BEGIN` frame for 700
bytes from offset 0 whose version field is `version`. -/
def sample_begin_env (version : Nat) : HandlerEnv :=
  { sample_env 100000 with
    frame := { zero_frame with version := version, read_nbytes := 700 } }

/-- The hostname length a local cache call is given. -/
def DispatchEffect.hostname_len : DispatchEffect → Option Int
  | DispatchEffect.open_read _ _ n => some n
  | DispatchEffect.open_read_http _ _ n => some n
  | DispatchEffect.open_write _ _ _ _ n => some n
  | DispatchEffect.open_write_http _ _ _ _ n => some n
  | DispatchEffect.remove _ _ _ _ n => some n
  | DispatchEffect.link _ _ _ n => some n
  | DispatchEffect.deref _ _ n => some n
  | _ => none

/-- An inbound `OPEN_READ` request of only 10 bytes for `sample_digest`,
sequence number 1: shorter than the fixed length 48 that `sample_consts`
gives the short shape. -/
def short_request : InboundRequest :=
  { sample_request with
    len := 10,
    msg := { sample_buffer with
             as_long := { sample_buffer.as_long with
                          header_init := true, opcode := CacheOpcode.CACHE_OPEN_READ,
                          frag_type := CACHE_FRAG_TYPE_HTTP },
             as_short := { sample_buffer.as_short with
                           header_init := true, opcode := CacheOpcode.CACHE_OPEN_READ,
                           frag_type := CACHE_FRAG_TYPE_HTTP, md5 := sample_digest,
                           seq_number := 1 } } }

/-- The call that sets the session event mask, among the calls of the
responder. -/
def RespEffect.is_set_events : RespEffect → Bool
  | RespEffect.cluster_set_events _ _ => true
  | _ => false

/-- The record an outcome leaves, `none` after a crash or a free. -/
def HandlerOutcome.cont : HandlerOutcome → Option CacheContinuation
  | HandlerOutcome.crashed _ _ => none
  | HandlerOutcome.returned _ c _ => c

/-- The mask calls of one invocation on record `c` go with the latch: an
invocation that crashes or frees the record makes none; one that continues
either makes exactly one, for the session of the record and with
`RESPONSE_EVENT_NOTIFY_DEALER`, and leaves `expect_next` true, or makes none
and leaves `expect_next` true only if it was true before. -/
def mask_ok (c : CacheContinuation) (o : HandlerOutcome) : Prop :=
  match o with
  | HandlerOutcome.crashed _ fx => fx.filter RespEffect.is_set_events = []
  | HandlerOutcome.returned _ none fx => fx.filter RespEffect.is_set_events = []
  | HandlerOutcome.returned _ (some c1) fx =>
    (fx.filter RespEffect.is_set_events =
        [RespEffect.cluster_set_events c.cs EventMask.RESPONSE_EVENT_NOTIFY_DEALER] ∧
      c1.expect_next = true) ∨
    (fx.filter RespEffect.is_set_events = [] ∧ (c1.expect_next = true → c.expect_next = true))

/-- The send of a message among the calls of the responder. -/
def RespEffect.is_send : RespEffect → Bool
  | RespEffect.cluster_send_message _ _ _ _ => true
  | _ => false

/-- The call uses the local cache VC or its VIO. -/
def RespEffect.touches_vc : RespEffect → Bool
  | RespEffect.do_io_read _ => true
  | RespEffect.do_io_pread _ _ => true
  | RespEffect.do_io_write _ => true
  | RespEffect.do_io_close _ => true
  | RespEffect.vio_reenable => true
  | RespEffect.set_http_info => true
  | _ => false

/-- The record `sample_dispatched` turned into one that streams a write of
700 bytes through `VCdataWrite`, with the cache VC open and `expect_next`
as given. -/
def sample_writing (expect_next : Bool) : CacheContinuation :=
  { sample_dispatched with
    handler := some ContHandler.VCdataWrite,
    request_opcode := CacheOpcode.CACHE_OPEN_WRITE_LONG, pending_action := none,
    result := Event.CACHE_EVENT_OPEN_WRITE, cache_vc := some (sample_vc 0), mbuf := true,
    vio := some { nbytes := 700 }, expect_next := expect_next }

/-- The record after the local writer aborted: `writer_aborted` is set,
`cache_vc` and `vio` are cleared. -/
def CacheContinuation.aborted (c : CacheContinuation) : CacheContinuation :=
  { c with writer_aborted := true, cache_vc := none, vio := none }

/-- The record the entry point leaves, `none` after an abort or the bind
failure path. -/
def DispatchOutcome.cont : DispatchOutcome → Option CacheContinuation
  | DispatchOutcome.aborted _ _ => none
  | DispatchOutcome.returned c _ => c

/-- An inbound `CACHE_UPDATE` request as `do_op` sends it: the short shape,
48 bytes, for `sample_digest`, sequence number 1. -/
def update_request : InboundRequest :=
  { sample_request with
    len := 48,
    msg := { sample_buffer with
             as_long := { sample_buffer.as_long with
                          header_init := true, opcode := CacheOpcode.CACHE_UPDATE,
                          frag_type := CACHE_FRAG_TYPE_HTTP },
             as_short := { sample_buffer.as_short with
                           header_init := true, opcode := CacheOpcode.CACHE_UPDATE,
                           frag_type := CACHE_FRAG_TYPE_HTTP, md5 := sample_digest,
                           seq_number := 1 } } }

/-- A digest whose fold has the high half `0x80000001` and the low half 0:
the signed XOR of the halves is negative. -/
def sample_negative : INK_MD5 := { b0 := 0x8000000100000000, b1 := 0 }

end ClusterCache

/-! # The blacklist-1 plugin -/

namespace Blacklist

/-- Retry delay `RETRY_TIME`. -/
def RETRY_TIME : Nat := 10

/-- The C library function `strncmp(s1, s2, n)` on byte strings: a list holds
the bytes before the terminating NUL, reading at its end yields the NUL.  At
most `n` bytes are compared; the comparison stops at the first difference or
at a NUL. -/
def strncmp (s1 s2 : List Nat) : Nat → Int
  | 0 => 0
  | n + 1 =>
    if s1.headD 0 ≠ s2.headD 0 then (s1.headD 0 : Int) - (s2.headD 0 : Int)
    else if s1.headD 0 = 0 then 0
    else strncmp s1.tail s2.tail n

/-- Events passed to `TSHttpTxnReenable`. -/
inductive TsEvent where
  | TS_EVENT_HTTP_CONTINUE
  | TS_EVENT_HTTP_ERROR
deriving DecidableEq, Repr

/-- Calls `handle_dns` makes into the plugin API, in program order. -/
inductive TsCall where
  | TSError (msg : String)
  | TSDebug (msg : String)
  | TSHandleMLocRelease_url
  | TSHandleMLocRelease_hdr
  | TSContSchedule (delay : Nat)
  | TSTextLogObjectWrite (site : List Nat)
  | TSHttpTxnHookAdd_send_response
  | TSHttpTxnReenable (event : TsEvent)
  | TSMutexUnlock
deriving DecidableEq, Repr

/-- What `handle_dns` reads from the plugin API and the globals: whether the
request header and the URL can be retrieved, the host of the URL (`none` for a
null pointer; `host_length` is the length of the list), whether the try-lock
on `sites_mutex` succeeds, and whether the text log object exists. -/
structure DnsEnv where
  req_get_ok : Bool
  url_get_ok : Bool
  host : Option (List Nat)
  lock_ok : Bool
  log : Bool
deriving DecidableEq, Repr

/-- The loop `for (i = 0; i < nsites; i++)` of `handle_dns` over the loaded
sites: the first site for which `strncmp(host, sites[i], host_length) == 0`. -/
def first_match (host : List Nat) : List (List Nat) → Option (List Nat)
  | [] => none
  | site :: rest =>
    if strncmp host site host.length = 0 then some site else first_match host rest

/-- The source function `handle_dns`; `sites` are the `nsites` loaded
entries. -/
def handle_dns (env : DnsEnv) (sites : List (List Nat)) : List TsCall :=
  if env.req_get_ok = false then
    [TsCall.TSError "couldn't retrieve client request header\n",
     TsCall.TSHttpTxnReenable TsEvent.TS_EVENT_HTTP_CONTINUE]
  else if env.url_get_ok = false then
    [TsCall.TSError "couldn't retrieve request url\n", TsCall.TSHandleMLocRelease_hdr,
     TsCall.TSHttpTxnReenable TsEvent.TS_EVENT_HTTP_CONTINUE]
  else
    match env.host with
    | none =>
      [TsCall.TSError "couldn't retrieve request hostname\n", TsCall.TSHandleMLocRelease_url,
       TsCall.TSHandleMLocRelease_hdr,
       TsCall.TSHttpTxnReenable TsEvent.TS_EVENT_HTTP_CONTINUE]
    | some host =>
      if env.lock_ok = false then
        [TsCall.TSDebug "Unable to get lock. Will retry after some time",
         TsCall.TSHandleMLocRelease_url, TsCall.TSHandleMLocRelease_hdr,
         TsCall.TSContSchedule RETRY_TIME]
      else
        match first_match host sites with
        | some site =>
          [if env.log then TsCall.TSTextLogObjectWrite site
           else TsCall.TSDebug "blacklisting site: %s\n",
           TsCall.TSHttpTxnHookAdd_send_response, TsCall.TSHandleMLocRelease_url,
           TsCall.TSHandleMLocRelease_hdr,
           TsCall.TSHttpTxnReenable TsEvent.TS_EVENT_HTTP_ERROR, TsCall.TSMutexUnlock]
        | none =>
          [TsCall.TSMutexUnlock, TsCall.TSHandleMLocRelease_url,
           TsCall.TSHandleMLocRelease_hdr,
           TsCall.TSHttpTxnReenable TsEvent.TS_EVENT_HTTP_CONTINUE]

/-- The bytes of a string literal. -/
def bytes (s : String) : List Nat :=
  s.toList.map Char.toNat

/-- A request for host `host` for which every API call succeeds, the lock
included, with no log object. -/
def sample_dns (host : String) : DnsEnv :=
  { req_get_ok := true, url_get_ok := true, host := some (bytes host), lock_ok := true,
    log := false }

end Blacklist

namespace ClusterCache

theorem new_cache_sequence_number_eq (c : Nat) :
    new_cache_sequence_number c =
      if c % 2 ^ 32 = 0 then (1, 2) else (c % 2 ^ 32, (c + 1) % 2 ^ 32) := by
  rw [new_cache_sequence_number]
  simp only [ink_atomic_increment]
  by_cases h : c % 2 ^ 32 = 0
  · rw [new_cache_sequence_number]
    simp only [ink_atomic_increment]
    have h1 : (c + 1) % 2 ^ 32 = 1 := by omega
    have h2 : (c + 1) % 2 ^ 32 % 2 ^ 32 = 1 := by omega
    have h3 : ((c + 1) % 2 ^ 32 + 1) % 2 ^ 32 = 2 := by omega
    rw [dif_pos h, dif_neg (by omega), if_pos h, h2, h3]
  · rw [dif_neg h, if_neg h]

end ClusterCache

namespace ClusterCache

/-! ## Facts about the queue loops -/

theorem lookup_loop_eq_none (key : INK_MD5) (q : List Entry) :
    lookup_loop key q = none ↔ ∀ e ∈ q, e.key ≠ key := by
  induction q with
  | nil => simp [lookup_loop]
  | cons x rest ih =>
    by_cases hx : key = x.key
    · simp [lookup_loop, hx]
    · have hx1 : ¬ x.key = key := fun h => hx h.symm
      cases hl : lookup_loop key rest with
      | none =>
        have := ih.mp hl
        simp [lookup_loop, hx, hl, hx1]
        exact this
      | some r =>
        have hne : ¬ ∀ e ∈ rest, e.key ≠ key := fun h => by
          rw [ih.mpr h] at hl
          exact Option.noConfusion hl
        simp only [lookup_loop, hx, hl, if_false]
        constructor
        · intro h
          exact Option.noConfusion h
        · intro h
          exact absurd (fun e he => h e (List.mem_cons_of_mem x he)) hne

theorem lookup_loop_first (key : INK_MD5) (pre : List Entry) (e : Entry) (post : List Entry)
    (he : e.key = key) (hpre : ∀ x ∈ pre, x.key ≠ key) :
    lookup_loop key (pre ++ e :: post) = some (e.vc, pre ++ post) := by
  induction pre with
  | nil => simp [lookup_loop, he]
  | cons x rest ih =>
    have hx : ¬ key = x.key := fun h => hpre x (List.mem_cons_self x rest) h.symm
    have := ih (fun y hy => hpre y (List.mem_cons_of_mem x hy))
    simp [lookup_loop, hx, this]

theorem first_match_split (key : INK_MD5) (q : List Entry) (h : ∃ e ∈ q, e.key = key) :
    ∃ pre e post, q = pre ++ e :: post ∧ e.key = key ∧ ∀ x ∈ pre, x.key ≠ key := by
  induction q with
  | nil =>
    obtain ⟨e, he, _⟩ := h
    exact absurd he (List.not_mem_nil e)
  | cons x rest ih =>
    by_cases hx : x.key = key
    · exact ⟨[], x, rest, rfl, hx, fun y hy => absurd hy (List.not_mem_nil y)⟩
    · obtain ⟨e, he, hk⟩ := h
      have hrest : ∃ e ∈ rest, e.key = key := by
        rcases List.mem_cons.mp he with h1 | h1
        · exact absurd (h1 ▸ hk) hx
        · exact ⟨e, h1, hk⟩
      obtain ⟨pre, e1, post, hq, hk1, hpre⟩ := ih hrest
      refine ⟨x :: pre, e1, post, by simp [hq], hk1, ?_⟩
      intro y hy
      rcases List.mem_cons.mp hy with h1 | h1
      · exact h1 ▸ hx
      · exact hpre y h1

end ClusterCache

namespace ClusterCache

/-! ## Lookup and insert on the reuse cache -/

/-- C1: when `lookup(D)` gets the lock of bucket `MD5ToIndex(D)` and that
bucket holds an entry with key `D`, the bucket splits as `pre ++ e :: post`
with `e` the first entry with key `D`; `lookup` returns the vc stored in `e`,
the bucket afterwards is `pre ++ post` (that one entry removed, order kept)
and every other bucket is unchanged. -/
theorem lookup_hit_removes_first (t : HashTable) (held : Nat → Bool) (D : INK_MD5)
    (hlock : held (bucket_of D) = false)
    (hentry : ∃ e ∈ t (bucket_of D), e.key = D) :
    ∃ pre e post,
      t (bucket_of D) = pre ++ e :: post ∧ e.key = D ∧ (∀ x ∈ pre, x.key ≠ D) ∧
      (lookup t held D).1 = e.vc ∧
      (lookup t held D).2 (bucket_of D) = pre ++ post ∧
      ∀ n, n ≠ bucket_of D → (lookup t held D).2 n = t n := by
  obtain ⟨pre, e, post, hq, hk, hpre⟩ := first_match_split D (t (bucket_of D)) hentry
  have hloop : lookup_loop D (t (bucket_of D)) = some (e.vc, pre ++ post) := by
    rw [hq]
    exact lookup_loop_first D pre e post hk hpre
  refine ⟨pre, e, post, hq, hk, hpre, ?_, ?_, ?_⟩
  · simp [lookup, hlock, hloop]
  · simp [lookup, hlock, hloop, set_bucket]
  · intro n hn
    simp [lookup, hlock, hloop, set_bucket, hn]

/-- C1, instance: bucket 7 of `sample_table` holds three entries, the second
and third with the digest looked up. -/
theorem lookup_hit_removes_first_witness :
    no_lock_held (bucket_of sample_digest) = false ∧
    (∃ e ∈ sample_table (bucket_of sample_digest), e.key = sample_digest) ∧
    ∃ pre e post,
      sample_table (bucket_of sample_digest) = pre ++ e :: post ∧
      e.key = sample_digest ∧ (∀ x ∈ pre, x.key ≠ sample_digest) ∧
      (lookup sample_table no_lock_held sample_digest).1 = e.vc ∧
      (lookup sample_table no_lock_held sample_digest).2 (bucket_of sample_digest) =
        pre ++ post ∧
      ∀ n, n ≠ bucket_of sample_digest →
        (lookup sample_table no_lock_held sample_digest).2 n = sample_table n :=
  ⟨rfl,
   ⟨{ mark_for_delete := true, key := sample_digest, vc := 200 }, by decide, rfl⟩,
   lookup_hit_removes_first sample_table no_lock_held sample_digest rfl
     ⟨{ mark_for_delete := true, key := sample_digest, vc := 200 }, by decide, rfl⟩⟩

end ClusterCache

namespace ClusterCache

theorem lookup_retry_and_miss (t : HashTable) (held : Nat → Bool) (D : INK_MD5)
    (hvc : ∀ e ∈ t (bucket_of D), e.key = D → e.vc ≠ 0 ∧ e.vc ≠ LOOKUP_MISS) :
    ((lookup t held D).1 = 0 ↔ held (bucket_of D) = true) ∧
    ((lookup t held D).1 = LOOKUP_MISS ↔
      (held (bucket_of D) = false ∧ ∀ e ∈ t (bucket_of D), e.key ≠ D)) ∧
    (held (bucket_of D) = true → (lookup t held D).2 = t) ∧
    ((held (bucket_of D) = false ∧ ∀ e ∈ t (bucket_of D), e.key ≠ D) →
      (lookup t held D).2 = t) := by
  have hmiss : LOOKUP_MISS ≠ 0 := by decide
  cases hl : held (bucket_of D) with
  | true =>
    have h1 : lookup t held D = (0, t) := by simp [lookup, hl]
    rw [h1]
    refine ⟨by simp, ?_, fun _ => rfl, fun _ => rfl⟩
    constructor
    · intro h
      exact absurd h.symm hmiss
    · intro h
      exact absurd h.1 (by simp)
  | false =>
    by_cases hex : ∃ e ∈ t (bucket_of D), e.key = D
    · obtain ⟨pre, e, post, hq, hk, hpre⟩ := first_match_split D (t (bucket_of D)) hex
      have hmem : e ∈ t (bucket_of D) := by
        rw [hq]
        simp
      have hloop : lookup_loop D (t (bucket_of D)) = some (e.vc, pre ++ post) := by
        rw [hq]
        exact lookup_loop_first D pre e post hk hpre
      have h1 : (lookup t held D).1 = e.vc := by simp [lookup, hl, hloop]
      have hv := hvc e hmem hk
      rw [h1]
      refine ⟨?_, ?_, ?_, ?_⟩
      · constructor
        · intro h
          exact absurd h hv.1
        · intro h
          exact absurd h (by simp)
      · constructor
        · intro h
          exact absurd h hv.2
        · intro h
          exact absurd hk (h.2 e hmem)
      · intro h
        exact absurd h (by simp)
      · intro h
        exact absurd hk (h.2 e hmem)
    · have hall : ∀ e ∈ t (bucket_of D), e.key ≠ D := fun e he hk => hex ⟨e, he, hk⟩
      have hloop : lookup_loop D (t (bucket_of D)) = none :=
        (lookup_loop_eq_none D _).mpr hall
      have h1 : lookup t held D = (LOOKUP_MISS, t) := by simp [lookup, hl, hloop]
      rw [h1]
      refine ⟨?_, ?_, fun _ => rfl, fun _ => rfl⟩
      · constructor
        · intro h
          exact absurd h hmiss
        · intro h
          exact absurd h (by simp)
      · constructor
        · intro _
          exact ⟨rfl, hall⟩
        · intro _
          rfl

/-- C3: `insert(D, vc)` returns 1 exactly when the try-lock on bucket
`MD5ToIndex(D)` is acquired; then one new unmarked entry `(D, vc)` is appended
at the tail of that bucket and every other bucket is unchanged; on a lock
miss it returns 0 and the table is unchanged. -/
theorem insert_appends_or_retries (t : HashTable) (held : Nat → Bool) (D : INK_MD5)
    (vc : Nat) :
    ((insert t held D vc).1 = 1 ↔ held (bucket_of D) = false) ∧
    (held (bucket_of D) = false →
      (insert t held D vc).2 (bucket_of D) =
        t (bucket_of D) ++ [{ mark_for_delete := false, key := D, vc := vc }] ∧
      ∀ n, n ≠ bucket_of D → (insert t held D vc).2 n = t n) ∧
    (held (bucket_of D) = true → insert t held D vc = (0, t)) := by
  cases hl : held (bucket_of D) with
  | true => simp [insert, hl]
  | false =>
    refine ⟨by simp [insert, hl], ?_, by simp⟩
    intro _
    constructor
    · simp [insert, hl, set_bucket, ClusterVCCacheEntryAlloc_alloc]
    · intro n hn
      simp [insert, hl, set_bucket, hn]

end ClusterCache

namespace ClusterCache

/-! ## The bucket index is in range -/

theorem ldiff_255_lt (m : Nat) : Nat.ldiff 255 m < 256 := by
  have h : Nat.ldiff 255 m < 2 ^ 8 := by
    apply Nat.lt_pow_two_of_testBit
    intro i hi
    rw [Nat.testBit_ldiff]
    have h255 : (255 : Nat).testBit i = false := by
      apply Nat.testBit_lt_two_pow
      calc 255 < 2 ^ 8 := by norm_num
        _ ≤ 2 ^ i := Nat.pow_le_pow_right (by norm_num) hi
    simp [h255]
  simpa using h

theorem land_255_bounds (x : Int) : 0 ≤ Int.land x 255 ∧ Int.land x 255 < 256 := by
  rcases x with m | m
  · show (0 : Int) ≤ ((m &&& 255 : Nat) : Int) ∧ ((m &&& 255 : Nat) : Int) < 256
    have := @Nat.and_le_right m 255
    omega
  · show (0 : Int) ≤ ((Nat.ldiff 255 m : Nat) : Int) ∧ ((Nat.ldiff 255 m : Nat) : Int) < 256
    have := ldiff_255_lt m
    omega

theorem bucket_of_lt (D : INK_MD5) : bucket_of D < MAX_TABLE_ENTRIES := by
  have h := land_255_bounds
    (Int.tmod (Int.xor (to_int32 (D.fold >>> 32)) (to_int32 (D.fold &&& 0xFFFFFFFF))) 256)
  have hdef : MD5ToIndex D = Int.land
      (Int.tmod (Int.xor (to_int32 (D.fold >>> 32)) (to_int32 (D.fold &&& 0xFFFFFFFF))) 256)
      255 := rfl
  unfold bucket_of MAX_TABLE_ENTRIES
  rw [hdef]
  omega

end ClusterCache

namespace ClusterCache

/-! ## At most one entry per digest -/

theorem sum_range_single (f : Nat → Nat) (k : Nat) (hf : ∀ i, i ≠ k → f i = 0) (n : Nat) :
    ((List.range n).map f).sum = if k < n then f k else 0 := by
  induction n with
  | zero => simp
  | succ m ih =>
    rw [List.range_succ, List.map_append, List.sum_append, ih]
    by_cases hk : k < m
    · have hne : m ≠ k := by omega
      have hk1 : k < m + 1 := by omega
      simp [hk, hk1, hf m hne]
    · by_cases hkm : k = m
      · subst hkm
        simp
      · have hne : m ≠ k := fun h => hkm h.symm
        have hk1 : ¬ k < m + 1 := by omega
        simp [hk, hk1, hf m hne]

theorem countP_other_bucket (t : HashTable) (hhome : ∀ n, ∀ e ∈ t n, bucket_of e.key = n)
    (D : INK_MD5) (n : Nat) (hn : n ≠ bucket_of D) :
    (t n).countP (fun e => decide (e.key = D)) = 0 := by
  rw [List.countP_eq_zero]
  intro e he
  have hb := hhome n e he
  simp only [decide_eq_true_eq]
  intro hk
  rw [hk] at hb
  exact hn hb.symm

theorem entries_with_digest_eq (t : HashTable)
    (hhome : ∀ n, ∀ e ∈ t n, bucket_of e.key = n) (D : INK_MD5) :
    entries_with_digest t D = (t (bucket_of D)).countP (fun e => decide (e.key = D)) := by
  unfold entries_with_digest
  rw [sum_range_single (fun n => (t n).countP (fun e => decide (e.key = D))) (bucket_of D)
    (fun i hi => countP_other_bucket t hhome D i hi)]
  simp [bucket_of_lt D]

theorem purge_loop_cons_marked (x : Entry) (rest : List Entry)
    (hx : x.mark_for_delete = true) :
    purge_loop (x :: rest) =
      ((purge_loop rest).1,
        [PurgeEffect.allow_remote_close x.vc, PurgeEffect.do_io_close x.vc,
          PurgeEffect.free_entry x] ++ (purge_loop rest).2) := by
  simp [purge_loop, hx]

theorem purge_loop_cons_unmarked (x : Entry) (rest : List Entry)
    (hx : x.mark_for_delete = false) :
    purge_loop (x :: rest) =
      ({ x with mark_for_delete := true } :: (purge_loop rest).1, (purge_loop rest).2) := by
  simp [purge_loop, hx]

theorem purge_loop_mem (q : List Entry) :
    ∀ e ∈ (purge_loop q).1, ∃ x ∈ q, x.key = e.key := by
  induction q with
  | nil => simp [purge_loop]
  | cons x rest ih =>
    intro e he
    cases hx : x.mark_for_delete with
    | true =>
      rw [purge_loop_cons_marked x rest hx] at he
      obtain ⟨y, hy, hk⟩ := ih e he
      exact ⟨y, List.mem_cons_of_mem x hy, hk⟩
    | false =>
      rw [purge_loop_cons_unmarked x rest hx] at he
      rcases List.mem_cons.mp he with h1 | h1
      · exact ⟨x, List.mem_cons_self x rest, by rw [h1]⟩
      · obtain ⟨y, hy, hk⟩ := ih e h1
        exact ⟨y, List.mem_cons_of_mem x hy, hk⟩

theorem purge_loop_countP_le (D : INK_MD5) (q : List Entry) :
    (purge_loop q).1.countP (fun e => decide (e.key = D)) ≤
      q.countP (fun e => decide (e.key = D)) := by
  induction q with
  | nil => simp [purge_loop]
  | cons x rest ih =>
    cases hx : x.mark_for_delete with
    | true =>
      rw [purge_loop_cons_marked x rest hx, List.countP_cons]
      show (purge_loop rest).1.countP (fun e => decide (e.key = D)) ≤ _
      omega
    | false =>
      rw [purge_loop_cons_unmarked x rest hx]
      show (({ x with mark_for_delete := true } : Entry) :: (purge_loop rest).1).countP
        (fun e => decide (e.key = D)) ≤ _
      rw [List.countP_cons, List.countP_cons]
      simp only [decide_eq_true_eq]
      omega

theorem lookup_bucket_sublist (t : HashTable) (held : Nat → Bool) (D : INK_MD5) (n : Nat) :
    ((lookup t held D).2 n).Sublist (t n) := by
  cases hl : held (bucket_of D) with
  | true => simp [lookup, hl]
  | false =>
    by_cases hex : ∃ e ∈ t (bucket_of D), e.key = D
    · obtain ⟨pre, e, post, hq, hk, hpre⟩ := first_match_split D (t (bucket_of D)) hex
      have hloop : lookup_loop D (t (bucket_of D)) = some (e.vc, pre ++ post) := by
        rw [hq]
        exact lookup_loop_first D pre e post hk hpre
      by_cases hn : n = bucket_of D
      · subst hn
        simp only [lookup, hl, hloop, set_bucket, if_true, Bool.false_eq_true, if_false]
        rw [hq]
        exact List.Sublist.append (List.Sublist.refl pre) (List.sublist_cons_self e post)
      · simp [lookup, hl, hloop, set_bucket, hn]
    · have hall : ∀ e ∈ t (bucket_of D), e.key ≠ D := fun e he hk => hex ⟨e, he, hk⟩
      have hloop : lookup_loop D (t (bucket_of D)) = none :=
        (lookup_loop_eq_none D _).mpr hall
      simp [lookup, hl, hloop]

end ClusterCache

namespace ClusterCache

theorem table_inv_empty : table_inv empty_table := by
  constructor
  · intro n e he
    exact absurd he (List.not_mem_nil e)
  · intro n D
    simp [empty_table]

theorem table_inv_insert (t : HashTable) (held : Nat → Bool) (D : INK_MD5) (vc : Nat)
    (hinv : table_inv t) (hfree : entries_with_digest t D = 0) :
    table_inv (insert t held D vc).2 := by
  cases hl : held (bucket_of D) with
  | true =>
    have h1 : (insert t held D vc).2 = t := by simp [insert, hl]
    rw [h1]
    exact hinv
  | false =>
    have h1 : (insert t held D vc).2 = set_bucket t (bucket_of D)
        (t (bucket_of D) ++ [{ mark_for_delete := false, key := D, vc := vc }]) := by
      simp [insert, hl, ClusterVCCacheEntryAlloc_alloc]
    rw [h1]
    have hzero : (t (bucket_of D)).countP (fun e => decide (e.key = D)) = 0 := by
      rw [← entries_with_digest_eq t hinv.1 D]
      exact hfree
    constructor
    · intro n e he
      by_cases hn : n = bucket_of D
      · subst hn
        simp only [set_bucket, if_true] at he
        rcases List.mem_append.mp he with h2 | h2
        · exact hinv.1 _ e h2
        · have he2 : e = { mark_for_delete := false, key := D, vc := vc } := by
            simpa using h2
          rw [he2]
      · simp only [set_bucket, hn, if_false] at he
        exact hinv.1 n e he
    · intro n D1
      by_cases hn : n = bucket_of D
      · subst hn
        simp only [set_bucket, if_true]
        rw [List.countP_append]
        by_cases hD : D = D1
        · subst hD
          rw [hzero]
          simp
        · have hlast : List.countP (fun e => decide (e.key = D1))
              [({ mark_for_delete := false, key := D, vc := vc } : Entry)] = 0 := by
            simp [hD]
          rw [hlast]
          exact hinv.2 _ D1
      · simp only [set_bucket, hn, if_false]
        exact hinv.2 n D1

theorem table_inv_lookup (t : HashTable) (held : Nat → Bool) (D : INK_MD5)
    (hinv : table_inv t) : table_inv (lookup t held D).2 := by
  constructor
  · intro n e he
    exact hinv.1 n e ((lookup_bucket_sublist t held D n).subset he)
  · intro n D1
    exact Nat.le_trans ((lookup_bucket_sublist t held D n).countP_le _) (hinv.2 n D1)

theorem table_inv_sweep (t : HashTable) (held : Nat → Bool) (hash_index : Nat)
    (hinv : table_inv t) : table_inv (eventHandler t held hash_index).2.1 := by
  cases hl : held hash_index with
  | true =>
    have h1 : (eventHandler t held hash_index).2.1 = t := by simp [eventHandler, hl]
    rw [h1]
    exact hinv
  | false =>
    have h1 : (eventHandler t held hash_index).2.1 =
        set_bucket t hash_index (purge_loop (t hash_index)).1 := by
      simp [eventHandler, hl]
    rw [h1]
    constructor
    · intro n e he
      by_cases hn : n = hash_index
      · subst hn
        simp only [set_bucket, if_true] at he
        obtain ⟨x, hx, hk⟩ := purge_loop_mem _ e he
        rw [← hk]
        exact hinv.1 _ x hx
      · simp only [set_bucket, hn, if_false] at he
        exact hinv.1 n e he
    · intro n D1
      by_cases hn : n = hash_index
      · subst hn
        simp only [set_bucket, if_true]
        exact Nat.le_trans (purge_loop_countP_le D1 _) (hinv.2 _ D1)
      · simp only [set_bucket, hn, if_false]
        exact hinv.2 n D1

theorem table_inv_of_guarded (t : HashTable) (h : ReachableGuarded t) : table_inv t := by
  induction h with
  | init => exact table_inv_empty
  | insert t held D vc _ hfree ih => exact table_inv_insert t held D vc ih hfree
  | lookup t held D _ ih => exact table_inv_lookup t held D ih
  | sweep t held n _ _ ih => exact table_inv_sweep t held n ih

set_option maxRecDepth 20000

/-- C4, as stated, fails: two successful inserts of the same digest into the
empty table give a reachable table that stores two entries for that digest. -/
theorem one_entry_per_digest_counterexample :
    Reachable twice_inserted_table ∧
    entries_with_digest twice_inserted_table sample_digest = 2 := by
  constructor
  · exact Reachable.insert _ no_lock_held sample_digest 200
      (Reachable.insert _ no_lock_held sample_digest 100 Reachable.init)
  · decide

/-- C4, amended: in every state reachable from the empty table by insert,
lookup and purge runs in which `insert(D, vc)` is only invoked while the
table holds no entry with digest `D`, the table stores at most one entry per
digest. -/
theorem one_entry_per_digest_guarded (t : HashTable) (h : ReachableGuarded t)
    (D : INK_MD5) : entries_with_digest t D ≤ 1 := by
  have hinv := table_inv_of_guarded t h
  rw [entries_with_digest_eq t hinv.1 D]
  exact hinv.2 _ D

/-- C4, amended, instance: `sample_digest` and then `other_digest` are
inserted into the empty table. -/
theorem one_entry_per_digest_guarded_witness :
    ReachableGuarded two_digest_table ∧
    entries_with_digest two_digest_table sample_digest ≤ 1 :=
  ⟨ReachableGuarded.insert _ no_lock_held other_digest 200
      (ReachableGuarded.insert _ no_lock_held sample_digest 100 ReachableGuarded.init
        (by decide)) (by decide),
   one_entry_per_digest_guarded two_digest_table
     (ReachableGuarded.insert _ no_lock_held other_digest 200
       (ReachableGuarded.insert _ no_lock_held sample_digest 100 ReachableGuarded.init
         (by decide)) (by decide)) sample_digest⟩

end ClusterCache

namespace ClusterCache

/-! ## A hit consumes its entry -/

theorem lookup_run_perm (held : Nat → Bool) (ds : List INK_MD5) :
    ∀ t : HashTable, (∀ D ∈ ds, held (bucket_of D) = false) → ∀ n,
      List.Perm
        (((lookup_run t held ds).1.filter (fun h => decide (bucket_of h.1 = n))) ++
          ((lookup_run t held ds).2 n).map Entry.key_vc)
        ((t n).map Entry.key_vc) := by
  induction ds with
  | nil =>
    intro t _ n
    simp [lookup_run]
  | cons D ds ih =>
    intro t hlocks n
    have hl : held (bucket_of D) = false := hlocks D (List.mem_cons_self D ds)
    have hrest : ∀ D1 ∈ ds, held (bucket_of D1) = false :=
      fun D1 h1 => hlocks D1 (List.mem_cons_of_mem D h1)
    by_cases hex : ∃ e ∈ t (bucket_of D), e.key = D
    · obtain ⟨pre, e, post, hq, hk, hpre⟩ := first_match_split D (t (bucket_of D)) hex
      have hloop : lookup_loop D (t (bucket_of D)) = some (e.vc, pre ++ post) := by
        rw [hq]
        exact lookup_loop_first D pre e post hk hpre
      have hhit : lookup_hits t held D = true := by simp [lookup_hits, hl, hloop]
      have hres : lookup t held D = (e.vc, set_bucket t (bucket_of D) (pre ++ post)) := by
        simp [lookup, hl, hloop]
      have ih1 := ih (set_bucket t (bucket_of D) (pre ++ post)) hrest n
      simp only [lookup_run, hhit, if_true, hres]
      by_cases hn : bucket_of D = n
      · subst hn
        simp only [List.filter_cons, decide_True, if_true, List.cons_append]
        simp only [set_bucket, if_true] at ih1
        rw [hq]
        have hmid : List.Perm ((D, e.vc) :: List.map Entry.key_vc (pre ++ post))
            (List.map Entry.key_vc (pre ++ e :: post)) := by
          have hkv : Entry.key_vc e = (D, e.vc) := by simp [Entry.key_vc, hk]
          rw [List.map_append, List.map_append, List.map_cons, hkv]
          exact List.perm_middle.symm
        exact List.Perm.trans (List.Perm.cons _ ih1) hmid
      · have hn1 : ¬ n = bucket_of D := fun h => hn h.symm
        simp only [List.filter_cons, hn, decide_False, Bool.false_eq_true, if_false]
        simp only [set_bucket, hn1, if_false] at ih1
        exact ih1
    · have hall : ∀ e ∈ t (bucket_of D), e.key ≠ D := fun e he hk => hex ⟨e, he, hk⟩
      have hloop : lookup_loop D (t (bucket_of D)) = none :=
        (lookup_loop_eq_none D _).mpr hall
      have hhit : lookup_hits t held D = false := by simp [lookup_hits, hloop]
      have hres : lookup t held D = (LOOKUP_MISS, t) := by simp [lookup, hl, hloop]
      simp only [lookup_run, hhit, hres, Bool.false_eq_true, if_false]
      exact ih t hrest n

end ClusterCache

namespace ClusterCache

theorem lookup_run_count_le (t : HashTable) (held : Nat → Bool) (ds : List INK_MD5)
    (hlocks : ∀ D ∈ ds, held (bucket_of D) = false) (D : INK_MD5) :
    (lookup_run t held ds).1.countP (fun h => decide (h.1 = D)) ≤
      (t (bucket_of D)).countP (fun e => decide (e.key = D)) := by
  have hperm := lookup_run_perm held ds t hlocks (bucket_of D)
  have hc := hperm.countP_eq (fun h : INK_MD5 × Nat => decide (h.1 = D))
  rw [List.countP_append, List.countP_map, List.countP_map, List.countP_filter] at hc
  have h1 : (lookup_run t held ds).1.countP (fun h => decide (h.1 = D)) =
      (lookup_run t held ds).1.countP
        (fun a => decide (a.1 = D) && decide (bucket_of a.1 = bucket_of D)) := by
    apply List.countP_congr
    intro a _
    simp only [decide_eq_true_eq, Bool.and_eq_true]
    constructor
    · intro h
      exact ⟨h, by rw [h]⟩
    · intro h
      exact h.1
  have h2 : (t (bucket_of D)).countP ((fun h : INK_MD5 × Nat => decide (h.1 = D)) ∘
      Entry.key_vc) = (t (bucket_of D)).countP (fun e => decide (e.key = D)) := rfl
  rw [h1, ← h2, ← hc]
  exact Nat.le_add_right _ _

theorem lookup_single_entry (t : HashTable) (held : Nat → Bool) (D : INK_MD5)
    (hl : held (bucket_of D) = false)
    (hone : (t (bucket_of D)).countP (fun e => decide (e.key = D)) = 1) :
    lookup_hits t held D = true ∧
    lookup_hits (lookup t held D).2 held D = false ∧
    lookup (lookup t held D).2 held D = (LOOKUP_MISS, (lookup t held D).2) := by
  have hex : ∃ e ∈ t (bucket_of D), e.key = D := by
    have hpos : 0 < (t (bucket_of D)).countP (fun e => decide (e.key = D)) := by omega
    obtain ⟨e, he, hk⟩ := List.countP_pos_iff.mp hpos
    exact ⟨e, he, by simpa using hk⟩
  obtain ⟨pre, e, post, hq, hk, hpre⟩ := first_match_split D (t (bucket_of D)) hex
  have hloop : lookup_loop D (t (bucket_of D)) = some (e.vc, pre ++ post) := by
    rw [hq]
    exact lookup_loop_first D pre e post hk hpre
  have hres : lookup t held D = (e.vc, set_bucket t (bucket_of D) (pre ++ post)) := by
    simp [lookup, hl, hloop]
  have hzero : (pre ++ post).countP (fun e => decide (e.key = D)) = 0 := by
    rw [hq, List.countP_append, List.countP_cons] at hone
    rw [List.countP_append]
    simp only [hk, decide_True, if_true] at hone
    omega
  have hall : ∀ x ∈ pre ++ post, x.key ≠ D := by
    intro x hx hkx
    have := List.countP_eq_zero.mp hzero x hx
    simp [hkx] at this
  have hloop2 : lookup_loop D (pre ++ post) = none := (lookup_loop_eq_none D _).mpr hall
  refine ⟨by simp [lookup_hits, hl, hloop], ?_, ?_⟩
  · rw [hres]
    simp [lookup_hits, set_bucket, hloop2]
  · rw [hres]
    simp [lookup, hl, set_bucket, hloop2]

/-- C5: in a run of lookups that all acquire their bucket lock, the hits
(digest, returned vc) of a bucket together with the entries left in it are a
rearrangement of the entries the bucket held before the run, so every entry
is returned by at most one lookup and the hits for a digest never outnumber
its entries; and when `D` has exactly one entry, `lookup(D)` hits and the
next `lookup(D)` returns the miss value and changes nothing. -/
theorem lookup_hit_at_most_once (t : HashTable) (held : Nat → Bool) (ds : List INK_MD5)
    (hlocks : ∀ D ∈ ds, held (bucket_of D) = false) :
    (∀ n, List.Perm
        (((lookup_run t held ds).1.filter (fun h => decide (bucket_of h.1 = n))) ++
          ((lookup_run t held ds).2 n).map Entry.key_vc)
        ((t n).map Entry.key_vc)) ∧
    (∀ D, (lookup_run t held ds).1.countP (fun h => decide (h.1 = D)) ≤
        (t (bucket_of D)).countP (fun e => decide (e.key = D))) ∧
    (∀ D, held (bucket_of D) = false →
        (t (bucket_of D)).countP (fun e => decide (e.key = D)) = 1 →
        lookup_hits t held D = true ∧
        lookup_hits (lookup t held D).2 held D = false ∧
        lookup (lookup t held D).2 held D = (LOOKUP_MISS, (lookup t held D).2)) :=
  ⟨lookup_run_perm held ds t hlocks,
   lookup_run_count_le t held ds hlocks,
   fun D hl hone => lookup_single_entry t held D hl hone⟩

/-- C5, instance: three lookups of `sample_digest` on `sample_table`, which
holds two entries for it; the run yields the hits 200 and 300 and no third
one. -/
theorem lookup_hit_at_most_once_witness :
    (∀ D ∈ [sample_digest, sample_digest, sample_digest],
      no_lock_held (bucket_of D) = false) ∧
    (lookup_run sample_table no_lock_held
      [sample_digest, sample_digest, sample_digest]).1 =
        [(sample_digest, 200), (sample_digest, 300)] ∧
    (lookup_run sample_table no_lock_held
        [sample_digest, sample_digest, sample_digest]).1.countP
          (fun h => decide (h.1 = sample_digest)) ≤
      (sample_table (bucket_of sample_digest)).countP
        (fun e => decide (e.key = sample_digest)) :=
  ⟨fun _ _ => rfl, by decide,
   (lookup_hit_at_most_once sample_table no_lock_held
      [sample_digest, sample_digest, sample_digest] (fun _ _ => rfl)).2.1 sample_digest⟩

end ClusterCache

namespace ClusterCache

/-! ## The two-pass purge -/

theorem purge_loop_kept (q : List Entry) :
    (purge_loop q).1 = (q.filter (fun e => !e.mark_for_delete)).map Entry.marked := by
  induction q with
  | nil => simp [purge_loop]
  | cons x rest ih =>
    cases hx : x.mark_for_delete with
    | true =>
      rw [purge_loop_cons_marked x rest hx]
      simp [hx, ih]
    | false =>
      rw [purge_loop_cons_unmarked x rest hx]
      simp [hx, ih, Entry.marked]

theorem purge_loop_calls (q : List Entry) :
    (purge_loop q).2 = (q.filter (fun e => e.mark_for_delete)).flatMap purge_calls := by
  induction q with
  | nil => simp [purge_loop]
  | cons x rest ih =>
    cases hx : x.mark_for_delete with
    | true =>
      rw [purge_loop_cons_marked x rest hx]
      simp [hx, ih, purge_calls]
    | false =>
      rw [purge_loop_cons_unmarked x rest hx]
      simp [hx, ih]

/-- C6: a run of the purge handler of bucket `hash_index` that acquires the
bucket lock leaves in the bucket exactly the entries that were unmarked, in
their order and now marked; the calls it makes are, for each entry that was
marked and in queue order, `allow_remote_close` then close on its vc and the
free of the entry, followed by the rescheduling; every other bucket is
untouched. -/
theorem purge_run (t : HashTable) (held : Nat → Bool) (hash_index : Nat)
    (hlock : held hash_index = false) :
    (eventHandler t held hash_index).2.1 hash_index =
      ((t hash_index).filter (fun e => !e.mark_for_delete)).map Entry.marked ∧
    (eventHandler t held hash_index).2.2 =
      ((t hash_index).filter (fun e => e.mark_for_delete)).flatMap purge_calls ++
        [PurgeEffect.schedule_in_sec SCAN_INTERVAL] ∧
    (∀ n, n ≠ hash_index → (eventHandler t held hash_index).2.1 n = t n) ∧
    (eventHandler t held hash_index).1 = EVENT_DONE := by
  refine ⟨?_, ?_, ?_, ?_⟩
  · simp [eventHandler, hlock, set_bucket, purge_loop_kept]
  · simp [eventHandler, hlock, purge_loop_calls]
  · intro n hn
    simp [eventHandler, hlock, set_bucket, hn]
  · simp [eventHandler, hlock]

/-- C6, instance: the purge of bucket 7 of `sample_table` keeps the first and
third entry, marked, and closes and frees the second. -/
theorem purge_run_witness :
    no_lock_held 7 = false ∧
    (eventHandler sample_table no_lock_held 7).2.1 7 =
      [{ mark_for_delete := true, key := other_digest, vc := 100 },
       { mark_for_delete := true, key := sample_digest, vc := 300 }] ∧
    (eventHandler sample_table no_lock_held 7).2.2 =
      [PurgeEffect.allow_remote_close 200, PurgeEffect.do_io_close 200,
       PurgeEffect.free_entry { mark_for_delete := true, key := sample_digest, vc := 200 },
       PurgeEffect.schedule_in_sec SCAN_INTERVAL] ∧
    (eventHandler sample_table no_lock_held 7).2.1 7 =
      ((sample_table 7).filter (fun e => !e.mark_for_delete)).map Entry.marked :=
  ⟨rfl, by decide, by decide, (purge_run sample_table no_lock_held 7 rfl).1⟩

end ClusterCache

namespace ClusterCache

theorem purge_loop_all_marked (q : List Entry) (h : ∀ e ∈ q, e.mark_for_delete = true) :
    (purge_loop q).1 = [] := by
  rw [purge_loop_kept]
  have hf : q.filter (fun e => !e.mark_for_delete) = [] := by
    rw [List.filter_eq_nil_iff]
    intro e he
    simp [h e he]
  rw [hf]
  rfl

theorem purge_loop_kept_marked (q : List Entry) :
    ∀ e ∈ (purge_loop q).1, e.mark_for_delete = true := by
  intro e he
  rw [purge_loop_kept] at he
  obtain ⟨x, _, hx⟩ := List.mem_map.mp he
  rw [← hx]
  rfl

theorem real_vc_of_reachable (t : HashTable) (h : ReachableReal t) :
    ∀ n, ∀ e ∈ t n, e.vc ≠ 0 ∧ e.vc ≠ LOOKUP_MISS := by
  induction h with
  | init =>
    intro n e he
    simp [empty_table] at he
  | insert t held D vc _ h0 h1 ih =>
    intro n e he
    unfold ClusterCache.insert at he
    simp only [] at he
    split at he
    · exact ih n e he
    · simp only [set_bucket] at he
      split at he
      · rcases List.mem_append.mp he with h2 | h2
        · exact ih _ e h2
        · simp at h2
          subst h2
          exact ⟨h0, h1⟩
      · exact ih n e he
  | lookup t held D _ ih =>
    intro n e he
    exact ih n e ((lookup_bucket_sublist t held D n).subset he)
  | sweep t held hash_index _ _ ih =>
    intro n e he
    unfold eventHandler at he
    split at he
    · exact ih n e he
    · simp only [set_bucket] at he
      split at he
      · rw [purge_loop_kept] at he
        obtain ⟨x, hx, hxe⟩ := List.mem_map.mp he
        have := ih hash_index x (List.mem_filter.mp hx).1
        rw [← hxe]
        exact this
      · exact ih n e he

/-- C2: in every state the reuse cache reaches from the empty table by
`insert`, `lookup` and purge runs, with the address of a VC given to each
`insert`, and for every digest `D`: `lookup(D)` returns null exactly when the
try-lock on bucket `MD5ToIndex(D)` fails, and returns the miss value
`(ClusterVConnection *) -1` exactly when the lock is acquired and no entry of
that bucket has key `D`; in both cases the whole table is left unchanged. -/
theorem lookup_retry_or_miss (t : HashTable) (ht : ReachableReal t) (held : Nat → Bool)
    (D : INK_MD5) :
    ((lookup t held D).1 = 0 ↔ held (bucket_of D) = true) ∧
    ((lookup t held D).1 = LOOKUP_MISS ↔
      (held (bucket_of D) = false ∧ ∀ e ∈ t (bucket_of D), e.key ≠ D)) ∧
    (held (bucket_of D) = true → (lookup t held D).2 = t) ∧
    ((held (bucket_of D) = false ∧ ∀ e ∈ t (bucket_of D), e.key ≠ D) →
      (lookup t held D).2 = t) :=
  lookup_retry_and_miss t held D
    (fun e he _ => real_vc_of_reachable t ht (bucket_of D) e he)

/-- C2, instance: on the table reached by inserting `sample_digest` and
`other_digest`, a lookup of `sample_digest` that misses the lock returns
null and leaves the table as it is, and one that acquires the lock does not
return null. -/
theorem lookup_retry_or_miss_witness :
    ReachableReal two_digest_table ∧
    ((lookup two_digest_table all_locks_held sample_digest).1 = 0 ↔
      all_locks_held (bucket_of sample_digest) = true) ∧
    (all_locks_held (bucket_of sample_digest) = true →
      (lookup two_digest_table all_locks_held sample_digest).2 = two_digest_table) ∧
    ((lookup two_digest_table no_lock_held sample_digest).1 = 0 ↔
      no_lock_held (bucket_of sample_digest) = true) :=
  ⟨ReachableReal.insert _ no_lock_held other_digest 200
      (ReachableReal.insert _ no_lock_held sample_digest 100 ReachableReal.init
        (by decide) (by decide)) (by decide) (by decide),
   (lookup_retry_or_miss two_digest_table
      (ReachableReal.insert _ no_lock_held other_digest 200
        (ReachableReal.insert _ no_lock_held sample_digest 100 ReachableReal.init
          (by decide) (by decide)) (by decide) (by decide))
      all_locks_held sample_digest).1,
   (lookup_retry_or_miss two_digest_table
      (ReachableReal.insert _ no_lock_held other_digest 200
        (ReachableReal.insert _ no_lock_held sample_digest 100 ReachableReal.init
          (by decide) (by decide)) (by decide) (by decide))
      all_locks_held sample_digest).2.2.1,
   (lookup_retry_or_miss two_digest_table
      (ReachableReal.insert _ no_lock_held other_digest 200
        (ReachableReal.insert _ no_lock_held sample_digest 100 ReachableReal.init
          (by decide) (by decide)) (by decide) (by decide))
      no_lock_held sample_digest).1⟩

end ClusterCache

namespace ClusterCache

theorem first_index_none (key : INK_MD5) (q : List Entry) (h : ∀ e ∈ q, e.key ≠ key) :
    first_index key q = none := by
  induction q with
  | nil => rfl
  | cons x rest ih =>
    have hx : ¬ key = x.key := fun hk => h x (List.mem_cons_self x rest) hk.symm
    simp [first_index, hx, ih (fun e he => h e (List.mem_cons_of_mem x he))]

theorem first_index_split (key : INK_MD5) (pre : List Entry) (e : Entry) (post : List Entry)
    (he : e.key = key) (hpre : ∀ x ∈ pre, x.key ≠ key) :
    first_index key (pre ++ e :: post) = some pre.length := by
  induction pre with
  | nil => simp [first_index, he]
  | cons x rest ih =>
    have hx : ¬ key = x.key := fun hk => hpre x (List.mem_cons_self x rest) hk.symm
    simp [first_index, hx, ih (fun y hy => hpre y (List.mem_cons_of_mem x hy))]

theorem get_append_singleton (q : List Entry) (x e : Entry) (i : Nat)
    (h : q[i]? = some e) : (q ++ [x])[i]? = some e := by
  have hi : i < q.length := by
    rcases Nat.lt_or_ge i q.length with hlt | hge
    · exact hlt
    · rw [List.getElem?_eq_none hge] at h
      exact Option.noConfusion h
  rw [List.getElem?_append_left hi]
  exact h

theorem get_unlink (pre post : List Entry) (x e : Entry) (i : Nat)
    (h : (pre ++ x :: post)[i]? = some e) (hne : pre.length ≠ i) :
    (pre ++ post)[if pre.length < i then i - 1 else i]? = some e := by
  by_cases hlt : pre.length < i
  · rw [if_pos hlt]
    rw [List.getElem?_append_right (by omega)] at h ⊢
    have h1 : i - pre.length = (i - 1 - pre.length) + 1 := by omega
    rw [h1, List.getElem?_cons_succ] at h
    exact h
  · rw [if_neg hlt]
    have hi : i < pre.length := by omega
    rw [List.getElem?_append_left hi] at h ⊢
    exact h

theorem spared_step (t : HashTable) (n i : Nat) (e : Entry) (op : CacheOp)
    (h : (t n)[i]? = some e) (hs : op.spares t n i = true) :
    (op.run t n)[op.track t n i]? = some e := by
  cases op with
  | insert held key vc =>
    simp only [CacheOp.run, CacheOp.track, ClusterCache.insert]
    split
    · exact h
    · simp only [set_bucket]
      split
      · rename_i hn
        rw [hn] at h
        exact get_append_singleton _ _ _ _ h
      · exact h
  | lookup held key =>
    simp only [CacheOp.run, CacheOp.track, CacheOp.spares, Bool.or_eq_true,
      decide_eq_true_eq] at hs ⊢
    by_cases hl : held (bucket_of key) = true
    · have hne : ¬ (held (bucket_of key) = false ∧ bucket_of key = n) := by simp [hl]
      rw [if_neg hne]
      simp [ClusterCache.lookup, hl, h]
    · have hl0 : held (bucket_of key) = false := by simpa using hl
      by_cases hn : bucket_of key = n
      · have hfi : first_index key (t n) ≠ some i := by
          rcases hs with (hs | hs) | hs
          · exact absurd hs hl
          · exact absurd hn hs
          · exact hs
        rw [if_pos ⟨hl0, hn⟩]
        by_cases hex : ∃ x ∈ t (bucket_of key), x.key = key
        · obtain ⟨pre, x, post, hq, hk, hpre⟩ := first_match_split key (t (bucket_of key)) hex
          have hloop : lookup_loop key (t (bucket_of key)) = some (x.vc, pre ++ post) := by
            rw [hq]
            exact lookup_loop_first key pre x post hk hpre
          rw [hn] at hq hloop
          have hidx : first_index key (t n) = some pre.length := by
            rw [hq]
            exact first_index_split key pre x post hk hpre
          have hne : pre.length ≠ i := by
            intro hp
            rw [hidx, hp] at hfi
            exact hfi rfl
          have hl0n : held n = false := hn ▸ hl0
          have hb : (ClusterCache.lookup t held key).2 n = pre ++ post := by
            simp [ClusterCache.lookup, hl0n, hn, hloop, set_bucket]
          rw [hb, hidx]
          rw [hq] at h
          exact get_unlink pre post x e i h hne
        · have hall : ∀ x ∈ t (bucket_of key), x.key ≠ key := fun x hx hk => hex ⟨x, hx, hk⟩
          have hloop : lookup_loop key (t (bucket_of key)) = none :=
            (lookup_loop_eq_none key _).mpr hall
          rw [hn] at hall hloop
          have hl0n : held n = false := hn ▸ hl0
          have hb : (ClusterCache.lookup t held key).2 n = t n := by
            simp [ClusterCache.lookup, hl0n, hn, hloop]
          rw [hb, first_index_none key (t n) hall]
          exact h
      · have hne : ¬ (held (bucket_of key) = false ∧ bucket_of key = n) := by simp [hn]
        rw [if_neg hne]
        have hb : (ClusterCache.lookup t held key).2 n = t n := by
          have hn1 : n ≠ bucket_of key := fun h1 => hn h1.symm
          unfold ClusterCache.lookup
          simp only []
          split
          · rfl
          · split
            · simp [set_bucket, hn1]
            · rfl
        rw [hb]
        exact h
  | sweep held m =>
    simp only [CacheOp.run, CacheOp.track, CacheOp.spares, Bool.or_eq_true,
      decide_eq_true_eq] at hs ⊢
    unfold eventHandler
    split
    · exact h
    · rename_i hl
      have hmn : m ≠ n := by
        rcases hs with hs | hs
        · exact absurd hs hl
        · exact hs
      have hn1 : n ≠ m := fun h1 => hmn h1.symm
      simp [set_bucket, hn1, h]

theorem spared_run_get (ops : List CacheOp) :
    ∀ (t : HashTable) (n i : Nat) (e : Entry), (t n)[i]? = some e →
      spared_run t n i ops = true → (run_ops t ops n)[track_run t n i ops]? = some e := by
  induction ops with
  | nil =>
    intro t n i e h _
    exact h
  | cons op ops ih =>
    intro t n i e h hs
    simp only [spared_run, Bool.and_eq_true] at hs
    simp only [run_ops, track_run]
    exact ih (op.run t) n (op.track t n i) e (spared_step t n i e op h hs.1) hs.2

theorem filter_get_pos (p : Entry → Bool) (q : List Entry) :
    ∀ (i : Nat) (e : Entry), q[i]? = some e → p e = true →
      (q.filter p)[(q.take i).countP p]? = some e := by
  induction q with
  | nil =>
    intro i e h _
    simp at h
  | cons x rest ih =>
    intro i e h hp
    cases i with
    | zero =>
      simp only [List.getElem?_cons_zero, Option.some.injEq] at h
      subst h
      simp [List.filter_cons, hp]
    | succ j =>
      rw [List.getElem?_cons_succ] at h
      have hrec := ih j e h hp
      cases hx : p x with
      | true =>
        simp only [List.take_succ_cons, List.countP_cons, hx, if_true, List.filter_cons]
        rw [List.getElem?_cons_succ]
        exact hrec
      | false =>
        simp only [List.take_succ_cons, List.countP_cons, hx, List.filter_cons]
        simpa using hrec

theorem split_at_pos (q : List Entry) :
    ∀ (i : Nat) (e : Entry), q[i]? = some e → q = q.take i ++ e :: q.drop (i + 1) := by
  induction q with
  | nil =>
    intro i e h
    simp at h
  | cons x rest ih =>
    intro i e h
    cases i with
    | zero =>
      simp only [List.getElem?_cons_zero, Option.some.injEq] at h
      subst h
      simp
    | succ j =>
      rw [List.getElem?_cons_succ] at h
      have hrec := ih j e h
      simp only [List.take_succ_cons, List.drop_succ_cons, List.cons_append]
      rw [← hrec]

theorem sweep_marks (t : HashTable) (hs : Nat → Bool) (n i : Nat) (e : Entry)
    (hl : hs n = false) (h : (t n)[i]? = some e) (hm : e.mark_for_delete = false) :
    ((eventHandler t hs n).2.1 n)[unmarked_before (t n) i]? = some e.marked := by
  have hb : (eventHandler t hs n).2.1 n = (purge_loop (t n)).1 := by
    simp [eventHandler, hl, set_bucket]
  rw [hb, purge_loop_kept, List.getElem?_map, unmarked_before,
    filter_get_pos (fun e => !e.mark_for_delete) (t n) i e h (by simp [hm])]
  rfl

theorem sweep_purges (t : HashTable) (hs : Nat → Bool) (n i : Nat) (e : Entry)
    (hl : hs n = false) (h : (t n)[i]? = some e) (hm : e.mark_for_delete = true) :
    (eventHandler t hs n).2.2 =
      (((t n).take i).filter (fun x => x.mark_for_delete)).flatMap purge_calls ++
        purge_calls e ++
        (((t n).drop (i + 1)).filter (fun x => x.mark_for_delete)).flatMap purge_calls ++
        [PurgeEffect.schedule_in_sec SCAN_INTERVAL] ∧
    (eventHandler t hs n).2.1 n = (purge_loop ((t n).eraseIdx i)).1 := by
  have hq := split_at_pos (t n) i e h
  constructor
  · have hc : (eventHandler t hs n).2.2 =
        (purge_loop (t n)).2 ++ [PurgeEffect.schedule_in_sec SCAN_INTERVAL] := by
      simp [eventHandler, hl]
    rw [hc, purge_loop_calls]
    nth_rewrite 1 [hq]
    simp [List.filter_append, List.filter_cons, hm, List.flatMap_append, List.flatMap_cons]
  · have hb : (eventHandler t hs n).2.1 n = (purge_loop (t n)).1 := by
      simp [eventHandler, hl, set_bucket]
    rw [hb, purge_loop_kept, purge_loop_kept, List.eraseIdx_eq_take_drop_succ]
    nth_rewrite 1 [hq]
    simp [List.filter_append, List.filter_cons, hm]

theorem all_marked_step (t : HashTable) (m : Nat) (op : CacheOp)
    (hop : op.is_insert = false) (h : ∀ e ∈ t m, e.mark_for_delete = true) :
    ∀ e ∈ op.run t m, e.mark_for_delete = true := by
  cases op with
  | insert held key vc => simp [CacheOp.is_insert] at hop
  | lookup held key =>
    intro e he
    exact h e ((lookup_bucket_sublist t held key m).subset he)
  | sweep held k =>
    intro e he
    simp only [CacheOp.run] at he
    unfold eventHandler at he
    split at he
    · exact h e he
    · simp only [set_bucket] at he
      split at he
      · exact purge_loop_kept_marked _ e he
      · exact h e he

theorem all_marked_run (m : Nat) (ops : List CacheOp) :
    ∀ (t : HashTable), (∀ op ∈ ops, op.is_insert = false) →
      (∀ e ∈ t m, e.mark_for_delete = true) →
      ∀ e ∈ run_ops t ops m, e.mark_for_delete = true := by
  induction ops with
  | nil =>
    intro t _ h
    exact h
  | cons op ops ih =>
    intro t hops h
    exact ih (op.run t) (fun o ho => hops o (List.mem_cons_of_mem op ho))
      (all_marked_step t m op (hops op (List.mem_cons_self op ops)) h)

theorem two_scans_no_insert_empty (u : HashTable) (a b : Nat → Bool) (m : Nat)
    (ops : List CacheOp) (ha : a m = false) (hb : b m = false)
    (hops : ∀ op ∈ ops, op.is_insert = false) :
    (eventHandler (run_ops (eventHandler u a m).2.1 ops) b m).2.1 m = [] := by
  have hfirst : (eventHandler u a m).2.1 m = (purge_loop (u m)).1 := by
    simp [eventHandler, ha, set_bucket]
  have hall : ∀ e ∈ run_ops (eventHandler u a m).2.1 ops m, e.mark_for_delete = true := by
    apply all_marked_run m ops _ hops
    rw [hfirst]
    exact purge_loop_kept_marked (u m)
  have hsecond : (eventHandler (run_ops (eventHandler u a m).2.1 ops) b m).2.1 m =
      (purge_loop (run_ops (eventHandler u a m).2.1 ops m)).1 := by
    simp [eventHandler, hb, set_bucket]
  rw [hsecond]
  exact purge_loop_all_marked _ hall

/-- C7: two lock-acquiring purge runs of a bucket with any calls but an
`insert` in between leave the bucket empty; and an entry put in by
`insert(D, vc)` that no later `lookup` hits (lookups of `D` that miss the lock
or hit an older entry of the same key are allowed, as are inserts, lookups of
other digests and purge runs that miss the lock) is in its bucket, unmarked,
when the first lock-acquiring purge run of the bucket starts, is in the
bucket and marked after that run and still when the second lock-acquiring
run starts, and the second run makes the calls `allow_remote_close`, close and
free for it and leaves what it leaves of the queue without that entry. -/
theorem purged_after_two_scans (t : HashTable) (held hs1 hs2 : Nat → Bool) (D : INK_MD5)
    (vc : Nat) (ops1 ops2 : List CacheOp) (t1 t2 t3 : HashTable) (i1 i2 i3 : Nat)
    (hlock : held (bucket_of D) = false)
    (hsp1 : spared_run (insert t held D vc).2 (bucket_of D) (t (bucket_of D)).length ops1 =
      true)
    (ht1 : t1 = run_ops (insert t held D vc).2 ops1)
    (hi1 : i1 = track_run (insert t held D vc).2 (bucket_of D) (t (bucket_of D)).length ops1)
    (h1 : hs1 (bucket_of D) = false)
    (ht2 : t2 = (eventHandler t1 hs1 (bucket_of D)).2.1)
    (hi2 : i2 = unmarked_before (t1 (bucket_of D)) i1)
    (hsp2 : spared_run t2 (bucket_of D) i2 ops2 = true)
    (ht3 : t3 = run_ops t2 ops2)
    (hi3 : i3 = track_run t2 (bucket_of D) i2 ops2)
    (h2 : hs2 (bucket_of D) = false) :
    (∀ (u : HashTable) (a b : Nat → Bool) (m : Nat) (ops : List CacheOp),
      a m = false → b m = false → (∀ op ∈ ops, op.is_insert = false) →
      (eventHandler (run_ops (eventHandler u a m).2.1 ops) b m).2.1 m = []) ∧
    (t1 (bucket_of D))[i1]? = some { mark_for_delete := false, key := D, vc := vc } ∧
    (t2 (bucket_of D))[i2]? = some { mark_for_delete := true, key := D, vc := vc } ∧
    (t3 (bucket_of D))[i3]? = some { mark_for_delete := true, key := D, vc := vc } ∧
    (eventHandler t3 hs2 (bucket_of D)).2.2 =
      (((t3 (bucket_of D)).take i3).filter (fun x => x.mark_for_delete)).flatMap purge_calls ++
        purge_calls { mark_for_delete := true, key := D, vc := vc } ++
        (((t3 (bucket_of D)).drop (i3 + 1)).filter
          (fun x => x.mark_for_delete)).flatMap purge_calls ++
        [PurgeEffect.schedule_in_sec SCAN_INTERVAL] ∧
    (eventHandler t3 hs2 (bucket_of D)).2.1 (bucket_of D) =
      (purge_loop ((t3 (bucket_of D)).eraseIdx i3)).1 := by
  have hins : ((insert t held D vc).2 (bucket_of D))[(t (bucket_of D)).length]? =
      some { mark_for_delete := false, key := D, vc := vc } := by
    simp [insert, hlock, set_bucket, ClusterVCCacheEntryAlloc_alloc]
  have hp1 : (t1 (bucket_of D))[i1]? =
      some { mark_for_delete := false, key := D, vc := vc } := by
    rw [ht1, hi1]
    exact spared_run_get ops1 _ _ _ _ hins hsp1
  have hp2 : (t2 (bucket_of D))[i2]? =
      some { mark_for_delete := true, key := D, vc := vc } := by
    rw [ht2, hi2]
    exact sweep_marks t1 hs1 (bucket_of D) i1 _ h1 hp1 rfl
  have hp3 : (t3 (bucket_of D))[i3]? =
      some { mark_for_delete := true, key := D, vc := vc } := by
    rw [ht3, hi3]
    exact spared_run_get ops2 _ _ _ _ hp2 hsp2
  have hfin := sweep_purges t3 hs2 (bucket_of D) i3 _ h2 hp3 rfl
  exact ⟨two_scans_no_insert_empty, hp1, hp2, hp3, hfin.1, hfin.2⟩

/-- C7, instance: `sample_digest` is inserted with vc 400 into `sample_table`,
behind two older entries of the same digest.  Before the first lock-acquiring
purge run of bucket 7 a lookup of `sample_digest` hits the older entry 200,
another misses the lock and a purge run misses the lock; between the two
lock-acquiring runs a lookup hits the older entry 300 and `other_digest` is
inserted.  The entry 400 is then second in the queue and marked, and the
second run closes and frees the older entry 100 and the entry 400 and leaves
only the entry of `other_digest` inserted last, now marked. -/
theorem purged_after_two_scans_witness :
    spared_run (insert sample_table no_lock_held sample_digest 400).2 (bucket_of sample_digest)
      (sample_table (bucket_of sample_digest)).length sample_ops_1 = true ∧
    (run_ops (eventHandler (run_ops (insert sample_table no_lock_held sample_digest 400).2
      sample_ops_1) no_lock_held (bucket_of sample_digest)).2.1 sample_ops_2
        (bucket_of sample_digest))[1]? =
      some { mark_for_delete := true, key := sample_digest, vc := 400 } ∧
    (eventHandler (run_ops (eventHandler (run_ops
      (insert sample_table no_lock_held sample_digest 400).2
      sample_ops_1) no_lock_held (bucket_of sample_digest)).2.1 sample_ops_2) no_lock_held
        (bucket_of sample_digest)).2.2 =
      purge_calls { mark_for_delete := true, key := other_digest, vc := 100 } ++
      purge_calls { mark_for_delete := true, key := sample_digest, vc := 400 } ++
      [PurgeEffect.schedule_in_sec SCAN_INTERVAL] ∧
    (eventHandler (run_ops (eventHandler (run_ops
      (insert sample_table no_lock_held sample_digest 400).2
      sample_ops_1) no_lock_held (bucket_of sample_digest)).2.1 sample_ops_2) no_lock_held
        (bucket_of sample_digest)).2.1 (bucket_of sample_digest) =
      [{ mark_for_delete := true, key := other_digest, vc := 500 }] :=
  ⟨by decide,
   (purged_after_two_scans sample_table no_lock_held no_lock_held no_lock_held sample_digest
      400 sample_ops_1 sample_ops_2 _ _ _ 2 2 1 rfl (by decide) rfl (by decide) rfl rfl
      (by decide) (by decide) rfl (by decide) rfl).2.2.2.1,
   (purged_after_two_scans sample_table no_lock_held no_lock_held no_lock_held sample_digest
      400 sample_ops_1 sample_ops_2 _ _ _ 2 2 1 rfl (by decide) rfl (by decide) rfl rfl
      (by decide) (by decide) rfl (by decide) rfl).2.2.2.2.1,
   by decide⟩

end ClusterCache

namespace ClusterCache

/-! ## Sequence numbers -/

theorem new_cache_sequence_number_bounds (c : Nat) :
    (new_cache_sequence_number c).1 ≠ 0 ∧ (new_cache_sequence_number c).1 < 2 ^ 32 ∧
    (new_cache_sequence_number c).2 < 2 ^ 32 := by
  rw [new_cache_sequence_number_eq]
  by_cases h : c % 2 ^ 32 = 0
  · rw [if_pos h]
    norm_num
  · rw [if_neg h]
    refine ⟨h, ?_, ?_⟩
    · exact Nat.mod_lt _ (by norm_num)
    · exact Nat.mod_lt _ (by norm_num)

theorem fill_msg_seq (c : Nat) (args : OpArgs) (opcode : CacheOpcode) (data : MsgBuffer)
    (nbytes : Int) (ccvc : Option ClusterCacheVC) (counter : Nat) (f : FilledMsg)
    (h : fill_msg c args opcode data nbytes ccvc counter = Except.ok f) :
    f.msg.seq_number = (new_cache_sequence_number counter).1 ∧
    f.cluster_sequence_number = (new_cache_sequence_number counter).2 := by
  cases opcode <;> simp only [fill_msg] at h
  all_goals first
    | exact Except.noConfusion h
    | (split at h
       · exact Except.noConfusion h
       · first
          | (split at h <;> (cases h; exact ⟨rfl, rfl⟩))
          | (cases h; exact ⟨rfl, rfl⟩))
    | (cases h; exact ⟨rfl, rfl⟩)

end ClusterCache

namespace ClusterCache

theorem do_op_returned_msg (c cs : Nat) (args : OpArgs) (user_opcode : CacheOpcode)
    (data : MsgBuffer) (data_len nbytes : Int) (counter : Nat) (send_result : Int)
    (r : DoOpResult)
    (h : do_op c cs args user_opcode data data_len nbytes counter send_result =
      DoOpOutcome.returned r) :
    ∃ f, fill_msg c args (map_opcode user_opcode) data nbytes
        (setup_ccvc c cs args (map_opcode user_opcode)).1 counter = Except.ok f ∧
      r.msg = f.msg ∧ r.cluster_sequence_number = f.cluster_sequence_number := by
  unfold do_op at h
  cases hf : fill_msg c args (map_opcode user_opcode) data nbytes
      (setup_ccvc c cs args (map_opcode user_opcode)).1 counter with
  | error e =>
    simp only [hf] at h
    exact DoOpOutcome.noConfusion h
  | ok f =>
    simp only [hf] at h
    refine ⟨f, rfl, ?_⟩
    split at h
    · cases h
      exact ⟨rfl, rfl⟩
    · cases h
      exact ⟨rfl, rfl⟩

/-- C8: for every value of the counter, 0 and 0xFFFFFFFF included (the
function is total, so every call returns), `new_cache_sequence_number`
returns a non-zero 32-bit value; and every message of a returning call of
`do_op`, for every caller and so for a non-null one, carries a non-zero
sequence number, the one the counter handed out. -/
theorem sequence_number_never_zero :
    (∀ counter, (new_cache_sequence_number counter).1 ≠ 0 ∧
      (new_cache_sequence_number counter).1 < 2 ^ 32) ∧
    new_cache_sequence_number 0 = (1, 2) ∧
    new_cache_sequence_number 0xFFFFFFFF = (0xFFFFFFFF, 0) ∧
    (∀ (c cs : Nat) (args : OpArgs) (user_opcode : CacheOpcode) (data : MsgBuffer)
      (data_len nbytes : Int) (counter : Nat) (send_result : Int) (r : DoOpResult),
      do_op c cs args user_opcode data data_len nbytes counter send_result =
        DoOpOutcome.returned r →
      r.msg.seq_number ≠ 0 ∧ r.msg.seq_number = (new_cache_sequence_number counter).1) := by
  refine ⟨fun counter => ⟨(new_cache_sequence_number_bounds counter).1,
    (new_cache_sequence_number_bounds counter).2.1⟩, ?_, ?_, ?_⟩
  · rw [new_cache_sequence_number_eq]
    norm_num
  · rw [new_cache_sequence_number_eq]
    norm_num
  · intro c cs args user_opcode data data_len nbytes counter send_result r h
    obtain ⟨f, hf, hmsg, _⟩ :=
      do_op_returned_msg c cs args user_opcode data data_len nbytes counter send_result r h
    have hseq := (fill_msg_seq _ _ _ _ _ _ _ f hf).1
    rw [hmsg, hseq]
    exact ⟨(new_cache_sequence_number_bounds counter).1, rfl⟩

/-! ## Distinct sequence numbers -/

theorem sequence_numbers_eq (n : Nat) :
    ∀ c : Nat, (sequence_numbers n c).1 =
      (List.range n).map
        (fun i => ((new_cache_sequence_number c).1 - 1 + i) % (2 ^ 32 - 1) + 1) := by
  induction n with
  | zero =>
    intro c
    rfl
  | succ n ih =>
    intro c
    have hstep : (sequence_numbers (n + 1) c).1 =
        (new_cache_sequence_number c).1 ::
          (sequence_numbers n (new_cache_sequence_number c).2).1 := rfl
    rw [hstep, ih, List.range_succ_eq_map, List.map_cons, List.map_map]
    have hb := new_cache_sequence_number_bounds c
    have hnext : (new_cache_sequence_number (new_cache_sequence_number c).2).1 =
        (new_cache_sequence_number c).1 % (2 ^ 32 - 1) + 1 := by
      have h2 : (new_cache_sequence_number c).2 =
          ((new_cache_sequence_number c).1 + 1) % 2 ^ 32 := by
        rw [new_cache_sequence_number_eq]
        by_cases h : c % 2 ^ 32 = 0
        · rw [if_pos h]
          show 2 = (1 + 1) % 2 ^ 32
          norm_num
        · rw [if_neg h]
          show (c + 1) % 2 ^ 32 = (c % 2 ^ 32 + 1) % 2 ^ 32
          omega
      rw [h2, new_cache_sequence_number_eq]
      by_cases h : ((new_cache_sequence_number c).1 + 1) % 2 ^ 32 % 2 ^ 32 = 0
      · rw [if_pos h]
        show 1 = (new_cache_sequence_number c).1 % (2 ^ 32 - 1) + 1
        omega
      · rw [if_neg h]
        show ((new_cache_sequence_number c).1 + 1) % 2 ^ 32 % 2 ^ 32 =
          (new_cache_sequence_number c).1 % (2 ^ 32 - 1) + 1
        omega
    congr 1
    · show (new_cache_sequence_number c).1 =
        ((new_cache_sequence_number c).1 - 1 + 0) % (2 ^ 32 - 1) + 1
      omega
    · apply List.map_congr_left
      intro i _
      show ((new_cache_sequence_number (new_cache_sequence_number c).2).1 - 1 + i) %
          (2 ^ 32 - 1) + 1 =
        ((new_cache_sequence_number c).1 - 1 + (i + 1)) % (2 ^ 32 - 1) + 1
      rw [hnext]
      omega

/-- C9: with the counter a 32-bit value incremented modulo 2^32, for every
initial counter value the results of any `n ≤ 2^32 - 1` consecutive calls of
`new_cache_sequence_number` are pairwise distinct. -/
theorem sequence_numbers_distinct (c n : Nat) (hn : n ≤ 2 ^ 32 - 1) :
    (sequence_numbers n c).1.Nodup := by
  rw [sequence_numbers_eq]
  apply List.Nodup.map_on _ (List.nodup_range n)
  intro x hx y hy hxy
  have hx1 := List.mem_range.mp hx
  have hy1 := List.mem_range.mp hy
  simp only at hxy
  omega

/-- C9, instance: five calls across the wrap-around, from the counter value
0xFFFFFFFE, return 0xFFFFFFFE, 0xFFFFFFFF, 1, 2, 3. -/
theorem sequence_numbers_distinct_witness :
    5 ≤ 2 ^ 32 - 1 ∧ (sequence_numbers 5 0xFFFFFFFE).1.Nodup ∧
    (sequence_numbers 5 0xFFFFFFFE).1 = [0xFFFFFFFE, 0xFFFFFFFF, 1, 2, 3] :=
  ⟨by norm_num, sequence_numbers_distinct 0xFFFFFFFE 5 (by norm_num), by
    rw [sequence_numbers_eq, new_cache_sequence_number_eq]
    decide⟩

end ClusterCache

namespace ClusterCache

/-! ## The wire shape chosen by `do_op` -/

theorem do_op_of_fill_ok (c cs : Nat) (args : OpArgs) (user_opcode : CacheOpcode)
    (data : MsgBuffer) (data_len nbytes : Int) (counter : Nat) (send_result : Int)
    (f : FilledMsg)
    (hf : fill_msg c args (map_opcode user_opcode) data nbytes
      (setup_ccvc c cs args (map_opcode user_opcode)).1 counter = Except.ok f) :
    ∃ r, do_op c cs args user_opcode data data_len nbytes counter send_result =
      DoOpOutcome.returned r ∧ r.msg = f.msg := by
  unfold do_op
  simp only [hf]
  by_cases hs : send_result = 0
  · rw [if_pos hs]
    exact ⟨_, rfl, rfl⟩
  · rw [if_neg hs]
    exact ⟨_, rfl, rfl⟩

end ClusterCache

namespace ClusterCache

/-! ## The send issued by `do_op` -/

theorem fill_msg_ccvc (c : Nat) (args : OpArgs) (opcode : CacheOpcode) (data : MsgBuffer)
    (nbytes : Int) (ccvc : Option ClusterCacheVC) (counter : Nat) (f : FilledMsg)
    (h : fill_msg c args opcode data nbytes ccvc counter = Except.ok f) :
    f.ccvc.isSome = ccvc.isSome := by
  cases opcode <;> simp only [fill_msg] at h
  all_goals first
    | exact Except.noConfusion h
    | (split at h
       · exact Except.noConfusion h
       · first
          | (split at h <;> (cases h; cases ccvc <;> rfl))
          | (cases h; cases ccvc <;> rfl))
    | (cases h; rfl)

theorem setup_ccvc_isSome (c cs : Nat) (args : OpArgs) (opcode : CacheOpcode) :
    (setup_ccvc c cs args opcode).1.isSome = decide (c ≠ 0) ∧
    (setup_ccvc c cs args opcode).2 =
      if c = 0 then [] else [OpEffect.new_ClusterCacheVC c, OpEffect.cluster_bind_session cs] := by
  unfold setup_ccvc
  by_cases hc : c = 0
  · simp [hc]
  · simp [hc]

end ClusterCache

namespace ClusterCache

/-- C11: a call of `do_op` that returns (the opcode is accepted) issues
exactly one `cluster_send_message`, for the filled message and with
`PRIORITY_HIGH`; it returns the action handle exactly when that send returns
0 and the caller is non-null; when the send returns non-zero it closes the
session exactly once, frees the initiator VC if it allocated one, and returns
null; when the send returns 0 it does not close the session. -/
theorem do_op_send_once (c cs : Nat) (args : OpArgs) (user_opcode : CacheOpcode)
    (data : MsgBuffer) (data_len nbytes : Int) (counter : Nat) (send_result : Int)
    (r : DoOpResult)
    (h : do_op c cs args user_opcode data data_len nbytes counter send_result =
      DoOpOutcome.returned r) :
    r.effects.countP OpEffect.is_send = 1 ∧
    (∀ e ∈ r.effects, e.is_send = true →
      e = OpEffect.cluster_send_message cs r.msg data_len (-1) Priority.PRIORITY_HIGH) ∧
    (r.action = ActionHandle.ccvc_action ↔ (send_result = 0 ∧ c ≠ 0)) ∧
    (send_result ≠ 0 →
      r.effects.countP OpEffect.is_close = 1 ∧ r.action = ActionHandle.null ∧
      (OpEffect.free_ClusterCacheVC ∈ r.effects ↔ c ≠ 0)) ∧
    (send_result = 0 → r.effects.countP OpEffect.is_close = 0) := by
  unfold do_op at h
  cases hf : fill_msg c args (map_opcode user_opcode) data nbytes
      (setup_ccvc c cs args (map_opcode user_opcode)).1 counter with
  | error e =>
    simp only [hf] at h
    exact DoOpOutcome.noConfusion h
  | ok f =>
    simp only [hf] at h
    have hs := setup_ccvc_isSome c cs args (map_opcode user_opcode)
    have hcc := fill_msg_ccvc _ _ _ _ _ _ _ f hf
    rw [hs.1] at hcc
    rw [hs.2] at h
    by_cases hc : c = 0
    · have hnone : f.ccvc = none := by
        cases hv : f.ccvc with
        | none => rfl
        | some v =>
          rw [hv] at hcc
          simp [hc] at hcc
      by_cases hsr : send_result = 0
      · simp only [hsr, if_true, hnone, hc] at h
        cases h
        simp [hc, hsr, OpEffect.is_send, OpEffect.is_close]
      · simp only [hsr, if_false, hnone, hc, if_true] at h
        cases h
        simp [hc, hsr, OpEffect.is_send, OpEffect.is_close]
    · obtain ⟨v, hv⟩ : ∃ v, f.ccvc = some v := by
        cases hv : f.ccvc with
        | none =>
          rw [hv] at hcc
          simp [hc] at hcc
        | some v => exact ⟨v, rfl⟩
      by_cases hsr : send_result = 0
      · simp only [hsr, if_true, hv, hc, if_false] at h
        cases h
        simp [hc, hsr, OpEffect.is_send, OpEffect.is_close]
      · simp only [hsr, if_false, hv, hc] at h
        cases h
        simp [hc, hsr, OpEffect.is_send, OpEffect.is_close]

end ClusterCache

namespace ClusterCache

/-- C11, instance: a REMOVE request from caller 1 on session 7 whose send
returns 5; the run is `sample_failed_send`. -/
theorem do_op_send_once_witness :
    do_op 1 7 sample_args CacheOpcode.CACHE_REMOVE sample_buffer 64 0 1 5 =
      DoOpOutcome.returned sample_failed_send ∧
    sample_failed_send.effects.countP OpEffect.is_send = 1 ∧
    sample_failed_send.effects.countP OpEffect.is_close = 1 :=
  have h : do_op 1 7 sample_args CacheOpcode.CACHE_REMOVE sample_buffer 64 0 1 5 =
      DoOpOutcome.returned sample_failed_send := by
    simp [do_op, fill_msg, map_opcode, setup_ccvc, new_cache_sequence_number_eq,
      sample_args, sample_buffer, new_ClusterCacheVC, sample_failed_send]
  ⟨h,
   (do_op_send_once 1 7 sample_args CacheOpcode.CACHE_REMOVE sample_buffer 64 0 1 5
      sample_failed_send h).1,
   ((do_op_send_once 1 7 sample_args CacheOpcode.CACHE_REMOVE sample_buffer 64 0 1 5
      sample_failed_send h).2.2.2.1 (by decide)).1⟩

/-! ## The small-object path of `setupVCdataRead` -/

theorem reply_then_stream_not_small (c : CacheContinuation) (env : HandlerEnv)
    (d : Int) : (reply_then_stream c env).is_small_path d = false := by
  unfold reply_then_stream
  split
  · simp [close_and_free, HandlerOutcome.is_small_path]
  · simp [HandlerOutcome.is_small_path]

/-- C12, as stated, fails: an object of size 0 is below the threshold, is
not read from a writer and the request has no conditional header, yet the
inlined path is not taken. -/
theorem small_path_zero_size_counterexample :
    ¬ ((setupVCdataRead 4096 sample_read_record Event.CACHE_EVENT_OPEN_READ
          (sample_env 0)).is_small_path 0 = true ↔
        ((0 : Int) < 4096 ∧ (sample_env 0).data_vc.read_from_writer = false ∧
          sample_read_record.ic_request.conditional = false)) := by
  intro h
  have h1 := h.mpr (by decide)
  revert h1
  decide

/-- C12, amended: on `CACHE_EVENT_OPEN_READ`, `setupVCdataRead` takes the
inlined small-object path (installs `VCSmallDataRead` and issues one
`do_io_read` for the whole `doc_size`, sending no reply yet) if and only if
the object size reported by the cache is greater than 0 and below
`SIZE_OF_FRAGEMENT`, the cache VC is not reading from a concurrent writer,
and it is not the case that the fragment type is HTTP and the request is
valid and carries one of the conditional headers. -/
theorem small_path_iff (SIZE_OF_FRAGEMENT : Int) (c : CacheContinuation)
    (env : HandlerEnv) :
    (setupVCdataRead SIZE_OF_FRAGEMENT c Event.CACHE_EVENT_OPEN_READ env).is_small_path
        (open_read_record c env).doc_size = true ↔
      (0 < (open_read_record c env).doc_size ∧
        (open_read_record c env).doc_size < SIZE_OF_FRAGEMENT ∧
        env.data_vc.read_from_writer = false ∧
        ¬ (c.frag_type = CACHE_FRAG_TYPE_HTTP ∧ c.ic_request.valid = true ∧
            c.ic_request.conditional = true)) := by
  have hcond : request_conditional c = false ↔
      ¬ (c.frag_type = CACHE_FRAG_TYPE_HTTP ∧ c.ic_request.valid = true ∧
          c.ic_request.conditional = true) := by
    simp [request_conditional]
  rw [← hcond]
  by_cases hsmall : 0 < (open_read_record c env).doc_size ∧
      (open_read_record c env).doc_size < SIZE_OF_FRAGEMENT ∧
      env.data_vc.read_from_writer = false ∧ request_conditional c = false
  · simp [setupVCdataRead, Event.is_cluster_msg, hsmall, HandlerOutcome.is_small_path]
  · have hno : (setupVCdataRead SIZE_OF_FRAGEMENT c Event.CACHE_EVENT_OPEN_READ
        env).is_small_path (open_read_record c env).doc_size = false := by
      simp only [setupVCdataRead, Event.is_cluster_msg, hsmall, if_false, if_true]
      exact reply_then_stream_not_small _ env _
    rw [hno]
    simp [hsmall]

end ClusterCache

namespace ClusterCache

/-! ## The first reply of an open read -/

theorem dispatch_fresh (k : ProtoConsts) (sw : ByteSwaps) (cs : Nat) (req : InboundRequest)
    (bind_result : Int) (action : Nat) (c : CacheContinuation) (fx : List DispatchEffect)
    (h : cache_op_ClusterFunction k sw cs req bind_result action =
      DispatchOutcome.returned (some c) fx) :
    c.total_length = 0 ∧ c.doc_data = false ∧ c.result_error = 0 ∧ c.cs = cs ∧
    c.cache_vc = none ∧ c.mbuf = false ∧ c.vio = none ∧ c.expect_next = false ∧
    c.writer_aborted = false := by
  unfold cache_op_ClusterFunction at h
  by_cases hb : bind_result = 0
  · simp only [hb, ne_eq, not_true_eq_false, if_false] at h
    split at h
    all_goals first
      | exact DispatchOutcome.noConfusion h
      | (simp only [DispatchOutcome.returned.injEq, Option.some.injEq] at h
         obtain ⟨hc, _⟩ := h
         subst hc
         simp [new_CacheCont, init_from_short, init_from_long, init_from_short_2, keep_action]
         try split
         all_goals simp)
  · simp [hb] at h

theorem open_read_record_fields (c : CacheContinuation) (env : HandlerEnv) :
    (open_read_record c env).result = Event.CACHE_EVENT_OPEN_READ ∧
    (open_read_record c env).total_length = c.total_length ∧
    (open_read_record c env).doc_data = c.doc_data ∧
    (open_read_record c env).cs = c.cs ∧
    (open_read_record c env).seq_number = c.seq_number ∧
    (open_read_record c env).cache_vc = some env.data_vc ∧
    (open_read_record c env).mbuf = c.mbuf ∧
    (open_read_record c env).pending_action = none := by
  unfold open_read_record
  split <;> simp

theorem reply_msg_open_read (c : CacheContinuation)
    (hr : c.result = Event.CACHE_EVENT_OPEN_READ) :
    (reply_msg c).result = Event.CACHE_EVENT_OPEN_READ ∧
    (reply_msg c).seq_number = c.seq_number ∧
    (reply_msg c).reason = c.result_error ∧
    (reply_msg c).doc_size = c.doc_size ∧
    (reply_msg c).d_len = int_to_int32 c.total_length ∧
    (reply_msg c).h_len =
      (if c.cache_vc_info.valid then c.cache_vc_info.marshal_length else 0) ∧
    (reply_msg c).version = CACHE_OP_REPLY_MESSAGE_VERSION ∧
    (reply_msg c).need_byte_swap = false := by
  simp [reply_msg, hr, event_is_open, CacheOpReplyMsg_init]

theorem replyOpEvent_open_read (c : CacheContinuation) (env : HandlerEnv)
    (hr : c.result = Event.CACHE_EVENT_OPEN_READ) :
    replyOpEvent c env =
      { send_result := env.send_result,
        cont := { c with doc_data := false },
        effects := [RespEffect.cluster_send_message c.cs
          SendKind.CLUSTER_CACHE_OP_RESULT_CLUSTER_FUNCTION
          (Payload.reply (reply_msg c) c.doc_data) Priority.PRIORITY_MID] } := by
  simp [replyOpEvent, hr, event_is_open]

/-- C13: for a record as `cache_op_ClusterFunction` leaves it and an
open-read hit whose object size is `SIZE_OF_FRAGEMENT` or larger (the
threshold being positive), `setupVCdataRead` does not inline: its first call
sends the reply with result `CACHE_EVENT_OPEN_READ`, `d_len = 0`, the HTTP
info length and no data block; when that send returns 0 the only further
call sets the session event mask to `RESPONSE_EVENT_NOTIFY_DEALER` (the
session is not closed), `expect_next` is true, the handler is `VCdataRead`
and the result is `EVENT_CONT`. -/
theorem large_object_streams (k : ProtoConsts) (sw : ByteSwaps) (cs : Nat)
    (req : InboundRequest) (action : Nat) (c : CacheContinuation)
    (fx0 : List DispatchEffect) (SIZE_OF_FRAGEMENT : Int) (env : HandlerEnv)
    (hdisp : cache_op_ClusterFunction k sw cs req 0 action =
      DispatchOutcome.returned (some c) fx0)
    (hpos : 0 < SIZE_OF_FRAGEMENT)
    (hbig : SIZE_OF_FRAGEMENT ≤ (open_read_record c env).doc_size) :
    (setupVCdataRead SIZE_OF_FRAGEMENT c Event.CACHE_EVENT_OPEN_READ env).is_small_path
      (open_read_record c env).doc_size = false ∧
    ∃ msg,
      (setupVCdataRead SIZE_OF_FRAGEMENT c Event.CACHE_EVENT_OPEN_READ env).effects.head? =
        some (RespEffect.cluster_send_message cs
          SendKind.CLUSTER_CACHE_OP_RESULT_CLUSTER_FUNCTION (Payload.reply msg false)
          Priority.PRIORITY_MID) ∧
      msg.result = Event.CACHE_EVENT_OPEN_READ ∧ msg.d_len = 0 ∧
      msg.doc_size = (open_read_record c env).doc_size ∧
      msg.h_len = (if (open_read_record c env).cache_vc_info.valid
        then (open_read_record c env).cache_vc_info.marshal_length else 0) ∧
      (env.send_result = 0 → ∃ c1,
        setupVCdataRead SIZE_OF_FRAGEMENT c Event.CACHE_EVENT_OPEN_READ env =
          HandlerOutcome.returned EVENT_CONT (some c1)
            [RespEffect.cluster_send_message cs
              SendKind.CLUSTER_CACHE_OP_RESULT_CLUSTER_FUNCTION (Payload.reply msg false)
              Priority.PRIORITY_MID,
             RespEffect.cluster_set_events cs EventMask.RESPONSE_EVENT_NOTIFY_DEALER] ∧
        c1.expect_next = true ∧ c1.handler = some ContHandler.VCdataRead) := by
  have hfresh : c.total_length = 0 ∧ c.doc_data = false ∧ c.cs = cs := by
    have h := dispatch_fresh k sw cs req 0 action c fx0 hdisp
    exact ⟨h.1, h.2.1, h.2.2.2.1⟩
  obtain ⟨ht, hd, hcs⟩ := hfresh
  obtain ⟨hres, htl, hdd, hcs1, _, _, _, _⟩ := open_read_record_fields c env
  have hnot : ¬ (0 < (open_read_record c env).doc_size ∧
      (open_read_record c env).doc_size < SIZE_OF_FRAGEMENT ∧
      env.data_vc.read_from_writer = false ∧ request_conditional c = false) := by
    intro h
    omega
  have hdef : setupVCdataRead SIZE_OF_FRAGEMENT c Event.CACHE_EVENT_OPEN_READ env =
      reply_then_stream
        { open_read_record c env with result_error := int_to_int32 env.data_vc.flags }
        env := by
    simp only [setupVCdataRead, Event.is_cluster_msg, hnot, if_false, if_true]
    simp
  have hrm := reply_msg_open_read
    { open_read_record c env with result_error := int_to_int32 env.data_vc.flags } hres
  have hro := replyOpEvent_open_read
    { open_read_record c env with result_error := int_to_int32 env.data_vc.flags } env hres
  refine ⟨by rw [hdef]; exact reply_then_stream_not_small _ env _, ?_⟩
  refine ⟨reply_msg
    { open_read_record c env with result_error := int_to_int32 env.data_vc.flags },
    ?_, hrm.1, ?_, hrm.2.2.2.1, hrm.2.2.2.2.2.1, ?_⟩
  · rw [hdef]
    unfold reply_then_stream
    rw [hro]
    split <;> simp [close_and_free, HandlerOutcome.effects, hdd, hd, hcs1, hcs]
  · rw [hrm.2.2.2.2.1]
    show int_to_int32 (open_read_record c env).total_length = 0
    rw [htl, ht]
    decide
  · intro hs
    rw [hdef]
    unfold reply_then_stream
    rw [hro]
    have hne : (open_read_record c env).doc_size ≠ 0 := by omega
    simp [hs, hres, hne, hdd, hd, hcs1, hcs]

/-- C13, instance: the record left for `sample_request` gets the open-read
result for an object of exactly 4096 bytes with a threshold of 4096. -/
theorem large_object_streams_witness :
    cache_op_ClusterFunction sample_consts native_swaps 7 sample_request 0 33 =
      DispatchOutcome.returned (some sample_dispatched) sample_dispatch_calls ∧
    (0 : Int) < 4096 ∧
    (4096 : Int) ≤ (open_read_record sample_dispatched (sample_env 4096)).doc_size ∧
    (setupVCdataRead 4096 sample_dispatched Event.CACHE_EVENT_OPEN_READ
      (sample_env 4096)).is_small_path
        (open_read_record sample_dispatched (sample_env 4096)).doc_size = false :=
  ⟨by decide, by decide, by decide,
   (large_object_streams sample_consts native_swaps 7 sample_request 33 sample_dispatched
      sample_dispatch_calls 4096 (sample_env 4096) (by decide) (by decide) (by decide)).1⟩

end ClusterCache

namespace ClusterCache

/-! ## The zero-length object -/

/-- C14, as stated, fails: for an object of exactly zero length the reply is
not produced by the inlined path: `setupVCdataRead` installs no
`VCSmallDataRead` and issues no `do_io_read`, it sends the reply itself. -/
theorem zero_length_not_inlined_counterexample :
    (setupVCdataRead 4096 sample_dispatched Event.CACHE_EVENT_OPEN_READ
      (sample_env 0)).is_small_path 0 = false ∧
    RespEffect.do_io_read 0 ∉
      (setupVCdataRead 4096 sample_dispatched Event.CACHE_EVENT_OPEN_READ
        (sample_env 0)).effects := by
  decide

/-- C14, amended: for a record as `cache_op_ClusterFunction` leaves it and
an open-read hit on an object of exactly zero length, the reply is produced
by `setupVCdataRead` itself (not by the inlined small-object path, which
needs a size above zero): it has result `CACHE_EVENT_OPEN_READ`,
`d_len = 0` and `doc_size = 0`; no streaming phase follows, the responder
closes the session and frees the record right after the reply; and on the
initiator `cache_op_result_ClusterFunction` marks the VC as remote-closed
and delivers `CACHE_EVENT_OPEN_READ`. -/
theorem zero_length_reply (k : ProtoConsts) (sw : ByteSwaps) (cs : Nat)
    (req : InboundRequest) (action : Nat) (c : CacheContinuation)
    (fx0 : List DispatchEffect) (SIZE_OF_FRAGEMENT : Int) (env : HandlerEnv)
    (hdisp : cache_op_ClusterFunction k sw cs req 0 action =
      DispatchOutcome.returned (some c) fx0)
    (hzero : (open_read_record c env).doc_size = 0) :
    (setupVCdataRead SIZE_OF_FRAGEMENT c Event.CACHE_EVENT_OPEN_READ env).is_small_path 0 =
      false ∧
    ∃ msg,
      setupVCdataRead SIZE_OF_FRAGEMENT c Event.CACHE_EVENT_OPEN_READ env =
        HandlerOutcome.returned EVENT_DONE none
          [RespEffect.cluster_send_message cs
            SendKind.CLUSTER_CACHE_OP_RESULT_CLUSTER_FUNCTION (Payload.reply msg false)
            Priority.PRIORITY_MID,
           RespEffect.cluster_close_session cs,
           RespEffect.do_io_close CloseKind.by_free, RespEffect.allocator_free] ∧
      msg.result = Event.CACHE_EVENT_OPEN_READ ∧ msg.d_len = 0 ∧ msg.doc_size = 0 ∧
      ∀ (swap : CacheOpReplyMsg → CacheOpReplyMsg) (cvc : ReplyState) (has_data : Bool),
        ∃ cvc1, cache_op_result_ClusterFunction swap cvc msg has_data =
          ReplyOutcome.delivered cvc1 Event.CACHE_EVENT_OPEN_READ 0 ∧
          cvc1.remote_closed = true ∧ cvc1.doc_len = some 0 ∧ cvc1.total_len = some 0 := by
  have hf := dispatch_fresh k sw cs req 0 action c fx0 hdisp
  obtain ⟨ht, hd, _, hcs, _, hmb, _, _, _⟩ := hf
  obtain ⟨hres, htl, hdd, hcs1, _, hvc, hmb1, hpa⟩ := open_read_record_fields c env
  have hnot : ¬ (0 < (open_read_record c env).doc_size ∧
      (open_read_record c env).doc_size < SIZE_OF_FRAGEMENT ∧
      env.data_vc.read_from_writer = false ∧ request_conditional c = false) := by
    intro h
    omega
  have hdef : setupVCdataRead SIZE_OF_FRAGEMENT c Event.CACHE_EVENT_OPEN_READ env =
      reply_then_stream
        { open_read_record c env with result_error := int_to_int32 env.data_vc.flags }
        env := by
    simp only [setupVCdataRead, Event.is_cluster_msg, hnot, if_false, if_true]
    simp
  have hrm := reply_msg_open_read
    { open_read_record c env with result_error := int_to_int32 env.data_vc.flags } hres
  have hro := replyOpEvent_open_read
    { open_read_record c env with result_error := int_to_int32 env.data_vc.flags } env hres
  have hdl : (reply_msg
      { open_read_record c env with result_error := int_to_int32 env.data_vc.flags }).d_len
      = 0 := by
    rw [hrm.2.2.2.2.1]
    show int_to_int32 (open_read_record c env).total_length = 0
    rw [htl, ht]
    decide
  have hds : (reply_msg
      { open_read_record c env with result_error := int_to_int32 env.data_vc.flags }).doc_size
      = 0 := by
    rw [hrm.2.2.2.1]
    exact hzero
  refine ⟨by rw [hdef]; exact reply_then_stream_not_small _ env _, ?_⟩
  refine ⟨reply_msg
    { open_read_record c env with result_error := int_to_int32 env.data_vc.flags },
    ?_, hrm.1, hdl, hds, ?_⟩
  · rw [hdef]
    unfold reply_then_stream
    rw [hro]
    simp [hzero, close_and_free, free_CacheCont, cacheContAllocator_free, hdd, hd, hcs1, hcs,
      hvc, hmb1, hmb, hpa]
  · intro swap cvc has_data
    simp [cache_op_result_ClusterFunction, hrm.2.2.2.2.2.2.1, hrm.2.2.2.2.2.2.2, hrm.1,
      event_reply_may_have_moi, hdl, hds]

/-- C14, amended, instance: the record left for `sample_request` gets the
open-read result for an object of 0 bytes. -/
theorem zero_length_reply_witness :
    cache_op_ClusterFunction sample_consts native_swaps 7 sample_request 0 33 =
      DispatchOutcome.returned (some sample_dispatched) sample_dispatch_calls ∧
    (open_read_record sample_dispatched (sample_env 0)).doc_size = 0 ∧
    (setupVCdataRead 4096 sample_dispatched Event.CACHE_EVENT_OPEN_READ
      (sample_env 0)).is_small_path 0 = false :=
  ⟨by decide, by decide,
   (zero_length_reply sample_consts native_swaps 7 sample_request 33 sample_dispatched
      sample_dispatch_calls 4096 (sample_env 0) (by decide) (by decide)).1⟩

end ClusterCache

namespace ClusterCache

/-! ## The session is closed before the record is freed -/

theorem free_CacheCont_calls (c : CacheContinuation) :
    (free_CacheCont c).countP RespEffect.is_session_close = 0 ∧
    RespEffect.allocator_free ∈ free_CacheCont c := by
  unfold free_CacheCont cacheContAllocator_free
  constructor
  · simp only [List.countP_append]
    split <;> split <;> split <;> simp [RespEffect.is_session_close]
  · simp

theorem close_and_free_ok (c : CacheContinuation) (pre : List RespEffect) (cs : Nat)
    (hcs : c.cs = cs) (hclose : pre.countP RespEffect.is_session_close = 0)
    (hfree : RespEffect.allocator_free ∉ pre) :
    closes_before_free cs (close_and_free c pre).effects := by
  have hf := free_CacheCont_calls c
  constructor
  · simp [close_and_free, HandlerOutcome.effects, List.countP_append, hclose, hf.1,
      RespEffect.is_session_close]
  · refine ⟨pre, free_CacheCont c, ?_, hfree, hf.2⟩
    simp [close_and_free, HandlerOutcome.effects, hcs]

theorem replyOpEvent_calls (c : CacheContinuation) (env : HandlerEnv) :
    (replyOpEvent c env).cont.cs = c.cs ∧
    (replyOpEvent c env).effects.countP RespEffect.is_session_close = 0 ∧
    RespEffect.allocator_free ∉ (replyOpEvent c env).effects := by
  unfold replyOpEvent
  split <;> simp [RespEffect.is_session_close]

theorem setupVCdataRead_ok (S : Int) (c : CacheContinuation) (event : Event)
    (env : HandlerEnv) :
    RespEffect.allocator_free ∈ (setupVCdataRead S c event env).effects →
      closes_before_free c.cs (setupVCdataRead S c event env).effects := by
  have key : ∀ c1 : CacheContinuation, c1.cs = c.cs →
      (RespEffect.allocator_free ∈ (reply_then_stream c1 env).effects →
        closes_before_free c.cs (reply_then_stream c1 env).effects) := by
    intro c1 h1
    have hr := replyOpEvent_calls c1 env
    unfold reply_then_stream
    split
    · intro _
      exact close_and_free_ok _ _ _ (hr.1.trans h1) hr.2.1 hr.2.2
    · intro h
      simp [HandlerOutcome.effects, hr.2.2] at h
  unfold setupVCdataRead
  split
  · intro _
    exact close_and_free_ok c [] c.cs rfl (by simp) (by simp)
  · split
    · split
      · intro h
        simp [HandlerOutcome.effects] at h
      · exact key _ (open_read_record_fields c env).2.2.2.1
    · exact key _ rfl

theorem write_exit_ok (c : CacheContinuation) (pre : List RespEffect) (cs : Nat)
    (hcs : c.cs = cs) (hclose : pre.countP RespEffect.is_session_close = 0)
    (hfree : RespEffect.allocator_free ∉ pre) :
    RespEffect.allocator_free ∈ (write_exit c pre).effects →
      closes_before_free cs (write_exit c pre).effects :=
  fun _ => close_and_free_ok c pre cs hcs hclose hfree

theorem write_complete_ok (c : CacheContinuation) (pre : List RespEffect) (cs : Nat)
    (hcs : c.cs = cs) (hclose : pre.countP RespEffect.is_session_close = 0)
    (hfree : RespEffect.allocator_free ∉ pre) :
    RespEffect.allocator_free ∈ (write_complete c pre).effects →
      closes_before_free cs (write_complete c pre).effects := by
  unfold write_complete
  split
  · intro h
    exact absurd h hfree
  · exact write_exit_ok _ _ cs hcs
      (by simp [List.countP_append, hclose, RespEffect.is_session_close])
      (by simp [hfree])

theorem no_free_ok (cs : Nat) (o : HandlerOutcome)
    (h : RespEffect.allocator_free ∉ o.effects) :
    RespEffect.allocator_free ∈ o.effects → closes_before_free cs o.effects :=
  fun h1 => absurd h1 h

theorem VCdataWrite_ok (c : CacheContinuation) (event : Event) (env : HandlerEnv) :
    RespEffect.allocator_free ∈ (VCdataWrite c event env).effects →
      closes_before_free c.cs (VCdataWrite c event env).effects := by
  simp only [VCdataWrite]
  repeat' split
  all_goals first
    | exact write_exit_ok _ _ c.cs rfl (by simp [RespEffect.is_session_close]) (by simp)
    | exact write_complete_ok _ _ c.cs rfl (by simp [RespEffect.is_session_close]) (by simp)
    | exact no_free_ok _ _ (by simp [HandlerOutcome.effects])

theorem free_exit_ok (c : CacheContinuation) (pre : List RespEffect) (cs : Nat)
    (hcs : c.cs = cs) (hclose : pre.countP RespEffect.is_session_close = 0)
    (hfree : RespEffect.allocator_free ∉ pre) :
    RespEffect.allocator_free ∈ (free_exit c pre).effects →
      closes_before_free cs (free_exit c pre).effects := by
  unfold free_exit
  split
  · intro h
    exact absurd h hfree
  · intro _
    exact close_and_free_ok _ _ cs hcs
      (by simp [List.countP_append, hclose, RespEffect.is_session_close])
      (by simp [hfree])

theorem VCdataRead_ok (c : CacheContinuation) (event : Event) (env : HandlerEnv) :
    RespEffect.allocator_free ∈ (VCdataRead c event env).effects →
      closes_before_free c.cs (VCdataRead c event env).effects := by
  simp only [VCdataRead]
  repeat' split
  all_goals first
    | exact free_exit_ok _ _ c.cs rfl (by simp [RespEffect.is_session_close]) (by simp)
    | exact no_free_ok _ _ (by simp [HandlerOutcome.effects])

theorem reply_close_free_ok (c : CacheContinuation) (env : HandlerEnv) (cs : Nat)
    (hcs : c.cs = cs) :
    RespEffect.allocator_free ∈ (reply_close_free c env []).effects →
      closes_before_free cs (reply_close_free c env []).effects := by
  have hr := replyOpEvent_calls c env
  intro _
  unfold reply_close_free
  exact close_and_free_ok _ _ cs (hr.1.trans hcs) (by simpa using hr.2.1) (by simpa using hr.2.2)

theorem VCSmallDataRead_ok (c : CacheContinuation) (event : Event) (env : HandlerEnv) :
    RespEffect.allocator_free ∈ (VCSmallDataRead c event env).effects →
      closes_before_free c.cs (VCSmallDataRead c event env).effects := by
  simp only [VCSmallDataRead]
  repeat' split
  all_goals first
    | exact reply_close_free_ok _ env c.cs rfl
    | (intro _; exact close_and_free_ok c [] c.cs rfl (by simp) (by simp))
    | exact no_free_ok _ _ (by simp [HandlerOutcome.effects])

theorem setupVCdataWrite_ok (c : CacheContinuation) (event : Event) (env : HandlerEnv) :
    RespEffect.allocator_free ∈ (setupVCdataWrite c event env).effects →
      closes_before_free c.cs (setupVCdataWrite c event env).effects := by
  have hr := replyOpEvent_calls (open_write_record c event env) env
  have hcs : (open_write_record c event env).cs = c.cs := by
    unfold open_write_record
    split <;> rfl
  unfold setupVCdataWrite
  split
  · intro _
    exact close_and_free_ok c [] c.cs rfl (by simp) (by simp)
  · split
    · intro _
      exact close_and_free_ok _ _ _ (hr.1.trans hcs) hr.2.1 hr.2.2
    · exact no_free_ok _ _ (by simp [HandlerOutcome.effects, hr.2.2])

theorem setupVCdataRemove_ok (c : CacheContinuation) (event : Event) (env : HandlerEnv) :
    RespEffect.allocator_free ∈ (setupVCdataRemove c event env).effects →
      closes_before_free c.cs (setupVCdataRemove c event env).effects := by
  unfold setupVCdataRemove
  split
  · intro _
    exact close_and_free_ok c [] c.cs rfl (by simp) (by simp)
  · exact reply_close_free_ok _ env c.cs rfl

/-- C15: in every invocation of a responder handler (`setupVCdataRead`,
`VCSmallDataRead`, `setupVCdataWrite`, `setupVCdataRemove`, `VCdataRead`,
`VCdataWrite`), for every record, event and environment, if the record is
freed then `cluster_close_session` was called on the session of the record
exactly once in the invocation, before the free; and the bind-failure path of
`cache_op_ClusterFunction` closes the session once and then frees the
record. -/
theorem session_closed_before_free (SIZE_OF_FRAGEMENT : Int) (c : CacheContinuation)
    (event : Event) (env : HandlerEnv) :
    (RespEffect.allocator_free ∈ (setupVCdataRead SIZE_OF_FRAGEMENT c event env).effects →
      closes_before_free c.cs (setupVCdataRead SIZE_OF_FRAGEMENT c event env).effects) ∧
    (RespEffect.allocator_free ∈ (VCSmallDataRead c event env).effects →
      closes_before_free c.cs (VCSmallDataRead c event env).effects) ∧
    (RespEffect.allocator_free ∈ (setupVCdataWrite c event env).effects →
      closes_before_free c.cs (setupVCdataWrite c event env).effects) ∧
    (RespEffect.allocator_free ∈ (setupVCdataRemove c event env).effects →
      closes_before_free c.cs (setupVCdataRemove c event env).effects) ∧
    (RespEffect.allocator_free ∈ (VCdataRead c event env).effects →
      closes_before_free c.cs (VCdataRead c event env).effects) ∧
    (RespEffect.allocator_free ∈ (VCdataWrite c event env).effects →
      closes_before_free c.cs (VCdataWrite c event env).effects) ∧
    (∀ (k : ProtoConsts) (sw : ByteSwaps) (cs : Nat) (req : InboundRequest)
      (bind_result : Int) (action : Nat), bind_result ≠ 0 →
      ∃ fx, cache_op_ClusterFunction k sw cs req bind_result action =
          DispatchOutcome.returned none fx ∧
        dispatch_closes_before_free cs fx) := by
  refine ⟨setupVCdataRead_ok SIZE_OF_FRAGEMENT c event env, VCSmallDataRead_ok c event env,
    setupVCdataWrite_ok c event env, setupVCdataRemove_ok c event env,
    VCdataRead_ok c event env, VCdataWrite_ok c event env, ?_⟩
  intro k sw cs req bind_result action hb
  refine ⟨[DispatchEffect.new_CacheCont, DispatchEffect.cluster_bind_session cs,
    DispatchEffect.cluster_close_session cs, DispatchEffect.free_CacheCont], ?_, ?_, ?_⟩
  · simp [cache_op_ClusterFunction, hb]
  · simp [List.countP_cons]
  · exact ⟨[DispatchEffect.new_CacheCont, DispatchEffect.cluster_bind_session cs],
      [DispatchEffect.free_CacheCont], by simp, by simp, by simp⟩

end ClusterCache

namespace ClusterCache

/-! ## The close of the local cache VC -/

theorem free_CacheCont_vc_closes (c : CacheContinuation) :
    vc_closes (free_CacheCont c) = c.owed := by
  unfold free_CacheCont cacheContAllocator_free vc_closes CacheContinuation.owed
  simp only [List.countP_append]
  split <;> split <;> split <;> simp [RespEffect.is_vc_close]

theorem close_and_free_step (c c1 : CacheContinuation) (pre : List RespEffect)
    (h : vc_closes pre + c1.owed = c.owed) : step_ok c (close_and_free c1 pre) := by
  have hf := free_CacheCont_vc_closes c1
  unfold vc_closes at hf h
  simp [step_ok, close_and_free, vc_closes, List.countP_append, RespEffect.is_vc_close, hf, h]

theorem replyOpEvent_vc (c : CacheContinuation) (env : HandlerEnv) :
    (replyOpEvent c env).cont.owed = c.owed ∧ vc_closes (replyOpEvent c env).effects = 0 := by
  unfold replyOpEvent
  split <;> simp [CacheContinuation.owed, vc_closes, RespEffect.is_vc_close]

theorem reply_close_free_step (c c1 : CacheContinuation) (env : HandlerEnv)
    (h : c1.owed = c.owed) : step_ok c (reply_close_free c1 env []) := by
  have hr := replyOpEvent_vc c1 env
  unfold reply_close_free
  apply close_and_free_step
  rw [hr.1, h]
  simp only [List.nil_append, hr.2, Nat.zero_add]

theorem free_exit_step (c c1 : CacheContinuation) (pre : List RespEffect)
    (hpre : vc_closes pre = 0) (h : c1.owed = c.owed) : step_ok c (free_exit c1 pre) := by
  unfold free_exit
  split
  · exact hpre
  · rename_i hv
    apply close_and_free_step
    have h1 : c1.owed = 1 := by
      unfold CacheContinuation.owed
      cases hc : c1.cache_vc with
      | none => simp [hc] at hv
      | some v => rfl
    rw [← h, h1]
    unfold vc_closes at hpre ⊢
    simp [List.countP_append, hpre, RespEffect.is_vc_close, CacheContinuation.owed]

theorem VCdataRead_step (c : CacheContinuation) (event : Event) (env : HandlerEnv)
    (hh : c.handler = some ContHandler.VCdataRead) : step_ok c (VCdataRead c event env) := by
  simp only [VCdataRead]
  repeat' split
  all_goals first
    | exact free_exit_step c _ _ (by simp [vc_closes, RespEffect.is_vc_close]) rfl
    | simp [step_ok, vc_closes, RespEffect.is_vc_close, CacheContinuation.after_open, hh,
        CacheContinuation.owed]

theorem VCSmallDataRead_step (c : CacheContinuation) (event : Event) (env : HandlerEnv)
    (hh : c.handler = some ContHandler.VCSmallDataRead) :
    step_ok c (VCSmallDataRead c event env) := by
  simp only [VCSmallDataRead]
  repeat' split
  all_goals first
    | exact reply_close_free_step c _ env rfl
    | exact close_and_free_step c c [] (by simp [vc_closes])
    | simp [step_ok, vc_closes, RespEffect.is_vc_close, CacheContinuation.after_open, hh,
        CacheContinuation.owed]

theorem owed_of_isSome (c : CacheContinuation) (h : ¬ c.cache_vc.isNone = true) :
    c.owed = 1 := by
  unfold CacheContinuation.owed
  cases hc : c.cache_vc with
  | none => simp [hc] at h
  | some v => rfl

theorem write_exit_step (c c1 : CacheContinuation) (pre : List RespEffect)
    (h : vc_closes pre + c1.owed = c.owed) : step_ok c (write_exit c1 pre) :=
  close_and_free_step c c1 pre h

theorem write_complete_step (c c1 : CacheContinuation) (pre : List RespEffect)
    (hpre : vc_closes pre = 0) (h : c1.owed = c.owed) :
    step_ok c (write_complete c1 pre) := by
  unfold write_complete
  split
  · exact hpre
  · rename_i hv
    apply write_exit_step
    rw [← h, owed_of_isSome c1 hv]
    unfold vc_closes at hpre ⊢
    simp [List.countP_append, hpre, RespEffect.is_vc_close, CacheContinuation.owed]

theorem VCdataWrite_step (c : CacheContinuation) (event : Event) (env : HandlerEnv)
    (hh : c.handler = some ContHandler.VCdataWrite) :
    step_ok c (VCdataWrite c event env) := by
  simp only [VCdataWrite]
  repeat' split
  all_goals first
    | exact write_complete_step c _ _ (by simp [vc_closes, RespEffect.is_vc_close]) rfl
    | (apply write_exit_step
       simp [vc_closes, RespEffect.is_vc_close, CacheContinuation.owed]
       done)
    | (apply write_exit_step
       rw [owed_of_isSome c (by assumption)]
       simp [vc_closes, RespEffect.is_vc_close, CacheContinuation.owed]
       done)
    | (simp [step_ok, vc_closes, RespEffect.is_vc_close, CacheContinuation.after_open, hh,
        CacheContinuation.owed]
       done)
    | (have ho := owed_of_isSome c (by assumption)
       unfold CacheContinuation.owed at ho
       simp [step_ok, vc_closes, RespEffect.is_vc_close, CacheContinuation.after_open, hh,
        CacheContinuation.owed, ho]
       done)

theorem handleEvent_step (S : Int) (c : CacheContinuation) (event : Event)
    (env : HandlerEnv) (hh : c.after_open = true) :
    step_ok c (handleEvent S c event env) := by
  unfold CacheContinuation.after_open at hh
  simp only [Bool.or_eq_true, decide_eq_true_eq] at hh
  rcases hh with (h | h) | h
  · simp only [handleEvent, h]
    exact VCSmallDataRead_step c event env h
  · simp only [handleEvent, h]
    exact VCdataRead_step c event env h
  · simp only [handleEvent, h]
    exact VCdataWrite_step c event env h

theorem run_events_closes (S : Int) (evs : List (Event × HandlerEnv)) :
    ∀ (c : CacheContinuation) (ret : Int) (fx : List RespEffect),
      c.after_open = true →
      run_events S c evs = HandlerOutcome.returned ret none fx →
      vc_closes fx = c.owed := by
  induction evs with
  | nil =>
    intro c ret fx _ h
    simp [run_events] at h
  | cons e rest ih =>
    intro c ret fx hh h
    obtain ⟨event, env⟩ := e
    have hstep := handleEvent_step S c event env hh
    simp only [run_events] at h
    cases ho : handleEvent S c event env with
    | crashed why fx1 =>
      rw [ho] at h
      exact HandlerOutcome.noConfusion h
    | returned r1 oc fx1 =>
      rw [ho] at h hstep
      cases oc with
      | none =>
        simp only [HandlerOutcome.returned.injEq] at h
        obtain ⟨_, _, hfx⟩ := h
        rw [← hfx]
        exact hstep
      | some c1 =>
        simp only [step_ok] at hstep
        simp only at h
        cases hr : run_events S c1 rest with
        | crashed why fx2 =>
          rw [hr] at h
          exact HandlerOutcome.noConfusion h
        | returned r2 oc2 fx2 =>
          rw [hr] at h
          simp only [HandlerOutcome.returned.injEq] at h
          obtain ⟨_, hoc, hfx⟩ := h
          subst hoc
          have := ih c1 r2 fx2 hstep.1 hr
          rw [← hfx]
          unfold vc_closes at this hstep ⊢
          rw [List.countP_append, this]
          exact hstep.2

theorem reply_then_stream_step (c c1 : CacheContinuation) (env : HandlerEnv)
    (h : c1.owed = c.owed) : step_ok c (reply_then_stream c1 env) := by
  have hr := replyOpEvent_vc c1 env
  unfold reply_then_stream
  split
  · apply close_and_free_step
    rw [hr.1, hr.2, h, Nat.zero_add]
  · have h1 := hr.1
    have h2 := hr.2
    unfold vc_closes at h2
    unfold CacheContinuation.owed at h1 h
    simp [step_ok, vc_closes, CacheContinuation.after_open, CacheContinuation.owed,
      List.countP_append, h2, h1, h, RespEffect.is_vc_close]

theorem open_read_record_owed (c : CacheContinuation) (env : HandlerEnv) :
    (open_read_record c env).owed = 1 := by
  unfold open_read_record CacheContinuation.owed
  split <;> rfl

theorem setupVCdataRead_open_step (S : Int) (c : CacheContinuation) (env : HandlerEnv) :
    step_ok (open_read_record c env)
      (setupVCdataRead S c Event.CACHE_EVENT_OPEN_READ env) := by
  have ho := open_read_record_owed c env
  unfold CacheContinuation.owed at ho
  simp only [setupVCdataRead, Event.is_cluster_msg]
  repeat' split
  all_goals first
    | contradiction
    | exact reply_then_stream_step _ _ env rfl
    | simp [step_ok, vc_closes, RespEffect.is_vc_close, CacheContinuation.after_open,
        CacheContinuation.owed, ho]

theorem open_write_record_owed (c : CacheContinuation) (env : HandlerEnv) :
    (open_write_record c Event.CACHE_EVENT_OPEN_WRITE env).owed = 1 := by
  simp [open_write_record, CacheContinuation.owed]

theorem setupVCdataWrite_open_step (c : CacheContinuation) (env : HandlerEnv) :
    step_ok (open_write_record c Event.CACHE_EVENT_OPEN_WRITE env)
      (setupVCdataWrite c Event.CACHE_EVENT_OPEN_WRITE env) := by
  have hr := replyOpEvent_vc (open_write_record c Event.CACHE_EVENT_OPEN_WRITE env) env
  have h1 := hr.1
  have h2 := hr.2
  simp only [setupVCdataWrite, Event.is_cluster_msg]
  repeat' split
  all_goals first
    | contradiction
    | (apply close_and_free_step
       rw [h1, h2, Nat.zero_add])
    | (unfold vc_closes at h2
       unfold CacheContinuation.owed at h1
       simp [step_ok, vc_closes, CacheContinuation.after_open, CacheContinuation.owed,
         List.countP_append, h2, h1, RespEffect.is_vc_close])

theorem run_after_step (S : Int) (c0 : CacheContinuation) (o : HandlerOutcome)
    (rest : List (Event × HandlerEnv)) (ret : Int) (fx : List RespEffect) :
    (match o with
      | HandlerOutcome.crashed why fx => HandlerOutcome.crashed why fx
      | HandlerOutcome.returned ret none fx => HandlerOutcome.returned ret none fx
      | HandlerOutcome.returned _ (some c1) fx =>
        match run_events S c1 rest with
        | HandlerOutcome.crashed why fx1 => HandlerOutcome.crashed why (fx ++ fx1)
        | HandlerOutcome.returned ret1 c2 fx1 =>
          HandlerOutcome.returned ret1 c2 (fx ++ fx1)) =
      HandlerOutcome.returned ret none fx →
    step_ok c0 o →
    vc_closes fx = c0.owed := by
  intro h hstep
  cases o with
  | crashed why fx1 => exact HandlerOutcome.noConfusion h
  | returned r1 oc fx1 =>
    cases oc with
    | none =>
      simp only [HandlerOutcome.returned.injEq] at h
      obtain ⟨_, _, hfx⟩ := h
      rw [← hfx]
      exact hstep
    | some c1 =>
      simp only [step_ok] at hstep
      simp only at h
      cases hr : run_events S c1 rest with
      | crashed why fx2 =>
        rw [hr] at h
        exact HandlerOutcome.noConfusion h
      | returned r2 oc2 fx2 =>
        rw [hr] at h
        simp only [HandlerOutcome.returned.injEq] at h
        obtain ⟨_, hoc, hfx⟩ := h
        subst hoc
        have := run_events_closes S rest c1 r2 fx2 hstep.1 hr
        rw [← hfx]
        unfold vc_closes at this hstep ⊢
        rw [List.countP_append, this]
        exact hstep.2

theorem vc_closes_pos_of_mem (fx : List RespEffect) (k : CloseKind)
    (h : RespEffect.do_io_close k ∈ fx) : 0 < vc_closes fx := by
  unfold vc_closes
  rw [List.countP_pos_iff]
  exact ⟨_, h, rfl⟩

theorem vc_closes_two (fx : List RespEffect) (k1 k2 : CloseKind) (hne : k1 ≠ k2)
    (h1 : RespEffect.do_io_close k1 ∈ fx) (h2 : RespEffect.do_io_close k2 ∈ fx) :
    2 ≤ vc_closes fx := by
  induction fx with
  | nil => simp at h1
  | cons a t ih =>
    unfold vc_closes at ih ⊢
    simp only [List.mem_cons] at h1 h2
    rcases h1 with h1 | h1
    · rcases h2 with h2 | h2
      · rw [← h1] at h2
        injection h2 with h2
        exact absurd h2.symm hne
      · have := vc_closes_pos_of_mem t k2 h2
        unfold vc_closes at this
        rw [← h1, List.countP_cons]
        simp only [RespEffect.is_vc_close, if_true]
        omega
    · rcases h2 with h2 | h2
      · have := vc_closes_pos_of_mem t k1 h1
        unfold vc_closes at this
        rw [← h2, List.countP_cons]
        simp only [RespEffect.is_vc_close, if_true]
        omega
      · have := ih h1 h2
        rw [List.countP_cons]
        omega

theorem step_ok_le_owed (c : CacheContinuation) (o : HandlerOutcome) (h : step_ok c o) :
    vc_closes o.effects ≤ c.owed := by
  cases o with
  | crashed why fx =>
    simp only [step_ok] at h
    simp [HandlerOutcome.effects, h]
  | returned r oc fx =>
    cases oc with
    | none =>
      simp only [step_ok] at h
      simp [HandlerOutcome.effects, h]
    | some c1 =>
      simp only [step_ok] at h
      simp only [HandlerOutcome.effects]
      omega

theorem owed_le_one (c : CacheContinuation) : c.owed ≤ 1 := by
  unfold CacheContinuation.owed
  split <;> simp

/-- C16: for every sequence of events driven through the handlers of one
responder record after its local cache open succeeded, the local cache VC is
closed exactly once by the time the record is freed.  In order: a run through
`VCSmallDataRead`, `VCdataRead` and `VCdataWrite` that frees a record whose
`cache_vc` is set has exactly one close; so has a run that starts with the
successful open in `setupVCdataRead` or in `setupVCdataWrite`; an invocation
that issues an explicit `do_io_close` clears `cache_vc`, so that the free
routine does not close again and the invocation has one close in all; an
invocation on a record whose `cache_vc` is already cleared closes nothing; the
free routine closes a `cache_vc` that is still set exactly once; and the
streamed read of `sample_dispatched` is such a run. -/
theorem cache_vc_closed_once (S : Int) :
    (∀ (c : CacheContinuation) (evs : List (Event × HandlerEnv)) (ret : Int)
        (fx : List RespEffect),
      c.after_open = true → c.cache_vc.isSome = true →
      run_events S c evs = HandlerOutcome.returned ret none fx → vc_closes fx = 1) ∧
    (∀ (c : CacheContinuation) (env : HandlerEnv) (evs : List (Event × HandlerEnv))
        (ret : Int) (fx : List RespEffect),
      c.handler = some ContHandler.setupVCdataRead →
      run_events S c ((Event.CACHE_EVENT_OPEN_READ, env) :: evs) =
        HandlerOutcome.returned ret none fx → vc_closes fx = 1) ∧
    (∀ (c : CacheContinuation) (env : HandlerEnv) (evs : List (Event × HandlerEnv))
        (ret : Int) (fx : List RespEffect),
      c.handler = some ContHandler.setupVCdataWrite →
      run_events S c ((Event.CACHE_EVENT_OPEN_WRITE, env) :: evs) =
        HandlerOutcome.returned ret none fx → vc_closes fx = 1) ∧
    (∀ (c : CacheContinuation) (event : Event) (env : HandlerEnv) (k : CloseKind),
      c.after_open = true → k ≠ CloseKind.by_free →
      RespEffect.do_io_close k ∈ (handleEvent S c event env).effects →
      RespEffect.do_io_close CloseKind.by_free ∉ (handleEvent S c event env).effects ∧
      vc_closes (handleEvent S c event env).effects = 1) ∧
    (∀ (c : CacheContinuation) (event : Event) (env : HandlerEnv),
      c.after_open = true → c.cache_vc = none →
      vc_closes (handleEvent S c event env).effects = 0) ∧
    (∀ (c : CacheContinuation), c.cache_vc.isSome = true →
      vc_closes (free_CacheCont c) = 1 ∧
      RespEffect.do_io_close CloseKind.by_free ∈ free_CacheCont c) ∧
    (∃ fx : List RespEffect,
      run_events 4096 sample_dispatched (sample_stream_events 100000 100000) =
        HandlerOutcome.returned 0 none fx ∧ vc_closes fx = 1) := by
  refine ⟨?_, ?_, ?_, ?_, ?_, ?_, ?_⟩
  · intro c evs ret fx hh hv h
    rw [run_events_closes S evs c ret fx hh h]
    simp [CacheContinuation.owed, hv]
  · intro c env evs ret fx hh h
    simp only [run_events, handleEvent, hh] at h
    rw [run_after_step S _ _ evs ret fx h (setupVCdataRead_open_step S c env)]
    exact open_read_record_owed c env
  · intro c env evs ret fx hh h
    simp only [run_events, handleEvent, hh] at h
    rw [run_after_step S _ _ evs ret fx h (setupVCdataWrite_open_step c env)]
    exact open_write_record_owed c env
  · intro c event env k hh hk hmem
    have hle := step_ok_le_owed c _ (handleEvent_step S c event env hh)
    have h1 := owed_le_one c
    have hpos := vc_closes_pos_of_mem _ k hmem
    refine ⟨?_, by omega⟩
    intro hfree
    have := vc_closes_two _ k CloseKind.by_free hk hmem hfree
    omega
  · intro c event env hh hv
    have hle := step_ok_le_owed c _ (handleEvent_step S c event env hh)
    have h0 : c.owed = 0 := by simp [CacheContinuation.owed, hv]
    omega
  · intro c hv
    constructor
    · rw [free_CacheCont_vc_closes]
      simp [CacheContinuation.owed, hv]
    · simp [free_CacheCont, cacheContAllocator_free, hv]
  · exact ⟨(run_events 4096 sample_dispatched (sample_stream_events 100000 100000)).effects,
      by decide, by decide⟩

end ClusterCache

namespace ClusterCache

/-! ## The byte total of a streamed read -/

theorem read_done_bytes_append (a b : List RespEffect) :
    read_done_bytes (a ++ b) = read_done_bytes a + read_done_bytes b := by
  simp [read_done_bytes]

theorem read_done_bytes_free (c : CacheContinuation) :
    read_done_bytes (free_CacheCont c) = 0 := by
  unfold free_CacheCont cacheContAllocator_free
  simp only [read_done_bytes_append]
  split <;> split <;> split <;> simp [read_done_bytes, RespEffect.read_done_len]

theorem VCdataRead_continue (c c1 : CacheContinuation) (event : Event) (env : HandlerEnv)
    (r : Int) (fx : List RespEffect) (hi : stream_inv c)
    (h : VCdataRead c event env = HandlerOutcome.returned r (some c1) fx) :
    stream_inv c1 ∧ read_done_bytes fx + c.total_length = c1.total_length := by
  obtain ⟨hh, hvc, hm⟩ := hi
  simp only [VCdataRead] at h
  repeat' split at h
  all_goals first
    | (simp only [free_exit] at h
       split at h
       · exact HandlerOutcome.noConfusion h
       · simp [close_and_free] at h)
    | exact HandlerOutcome.noConfusion h
    | (simp only [HandlerOutcome.returned.injEq, Option.some.injEq] at h
       obtain ⟨_, hc, hfx⟩ := h
       subst hc
       subst hfx
       simp_all [stream_inv, read_done_bytes, RespEffect.read_done_len]
       try omega)

theorem run_events_continue (S : Int) (evs : List (Event × HandlerEnv)) :
    ∀ (c c1 : CacheContinuation) (r : Int) (fx : List RespEffect), stream_inv c →
      run_events S c evs = HandlerOutcome.returned r (some c1) fx →
      stream_inv c1 ∧ read_done_bytes fx + c.total_length = c1.total_length := by
  induction evs with
  | nil =>
    intro c c1 r fx hi h
    simp only [run_events, HandlerOutcome.returned.injEq, Option.some.injEq] at h
    obtain ⟨_, hc, hfx⟩ := h
    subst hc
    subst hfx
    exact ⟨hi, by simp [read_done_bytes]⟩
  | cons e rest ih =>
    intro c c1 r fx hi h
    obtain ⟨event, env⟩ := e
    simp only [run_events, handleEvent, hi.1] at h
    cases ho : VCdataRead c event env with
    | crashed why fx1 =>
      rw [ho] at h
      exact HandlerOutcome.noConfusion h
    | returned r1 oc fx1 =>
      rw [ho] at h
      cases oc with
      | none => simp at h
      | some c2 =>
        have hstep := VCdataRead_continue c c2 event env r1 fx1 hi ho
        simp only at h
        cases hr : run_events S c2 rest with
        | crashed why fx2 =>
          rw [hr] at h
          exact HandlerOutcome.noConfusion h
        | returned r2 oc2 fx2 =>
          rw [hr] at h
          simp only [HandlerOutcome.returned.injEq] at h
          obtain ⟨hr2, hoc, hfx⟩ := h
          subst hoc
          have hrest := ih c2 c1 r2 fx2 hstep.1 hr
          refine ⟨hrest.1, ?_⟩
          rw [← hfx, read_done_bytes_append]
          have h1 := hstep.2
          have h2 := hrest.2
          omega

theorem run_events_append (S : Int) (pre : List (Event × HandlerEnv)) :
    ∀ (c c1 : CacheContinuation) (r : Int) (fx1 : List RespEffect)
      (rest : List (Event × HandlerEnv)),
      run_events S c pre = HandlerOutcome.returned r (some c1) fx1 →
      run_events S c (pre ++ rest) =
        match run_events S c1 rest with
        | HandlerOutcome.crashed why fx => HandlerOutcome.crashed why (fx1 ++ fx)
        | HandlerOutcome.returned r2 c2 fx => HandlerOutcome.returned r2 c2 (fx1 ++ fx) := by
  induction pre with
  | nil =>
    intro c c1 r fx1 rest h
    simp only [run_events, HandlerOutcome.returned.injEq, Option.some.injEq] at h
    obtain ⟨_, hc, hfx⟩ := h
    subst hc
    subst hfx
    simp only [List.nil_append]
    cases run_events S c rest <;> rfl
  | cons e pre ih =>
    intro c c1 r fx1 rest h
    obtain ⟨event, env⟩ := e
    rw [List.cons_append]
    simp only [run_events] at h ⊢
    cases ho : handleEvent S c event env with
    | crashed why fx0 =>
      rw [ho] at h
      exact HandlerOutcome.noConfusion h
    | returned r1 oc fx0 =>
      rw [ho] at h
      cases oc with
      | none => simp at h
      | some c2 =>
        simp only at h ⊢
        cases hr : run_events S c2 pre with
        | crashed why fx2 =>
          rw [hr] at h
          exact HandlerOutcome.noConfusion h
        | returned r2 oc2 fx2 =>
          rw [hr] at h
          simp only [HandlerOutcome.returned.injEq] at h
          obtain ⟨hr2, hoc, hfx⟩ := h
          subst hoc
          rw [ih c2 c1 r2 fx2 rest hr, ← hfx]
          cases run_events S c1 rest <;> simp [List.append_assoc]

theorem VCdataRead_complete (c : CacheContinuation) (event : Event) (env : HandlerEnv)
    (vio : CacheVio) (hi : stream_inv c)
    (hev : event = Event.VC_EVENT_READ_READY ∨ event = Event.VC_EVENT_READ_COMPLETE)
    (hs : env.send_result = 0) (hv : c.vio = some vio)
    (hdone : vio.nbytes ≤ c.total_length + env.read_avail) :
    ∃ fx, VCdataRead c event env = HandlerOutcome.returned EVENT_DONE none fx ∧
      read_done_bytes fx = env.read_avail := by
  obtain ⟨hh, hvc, hm⟩ := hi
  have hmb : c.mbuf = true := hm (by simp [hv])
  have hfree : ∀ c1 : CacheContinuation,
      (List.map RespEffect.read_done_len (free_CacheCont c1)).sum = 0 :=
    read_done_bytes_free
  have hnn : c.cache_vc.isNone = false := by
    cases hc : c.cache_vc with
    | none => simp [hc] at hvc
    | some v => rfl
  refine ⟨(VCdataRead c event env).effects, ?_, ?_⟩
  · rcases hev with hev | hev
    · subst hev
      simp only [VCdataRead, hmb, hs, hv]
      simp [free_exit, hnn, hdone, close_and_free, HandlerOutcome.effects]
    · subst hev
      simp only [VCdataRead, hmb, hs, hv]
      simp [free_exit, hnn, hdone, close_and_free, HandlerOutcome.effects]
  · rcases hev with hev | hev
    · subst hev
      simp only [VCdataRead, hmb, hs, hv]
      simp [free_exit, hnn, hdone, close_and_free, HandlerOutcome.effects,
        read_done_bytes, RespEffect.read_done_len, hfree]
    · subst hev
      simp only [VCdataRead, hmb, hs, hv]
      simp [free_exit, hnn, hdone, close_and_free, HandlerOutcome.effects,
        read_done_bytes, RespEffect.read_done_len, hfree]

theorem VCdataRead_begin (c : CacheContinuation) (env : HandlerEnv)
    (hvc : c.cache_vc.isSome = true) :
    VCdataRead c Event.CLUSTER_CACHE_DATA_READ_BEGIN env =
      HandlerOutcome.returned EVENT_CONT
        (some { c with mbuf := true, vio := some { nbytes := env.frame.read_nbytes },
                       expect_next := false })
        [RespEffect.do_io_pread env.frame.read_nbytes env.frame.read_offset] := by
  have hnn : c.cache_vc.isNone = false := by
    cases hc : c.cache_vc with
    | none => simp [hc] at hvc
    | some v => rfl
  simp [VCdataRead, hnn]

theorem VCdataRead_keeps_vio (c c1 : CacheContinuation) (event : Event) (env : HandlerEnv)
    (r : Int) (fx : List RespEffect)
    (hne : event ≠ Event.CLUSTER_CACHE_DATA_READ_BEGIN)
    (h : VCdataRead c event env = HandlerOutcome.returned r (some c1) fx) :
    c1.vio = c.vio := by
  simp only [VCdataRead] at h
  repeat' split at h
  all_goals first
    | exact absurd rfl hne
    | (simp only [free_exit] at h
       split at h
       · exact HandlerOutcome.noConfusion h
       · simp [close_and_free] at h)
    | exact HandlerOutcome.noConfusion h
    | (simp only [HandlerOutcome.returned.injEq, Option.some.injEq] at h
       obtain ⟨_, hc, _⟩ := h
       subst hc
       rfl)

theorem run_events_keeps_vio (S : Int) (evs : List (Event × HandlerEnv)) :
    ∀ (c c1 : CacheContinuation) (r : Int) (fx : List RespEffect), stream_inv c →
      (∀ p ∈ evs, p.1 ≠ Event.CLUSTER_CACHE_DATA_READ_BEGIN) →
      run_events S c evs = HandlerOutcome.returned r (some c1) fx → c1.vio = c.vio := by
  induction evs with
  | nil =>
    intro c c1 r fx _ _ h
    simp only [run_events, HandlerOutcome.returned.injEq, Option.some.injEq] at h
    rw [← h.2.1]
  | cons e rest ih =>
    intro c c1 r fx hi hne h
    obtain ⟨event, env⟩ := e
    simp only [run_events, handleEvent, hi.1] at h
    cases ho : VCdataRead c event env with
    | crashed why fx1 =>
      rw [ho] at h
      exact HandlerOutcome.noConfusion h
    | returned r1 oc fx1 =>
      rw [ho] at h
      cases oc with
      | none => simp at h
      | some c2 =>
        have hstep := VCdataRead_continue c c2 event env r1 fx1 hi ho
        have hv := VCdataRead_keeps_vio c c2 event env r1 fx1
          (hne (event, env) (List.mem_cons_self _ _)) ho
        simp only at h
        cases hr : run_events S c2 rest with
        | crashed why fx2 =>
          rw [hr] at h
          exact HandlerOutcome.noConfusion h
        | returned r2 oc2 fx2 =>
          rw [hr] at h
          simp only [HandlerOutcome.returned.injEq] at h
          obtain ⟨_, hoc, _⟩ := h
          subst hoc
          rw [ih c2 c1 r2 fx2 hstep.1 (fun p hp => hne p (List.mem_cons_of_mem _ hp)) hr, hv]

/-- C17: for every streamed read that `VCdataRead` completes successfully,
the sum of the payload lengths of all `READ_DONE` frames sent for the record
equals the `nbytes` declared in the `READ_BEGIN` frame, which is the VIO's
`nbytes`.  The read is a record that enters `VCdataRead` with
`total_length = 0` and no VIO, gets its `READ_BEGIN` frame, then any events
other than a further `READ_BEGIN` that keep it going, and ends with a
`VC_EVENT_READ_READY` or `VC_EVENT_READ_COMPLETE` whose `READ_DONE` is sent
successfully and that passes the test `total_length >= vio->nbytes`; the
cache VC keeps the contract of the VIO, it has not made more than `nbytes`
available. -/
theorem read_done_sum (S : Int) (c0 c1 : CacheContinuation) (envB : HandlerEnv)
    (mid : List (Event × HandlerEnv)) (r : Int) (fx1 : List RespEffect) (event : Event)
    (env : HandlerEnv)
    (hh : c0.handler = some ContHandler.VCdataRead) (hvc : c0.cache_vc.isSome = true)
    (hvio : c0.vio = none) (ht : c0.total_length = 0)
    (hmid : ∀ p ∈ mid, p.1 ≠ Event.CLUSTER_CACHE_DATA_READ_BEGIN)
    (hpre : run_events S c0 ((Event.CLUSTER_CACHE_DATA_READ_BEGIN, envB) :: mid) =
      HandlerOutcome.returned r (some c1) fx1)
    (hev : event = Event.VC_EVENT_READ_READY ∨ event = Event.VC_EVENT_READ_COMPLETE)
    (hs : env.send_result = 0)
    (hdone : envB.frame.read_nbytes ≤ c1.total_length + env.read_avail)
    (hcontract : c1.total_length + env.read_avail ≤ envB.frame.read_nbytes) :
    c1.vio = some { nbytes := envB.frame.read_nbytes } ∧
    ∃ fx, run_events S c0
        (((Event.CLUSTER_CACHE_DATA_READ_BEGIN, envB) :: mid) ++ [(event, env)]) =
        HandlerOutcome.returned EVENT_DONE none fx ∧
      read_done_bytes fx = envB.frame.read_nbytes := by
  have hi0 : stream_inv c0 := ⟨hh, hvc, by simp [hvio]⟩
  obtain ⟨hi1, hsum⟩ := run_events_continue S _ c0 c1 r fx1 hi0 hpre
  have hv : c1.vio = some { nbytes := envB.frame.read_nbytes } := by
    have hpre1 := hpre
    have hB := VCdataRead_begin c0 envB hvc
    generalize hcB : ({ c0 with mbuf := true, vio := some { nbytes := envB.frame.read_nbytes },
                                expect_next := false } : CacheContinuation) = cB at hB
    have hiB : stream_inv cB := by
      rw [← hcB]
      exact ⟨hh, hvc, fun _ => rfl⟩
    have hvB : cB.vio = some { nbytes := envB.frame.read_nbytes } := by
      rw [← hcB]
    simp only [run_events, handleEvent, hh, hB] at hpre1
    cases hr : run_events S cB mid with
    | crashed why fx2 =>
      rw [hr] at hpre1
      exact HandlerOutcome.noConfusion hpre1
    | returned r2 oc2 fx2 =>
      rw [hr] at hpre1
      simp only [HandlerOutcome.returned.injEq] at hpre1
      obtain ⟨_, hoc, _⟩ := hpre1
      subst hoc
      rw [run_events_keeps_vio S mid cB c1 r2 fx2 hiB hmid hr, hvB]
  refine ⟨hv, ?_⟩
  obtain ⟨fx2, hfin, hlast⟩ := VCdataRead_complete c1 event env _ hi1 hev hs hv hdone
  refine ⟨fx1 ++ fx2, ?_, ?_⟩
  · rw [run_events_append S _ c0 c1 r fx1 [(event, env)] hpre]
    simp only [run_events, handleEvent, hi1.1, hfin]
  · rw [read_done_bytes_append, hlast]
    omega

/-- C17, instance: 700 bytes are declared, the reader delivers 300 and then
400. -/
theorem read_done_sum_witness :
    ∃ fx, run_events 4096 sample_streaming
        (((Event.CLUSTER_CACHE_DATA_READ_BEGIN,
            { sample_env 100000 with frame := { zero_frame with read_nbytes := 700 } }) ::
          [(Event.VC_EVENT_READ_READY, { sample_env 100000 with read_avail := 300 })]) ++
         [(Event.VC_EVENT_READ_COMPLETE, { sample_env 100000 with read_avail := 400 })]) =
        HandlerOutcome.returned EVENT_DONE none fx ∧
      read_done_bytes fx = 700 :=
  (read_done_sum 4096 sample_streaming
    { sample_streaming with mbuf := true, vio := some { nbytes := 700 }, total_length := 300,
                            expect_next := true }
    { sample_env 100000 with frame := { zero_frame with read_nbytes := 700 } }
    [(Event.VC_EVENT_READ_READY, { sample_env 100000 with read_avail := 300 })]
    EVENT_CONT
    [RespEffect.do_io_pread 700 0,
     RespEffect.cluster_send_message 7 SendKind.CLUSTER_CACHE_DATA_READ_DONE
       (Payload.bytes 300) Priority.PRIORITY_LOW,
     RespEffect.cluster_set_events 7 EventMask.RESPONSE_EVENT_NOTIFY_DEALER]
    Event.VC_EVENT_READ_COMPLETE { sample_env 100000 with read_avail := 400 }
    (by decide) (by decide) (by decide) (by decide) (by decide) (by decide) (by decide)
    (by decide) (by decide) (by decide)).2

end ClusterCache

namespace ClusterCache

/-! ## Request fields on a native receiver -/

/-- C18, as stated, fails: for the open op `CACHE_OPEN_READ` (short shape)
the initiator supplies `nbytes = 500` and a pin-in-cache time of 5, but
`do_op` writes `nbytes = 0` and `data = 0` into the message, so the record
`init_from_short` initialises on a native receiver carries neither. -/
theorem init_from_short_read_counterexample :
    ∃ r, do_op 1 7 sample_args CacheOpcode.CACHE_OPEN_READ sample_buffer 64 500 1 0 =
        DoOpOutcome.returned r ∧
      (receive_native native_swaps new_CacheCont r.msg).nbytes ≠ 500 ∧
      (receive_native native_swaps new_CacheCont r.msg).pin_in_cache ≠
        sample_args.as_general.pin_in_cache := by
  obtain ⟨r, hr, hm⟩ := do_op_of_fill_ok 1 7 sample_args CacheOpcode.CACHE_OPEN_READ
    sample_buffer 64 500 1 0 _ (by simp [map_opcode, fill_msg]; rfl)
  refine ⟨r, hr, ?_, ?_⟩
  · rw [hm]
    simp [receive_native, init_from_short, unmarshal_CacheOpMsg_short]
  · rw [hm]
    simp [receive_native, init_from_short, unmarshal_CacheOpMsg_short, sample_args]

/-- C18, amended: on a native (no byte swap) receiver, for every request
shape built by `do_op` (short, long, short-2) `unmarshal_CacheOpMsg_*` with
`NeedByteSwap = 0` returns the message unchanged and the responder record
initialised by `init_from_short` / `init_from_long` / `init_from_short_2`
carries the same sequence number (the one `do_op` drew from the counter),
`cfl_flags`, digest (the first digest for short-2) and fragment type that the
initiator put in the message; for OPEN_WRITE, OPEN_READ_LONG and
OPEN_WRITE_LONG it carries the `nbytes` the initiator supplied when that is
not negative and 0 otherwise, and the supplied pin-in-cache time cast to
`uint32_t`; for OPEN_READ (short shape) it carries `nbytes = 0` and
`pin_in_cache = 0`, whatever the initiator supplied. -/
theorem init_from_round_trip (sw : ByteSwaps) (cont : CacheContinuation) (c cs : Nat)
    (args : OpArgs) (user_opcode : CacheOpcode) (data : MsgBuffer) (data_len nbytes : Int)
    (counter : Nat) (send_result : Int) (r : DoOpResult)
    (h : do_op c cs args user_opcode data data_len nbytes counter send_result =
      DoOpOutcome.returned r) :
    (match r.msg with
      | WireMsg.short m =>
        unmarshal_CacheOpMsg_short sw m false = m ∧
        (receive_native sw cont r.msg).seq_number = m.seq_number ∧
        (receive_native sw cont r.msg).cfl_flags = m.cfl_flags ∧
        (receive_native sw cont r.msg).url_md5 = m.md5 ∧
        (receive_native sw cont r.msg).frag_type = m.frag_type
      | WireMsg.short_2 m =>
        unmarshal_CacheOpMsg_short_2 sw m false = m ∧
        (receive_native sw cont r.msg).seq_number = m.seq_number ∧
        (receive_native sw cont r.msg).cfl_flags = m.cfl_flags ∧
        (receive_native sw cont r.msg).url_md5 = m.md5_1 ∧
        (receive_native sw cont r.msg).frag_type = m.frag_type
      | WireMsg.long m =>
        unmarshal_CacheOpMsg_long sw m false = m ∧
        (receive_native sw cont r.msg).seq_number = m.seq_number ∧
        (receive_native sw cont r.msg).cfl_flags = m.cfl_flags ∧
        (receive_native sw cont r.msg).url_md5 = m.url_md5 ∧
        (receive_native sw cont r.msg).frag_type = m.frag_type) ∧
    (receive_native sw cont r.msg).seq_number = (new_cache_sequence_number counter).1 ∧
    (map_opcode user_opcode = CacheOpcode.CACHE_OPEN_WRITE ∨
      map_opcode user_opcode = CacheOpcode.CACHE_OPEN_READ_LONG ∨
      map_opcode user_opcode = CacheOpcode.CACHE_OPEN_WRITE_LONG →
      (receive_native sw cont r.msg).nbytes = (if nbytes < 0 then 0 else nbytes) ∧
      (receive_native sw cont r.msg).pin_in_cache =
        (to_uint32 args.as_general.pin_in_cache : Int)) ∧
    (map_opcode user_opcode = CacheOpcode.CACHE_OPEN_READ →
      (receive_native sw cont r.msg).nbytes = 0 ∧
      (receive_native sw cont r.msg).pin_in_cache = 0) := by
  obtain ⟨f, hf, hm, _⟩ := do_op_returned_msg c cs args user_opcode data data_len nbytes
    counter send_result r h
  rw [hm]
  generalize (setup_ccvc c cs args (map_opcode user_opcode)).1 = ccvc at hf
  generalize map_opcode user_opcode = o at hf ⊢
  refine ⟨?_, ?_, ?_, ?_⟩
  · cases f.msg <;>
      simp [receive_native, init_from_short, init_from_short_2, init_from_long,
        unmarshal_CacheOpMsg_short, unmarshal_CacheOpMsg_short_2, unmarshal_CacheOpMsg_long]
  · cases o <;> simp only [fill_msg] at hf <;> first
      | exact Except.noConfusion hf
      | (split at hf
         · exact Except.noConfusion hf
         · simp at hf
           subst hf
           simp [receive_native, init_from_short, init_from_long,
             unmarshal_CacheOpMsg_short, unmarshal_CacheOpMsg_long])
      | (simp at hf
         subst hf
         simp [receive_native, init_from_short, init_from_short_2,
           unmarshal_CacheOpMsg_short, unmarshal_CacheOpMsg_short_2])
  · intro ho
    rcases ho with ho | ho | ho <;> subst ho <;> simp only [fill_msg] at hf <;>
      (split at hf
       · exact Except.noConfusion hf
       · simp at hf
         subst hf
         simp [receive_native, init_from_short, init_from_long,
           unmarshal_CacheOpMsg_short, unmarshal_CacheOpMsg_long])
  · intro ho
    subst ho
    simp only [fill_msg] at hf
    split at hf
    · exact Except.noConfusion hf
    · simp at hf
      subst hf
      simp [receive_native, init_from_short, unmarshal_CacheOpMsg_short]

/-- C18, amended, instance: an OPEN_WRITE of 500 bytes with pin-in-cache time
5 from caller 1 on session 7, the counter at 1. -/
theorem init_from_round_trip_witness :
    ∃ r, do_op 1 7 sample_args CacheOpcode.CACHE_OPEN_WRITE sample_buffer 64 500 1 0 =
        DoOpOutcome.returned r ∧
      (receive_native native_swaps new_CacheCont r.msg).nbytes = 500 ∧
      (receive_native native_swaps new_CacheCont r.msg).pin_in_cache = 5 ∧
      (receive_native native_swaps new_CacheCont r.msg).seq_number = 1 := by
  obtain ⟨r, hr, _⟩ := do_op_of_fill_ok 1 7 sample_args CacheOpcode.CACHE_OPEN_WRITE
    sample_buffer 64 500 1 0 _ (by simp [map_opcode, fill_msg]; rfl)
  have h := init_from_round_trip native_swaps new_CacheCont 1 7 sample_args
    CacheOpcode.CACHE_OPEN_WRITE sample_buffer 64 500 1 0 r hr
  have h3 := h.2.2.1 (Or.inl rfl)
  refine ⟨r, hr, ?_, ?_, ?_⟩
  · rw [h3.1]
    decide
  · rw [h3.2]
    decide
  · rw [h.2.1, new_cache_sequence_number_eq]
    rfl

end ClusterCache

namespace ClusterCache

/-! ## The reason of a failure reply -/

/-- C19, evaluated where the code departs from it: the record of
`sample_dispatched` takes the inlined small-object path for an object of 1800
bytes, then the read ends with `VC_EVENT_EOS`; the reply `replyOpEvent` sends
has result `CACHE_EVENT_OPEN_READ_FAILED` and reason 0.  In general the
failure reply of `VCSmallDataRead` carries the `result_error` the record
already had: the handler never assigns it. -/
theorem small_read_failure_reason :
    RespEffect.cluster_send_message 7 SendKind.CLUSTER_CACHE_OP_RESULT_CLUSTER_FUNCTION
        (Payload.reply
          { version := 1, need_byte_swap := false, seq_number := 1,
            result := Event.CACHE_EVENT_OPEN_READ_FAILED, reason := 0, h_len := 0,
            doc_size := 0, d_len := 0 } false)
        Priority.PRIORITY_MID ∈
      (run_events 4096 sample_dispatched
        [(Event.CACHE_EVENT_OPEN_READ, sample_env 1800),
         (Event.VC_EVENT_EOS, { sample_env 1800 with data_int := -20404 })]).effects ∧
    (∀ (c : CacheContinuation) (env : HandlerEnv),
      RespEffect.cluster_send_message c.cs SendKind.CLUSTER_CACHE_OP_RESULT_CLUSTER_FUNCTION
          (Payload.reply
            (reply_msg { c with doc_data := false,
                                result := Event.CACHE_EVENT_OPEN_READ_FAILED }) false)
          Priority.PRIORITY_MID ∈ (VCSmallDataRead c Event.VC_EVENT_EOS env).effects ∧
      (reply_msg { c with doc_data := false,
                          result := Event.CACHE_EVENT_OPEN_READ_FAILED }).reason =
        c.result_error) := by
  constructor
  · decide
  · intro c env
    constructor
    · simp [VCSmallDataRead, Event.is_cluster_msg, reply_close_free, replyOpEvent,
        close_and_free, HandlerOutcome.effects, event_is_open]
    · simp [reply_msg, event_is_open]

end ClusterCache

namespace ClusterCache

/-! ## The version field of inbound frames -/

/-- C20, as stated, fails: `VCdataRead` acts on a `READ_BEGIN` frame whose
version field is 0 and on one whose version field is 1 in the same way (it
issues the `do_io_pread`), so it acts on a frame of a version other than the
expected one. -/
theorem version_mismatch_counterexample :
    (sample_begin_env 0).frame.version ≠ (sample_begin_env 1).frame.version ∧
    (VCdataRead sample_streaming Event.CLUSTER_CACHE_DATA_READ_BEGIN
      (sample_begin_env 0)).effects = [RespEffect.do_io_pread 700 0] ∧
    (VCdataRead sample_streaming Event.CLUSTER_CACHE_DATA_READ_BEGIN
      (sample_begin_env 1)).effects = [RespEffect.do_io_pread 700 0] := by
  decide

/-- C20, amended: a reply whose version field differs from
`CACHE_OP_REPLY_MESSAGE_VERSION` makes `cache_op_result_ClusterFunction` fail
its release assertion, and no event is delivered to the initiator VC.
`VCdataRead` and `VCdataWrite` do not read the version field of a data frame:
they act on the frame in the same way whatever it holds.  (What
`cache_op_ClusterFunction` does with a request of another version is left
out.) -/
theorem version_mismatch_handling :
    (∀ (swap : CacheOpReplyMsg → CacheOpReplyMsg) (cvc : ReplyState) (msg : CacheOpReplyMsg)
        (has_data : Bool), msg.version ≠ CACHE_OP_REPLY_MESSAGE_VERSION →
      cache_op_result_ClusterFunction swap cvc msg has_data =
        ReplyOutcome.aborted "cache_op_result_ClusterFunction() bad msg version") ∧
    (∀ (c : CacheContinuation) (event : Event) (env : HandlerEnv) (v : Nat),
      VCdataRead c event { env with frame := { env.frame with version := v } } =
        VCdataRead c event env) ∧
    (∀ (c : CacheContinuation) (event : Event) (env : HandlerEnv) (v : Nat),
      VCdataWrite c event { env with frame := { env.frame with version := v } } =
        VCdataWrite c event env) := by
  refine ⟨?_, ?_, ?_⟩
  · intro swap cvc msg has_data h
    simp [cache_op_result_ClusterFunction, h]
  · intro c event env v
    rfl
  · intro c event env v
    rfl

end ClusterCache

namespace ClusterCache

/-! ## Request lengths in `cache_op_ClusterFunction` -/

/-- C21, evaluated where the code departs from it: an `OPEN_READ` request of
10 bytes, shorter than the fixed length 48 of its shape, is not rejected:
`cache_op_ClusterFunction` calls `open_read` with the hostname length
`10 - 48 = -38`.  The `OPEN_READ` case has no test of the length: whatever
the request, the hostname length it passes to `open_read` is the total length
minus the fixed length. -/
theorem short_request_negative_hostname :
    short_request.len < sample_consts.op_to_sizeof_fixedlen_msg CacheOpcode.CACHE_OPEN_READ ∧
    (cache_op_ClusterFunction sample_consts native_swaps 7 short_request 0 33).effects =
      [DispatchEffect.new_CacheCont, DispatchEffect.cluster_bind_session 7,
       DispatchEffect.open_read sample_digest CACHE_FRAG_TYPE_HTTP (-38)] ∧
    (∀ (k : ProtoConsts) (sw : ByteSwaps) (cs : Nat) (req : InboundRequest) (action : Nat),
      req.msg.as_long.opcode = CacheOpcode.CACHE_OPEN_READ →
      (cache_op_ClusterFunction k sw cs req 0 action).effects.filterMap
        DispatchEffect.hostname_len =
          [req.len - k.op_to_sizeof_fixedlen_msg CacheOpcode.CACHE_OPEN_READ]) := by
  refine ⟨by decide, by decide, ?_⟩
  intro k sw cs req action ho
  simp [cache_op_ClusterFunction, ho, DispatchOutcome.effects, DispatchEffect.hostname_len,
    init_from_short]

/-! ## The sequence number of a request without reply -/

/-- C22, as stated, fails: a REMOVE request sent by `do_op` for a null caller
carries the sequence number drawn from the counter (1 here), not 0. -/
theorem null_caller_seq_counterexample :
    ∃ r, do_op 0 7 sample_args CacheOpcode.CACHE_REMOVE sample_buffer 64 0 1 0 =
        DoOpOutcome.returned r ∧ r.msg.seq_number ≠ 0 := by
  obtain ⟨r, hr, hm⟩ := do_op_of_fill_ok 0 7 sample_args CacheOpcode.CACHE_REMOVE
    sample_buffer 64 0 1 0 _ (by simp [map_opcode, fill_msg]; rfl)
  refine ⟨r, hr, ?_⟩
  rw [hm]
  simp [WireMsg.seq_number, new_cache_sequence_number_eq]

/-- C22, amended: when `do_op` is invoked with a null caller (accepted for
UPDATE, REMOVE, DEREF and LINK only), the request message it builds carries
the sequence number drawn from the counter, which is never zero, just as for
the reply-expected operations; that no reply is expected shows in the first
call, which sets the session event mask to 0, and in the null action
returned. -/
theorem null_caller_seq (cs : Nat) (args : OpArgs) (user_opcode : CacheOpcode)
    (data : MsgBuffer) (data_len nbytes : Int) (counter : Nat) (send_result : Int)
    (r : DoOpResult)
    (h : do_op 0 cs args user_opcode data data_len nbytes counter send_result =
      DoOpOutcome.returned r) :
    (user_opcode = CacheOpcode.CACHE_UPDATE ∨ user_opcode = CacheOpcode.CACHE_REMOVE ∨
      user_opcode = CacheOpcode.CACHE_DEREF ∨ user_opcode = CacheOpcode.CACHE_LINK) ∧
    r.msg.seq_number = (new_cache_sequence_number counter).1 ∧
    r.msg.seq_number ≠ 0 ∧
    r.effects.take 1 = [OpEffect.cluster_set_events cs 0] ∧
    r.action = ActionHandle.null := by
  obtain ⟨f, hf, hm, _⟩ := do_op_returned_msg 0 cs args user_opcode data data_len nbytes
    counter send_result r h
  have hseq := fill_msg_seq _ _ _ _ _ _ _ f hf
  have hb := new_cache_sequence_number_bounds counter
  have hs := setup_ccvc_isSome 0 cs args (map_opcode user_opcode)
  have hcc := fill_msg_ccvc _ _ _ _ _ _ _ f hf
  rw [hs.1] at hcc
  have hnone : f.ccvc = none := by
    cases hv : f.ccvc with
    | none => rfl
    | some v =>
      rw [hv] at hcc
      simp at hcc
  refine ⟨?_, ?_, ?_, ?_, ?_⟩
  · cases user_opcode <;> simp [map_opcode, fill_msg] at hf <;> simp
  · rw [hm]
    exact hseq.1
  · rw [hm, hseq.1]
    exact hb.1
  · unfold do_op at h
    simp only [hf, hs.2, hnone] at h
    by_cases hsr : send_result = 0
    · simp only [hsr, if_true] at h
      cases h
      simp
    · simp only [hsr, if_false] at h
      cases h
      simp
  · unfold do_op at h
    simp only [hf, hs.2, hnone] at h
    by_cases hsr : send_result = 0
    · simp only [hsr, if_true] at h
      cases h
      simp
    · simp only [hsr, if_false] at h
      cases h
      simp

/-- C22, amended, instance: a REMOVE request for a null caller on session 7
with the counter at 1. -/
theorem null_caller_seq_witness :
    ∃ r, do_op 0 7 sample_args CacheOpcode.CACHE_REMOVE sample_buffer 64 0 1 0 =
        DoOpOutcome.returned r ∧
      r.msg.seq_number = 1 ∧
      r.effects.take 1 = [OpEffect.cluster_set_events 7 0] := by
  obtain ⟨r, hr, _⟩ := do_op_of_fill_ok 0 7 sample_args CacheOpcode.CACHE_REMOVE
    sample_buffer 64 0 1 0 _ (by simp [map_opcode, fill_msg]; rfl)
  have h := null_caller_seq 7 sample_args CacheOpcode.CACHE_REMOVE sample_buffer 64 0 1 0 r hr
  refine ⟨r, hr, ?_, h.2.2.2.1⟩
  rw [h.2.1, new_cache_sequence_number_eq]
  rfl

end ClusterCache

namespace ClusterCache

/-! ## Completion of a streamed read -/

/-- C23: in `VCdataRead`, for a `VC_EVENT_READ_READY` or
`VC_EVENT_READ_COMPLETE` event on a record whose reader, VIO and cache VC are
set and whose `READ_DONE` frame (`PRIORITY_LOW`, carrying exactly the newly
available bytes) is sent successfully: if the cumulative byte count
`total_length` is `>= vio->nbytes` the responder closes the cache VC, closes
the session and frees the record, returning `EVENT_DONE`; otherwise it sets
`expect_next`, sets the event mask to `RESPONSE_EVENT_NOTIFY_DEALER` and
returns `EVENT_CONT`; so it terminates if and only if
`total_length >= vio->nbytes`. -/
theorem read_ready_terminates_iff (c : CacheContinuation) (event : Event) (env : HandlerEnv)
    (vio : CacheVio)
    (hev : event = Event.VC_EVENT_READ_READY ∨ event = Event.VC_EVENT_READ_COMPLETE)
    (hm : c.mbuf = true) (hv : c.vio = some vio) (hvc : c.cache_vc.isSome = true)
    (hs : env.send_result = 0) :
    (vio.nbytes ≤ c.total_length + env.read_avail →
      VCdataRead c event env =
        HandlerOutcome.returned EVENT_DONE none
          ([RespEffect.cluster_send_message c.cs SendKind.CLUSTER_CACHE_DATA_READ_DONE
              (Payload.bytes env.read_avail) Priority.PRIORITY_LOW,
            RespEffect.do_io_close CloseKind.plain,
            RespEffect.cluster_close_session c.cs] ++
           free_CacheCont { c with total_length := c.total_length + env.read_avail,
                                   cache_vc := none })) ∧
    (c.total_length + env.read_avail < vio.nbytes →
      VCdataRead c event env =
        HandlerOutcome.returned EVENT_CONT
          (some { c with total_length := c.total_length + env.read_avail,
                         expect_next := true })
          [RespEffect.cluster_send_message c.cs SendKind.CLUSTER_CACHE_DATA_READ_DONE
              (Payload.bytes env.read_avail) Priority.PRIORITY_LOW,
           RespEffect.cluster_set_events c.cs EventMask.RESPONSE_EVENT_NOTIFY_DEALER]) ∧
    ((∃ fx, VCdataRead c event env = HandlerOutcome.returned EVENT_DONE none fx) ↔
      vio.nbytes ≤ c.total_length + env.read_avail) := by
  have hnn : c.cache_vc.isNone = false := by
    cases hc : c.cache_vc with
    | none => simp [hc] at hvc
    | some v => rfl
  have h1 : vio.nbytes ≤ c.total_length + env.read_avail →
      VCdataRead c event env =
        HandlerOutcome.returned EVENT_DONE none
          ([RespEffect.cluster_send_message c.cs SendKind.CLUSTER_CACHE_DATA_READ_DONE
              (Payload.bytes env.read_avail) Priority.PRIORITY_LOW,
            RespEffect.do_io_close CloseKind.plain,
            RespEffect.cluster_close_session c.cs] ++
           free_CacheCont { c with total_length := c.total_length + env.read_avail,
                                   cache_vc := none }) := by
    intro hd
    rcases hev with hev | hev <;> subst hev <;>
      simp [VCdataRead, hm, hs, hv, free_exit, hnn, hd, close_and_free]
  have h2 : c.total_length + env.read_avail < vio.nbytes →
      VCdataRead c event env =
        HandlerOutcome.returned EVENT_CONT
          (some { c with total_length := c.total_length + env.read_avail,
                         expect_next := true })
          [RespEffect.cluster_send_message c.cs SendKind.CLUSTER_CACHE_DATA_READ_DONE
              (Payload.bytes env.read_avail) Priority.PRIORITY_LOW,
           RespEffect.cluster_set_events c.cs EventMask.RESPONSE_EVENT_NOTIFY_DEALER] := by
    intro hd
    have hd2 : ¬ vio.nbytes ≤ c.total_length + env.read_avail := by omega
    rcases hev with hev | hev <;> subst hev <;>
      simp [VCdataRead, hm, hs, hv, hd2, hd]
  refine ⟨h1, h2, ?_⟩
  constructor
  · rintro ⟨fx, hfx⟩
    by_contra hd
    rw [h2 (by omega)] at hfx
    simp [EVENT_CONT, EVENT_DONE] at hfx
  · intro hd
    exact ⟨_, h1 hd⟩

/-- C23, instance: 700 bytes are declared, 300 have been sent and 400 more are
available. -/
theorem read_ready_terminates_iff_witness :
    (∃ fx, VCdataRead { sample_streaming with mbuf := true, vio := some { nbytes := 700 },
                                              total_length := 300, expect_next := false }
        Event.VC_EVENT_READ_COMPLETE { sample_env 100000 with read_avail := 400 } =
      HandlerOutcome.returned EVENT_DONE none fx) ↔ (700 : Int) ≤ 300 + 400 :=
  (read_ready_terminates_iff
    { sample_streaming with mbuf := true, vio := some { nbytes := 700 },
                            total_length := 300, expect_next := false }
    Event.VC_EVENT_READ_COMPLETE { sample_env 100000 with read_avail := 400 }
    { nbytes := 700 } (Or.inr rfl) (by decide) (by decide) (by decide) (by decide)).2.2

/-! ## The latch and the session event mask -/

theorem free_CacheCont_mask (c : CacheContinuation) :
    (free_CacheCont c).filter RespEffect.is_set_events = [] := by
  unfold free_CacheCont cacheContAllocator_free
  simp only [List.filter_append]
  split <;> split <;> split <;> simp [RespEffect.is_set_events]

theorem replyOpEvent_mask (c : CacheContinuation) (env : HandlerEnv) :
    (replyOpEvent c env).effects.filter RespEffect.is_set_events = [] ∧
    (replyOpEvent c env).cont.expect_next = c.expect_next ∧
    (replyOpEvent c env).cont.cs = c.cs := by
  unfold replyOpEvent
  split <;> simp [RespEffect.is_set_events]

theorem close_and_free_mask (c c1 : CacheContinuation) (pre : List RespEffect)
    (h : pre.filter RespEffect.is_set_events = []) : mask_ok c (close_and_free c1 pre) := by
  simp [mask_ok, close_and_free, List.filter_append, h, free_CacheCont_mask,
    RespEffect.is_set_events]

theorem free_exit_mask (c c1 : CacheContinuation) (pre : List RespEffect)
    (h : pre.filter RespEffect.is_set_events = []) : mask_ok c (free_exit c1 pre) := by
  unfold free_exit
  split
  · exact h
  · exact close_and_free_mask c _ _ (by simp [List.filter_append, h, RespEffect.is_set_events])

theorem write_complete_mask (c c1 : CacheContinuation) (pre : List RespEffect)
    (h : pre.filter RespEffect.is_set_events = []) : mask_ok c (write_complete c1 pre) := by
  unfold write_complete
  split
  · exact h
  · exact close_and_free_mask c _ _ (by simp [List.filter_append, h, RespEffect.is_set_events])

theorem reply_close_free_mask (c c1 : CacheContinuation) (env : HandlerEnv) :
    mask_ok c (reply_close_free c1 env []) := by
  unfold reply_close_free
  exact close_and_free_mask c _ _ (by simp [(replyOpEvent_mask c1 env).1])

theorem reply_then_stream_mask (c c1 : CacheContinuation) (env : HandlerEnv)
    (hcs : c1.cs = c.cs) : mask_ok c (reply_then_stream c1 env) := by
  have hr := replyOpEvent_mask c1 env
  unfold reply_then_stream
  split
  · exact close_and_free_mask c _ _ hr.1
  · simp [mask_ok, List.filter_append, hr.1, RespEffect.is_set_events, hcs]

theorem VCdataRead_mask (c : CacheContinuation) (event : Event) (env : HandlerEnv) :
    mask_ok c (VCdataRead c event env) := by
  simp only [VCdataRead]
  repeat' split
  all_goals first
    | exact free_exit_mask c _ _ (by simp [RespEffect.is_set_events])
    | simp [mask_ok, RespEffect.is_set_events]

theorem VCdataWrite_mask (c : CacheContinuation) (event : Event) (env : HandlerEnv) :
    mask_ok c (VCdataWrite c event env) := by
  simp only [VCdataWrite]
  repeat' split
  all_goals first
    | exact write_complete_mask c _ _ (by simp [RespEffect.is_set_events])
    | exact close_and_free_mask c _ _ (by simp [RespEffect.is_set_events])
    | simp [mask_ok, RespEffect.is_set_events]

theorem VCSmallDataRead_mask (c : CacheContinuation) (event : Event) (env : HandlerEnv) :
    mask_ok c (VCSmallDataRead c event env) := by
  simp only [VCSmallDataRead]
  repeat' split
  all_goals first
    | exact reply_close_free_mask c _ env
    | exact close_and_free_mask c c [] rfl
    | simp [mask_ok, RespEffect.is_set_events]

theorem setupVCdataRead_mask (S : Int) (c : CacheContinuation) (event : Event)
    (env : HandlerEnv) : mask_ok c (setupVCdataRead S c event env) := by
  simp only [setupVCdataRead]
  repeat' split
  all_goals first
    | exact close_and_free_mask c c [] rfl
    | exact reply_then_stream_mask c _ env (by simp [open_read_record]; try (split <;> rfl))
    | (simp [mask_ok, RespEffect.is_set_events, open_read_record]
       try (split <;> simp))

theorem setupVCdataWrite_mask (c : CacheContinuation) (event : Event) (env : HandlerEnv) :
    mask_ok c (setupVCdataWrite c event env) := by
  have hr := replyOpEvent_mask (open_write_record c event env) env
  simp only [setupVCdataWrite]
  repeat' split
  all_goals first
    | exact close_and_free_mask c c [] rfl
    | exact close_and_free_mask c _ _ hr.1
    | simp [mask_ok, List.filter_append, hr.1, RespEffect.is_set_events]

theorem setupVCdataRemove_mask (c : CacheContinuation) (event : Event) (env : HandlerEnv) :
    mask_ok c (setupVCdataRemove c event env) := by
  simp only [setupVCdataRemove]
  split
  · exact close_and_free_mask c c [] rfl
  · exact reply_close_free_mask c _ env

theorem handleEvent_mask (S : Int) (c : CacheContinuation) (event : Event)
    (env : HandlerEnv) : mask_ok c (handleEvent S c event env) := by
  unfold handleEvent
  split
  · exact setupVCdataRead_mask S c event env
  · exact VCSmallDataRead_mask c event env
  · exact setupVCdataWrite_mask c event env
  · exact setupVCdataRemove_mask c event env
  · simp [setupVCdataLink, mask_ok]
  · simp [setupVCdataLink, mask_ok]
  · exact VCdataRead_mask c event env
  · exact VCdataWrite_mask c event env
  · simp [mask_ok]

/-- C24, as stated, fails: `VCdataRead` takes a `READ_BEGIN` frame on a record
whose `expect_next` is true and sets the latch to false; its only call is the
`do_io_pread`, the event mask is not cleared. -/
theorem mask_not_cleared_counterexample :
    sample_streaming.expect_next = true ∧
    ((VCdataRead sample_streaming Event.CLUSTER_CACHE_DATA_READ_BEGIN
        (sample_begin_env 1)).cont.map fun c1 => c1.expect_next) = some false ∧
    (VCdataRead sample_streaming Event.CLUSTER_CACHE_DATA_READ_BEGIN
      (sample_begin_env 1)).effects = [RespEffect.do_io_pread 700 0] := by
  decide

/-- C24, amended: across all responder handlers, every call that sets the
session event mask sets it to `RESPONSE_EVENT_NOTIFY_DEALER` for the session
of the record, is the only such call of its invocation, and belongs to an
invocation that continues with `expect_next` true; and every invocation that
takes `expect_next` from false to true sets the mask in the same step.  No
handler clears the mask: a transition that sets `expect_next` to false makes
no mask call. -/
theorem mask_set_with_latch (S : Int) (c : CacheContinuation) (event : Event)
    (env : HandlerEnv) :
    (∀ e ∈ (handleEvent S c event env).effects, e.is_set_events = true →
      e = RespEffect.cluster_set_events c.cs EventMask.RESPONSE_EVENT_NOTIFY_DEALER ∧
      (handleEvent S c event env).effects.countP RespEffect.is_set_events = 1 ∧
      ∃ ret c1 fx, handleEvent S c event env = HandlerOutcome.returned ret (some c1) fx ∧
        c1.expect_next = true) ∧
    (∀ ret c1 fx, handleEvent S c event env = HandlerOutcome.returned ret (some c1) fx →
      c.expect_next = false → c1.expect_next = true →
      RespEffect.cluster_set_events c.cs EventMask.RESPONSE_EVENT_NOTIFY_DEALER ∈ fx) := by
  have hm := handleEvent_mask S c event env
  cases ho : handleEvent S c event env with
  | crashed why fx =>
    rw [ho] at hm
    simp only [mask_ok] at hm
    constructor
    · intro e he hs
      have : e ∈ fx.filter RespEffect.is_set_events := List.mem_filter.mpr ⟨he, hs⟩
      rw [hm] at this
      simp at this
    · intro ret c1 fx1 h
      exact HandlerOutcome.noConfusion h
  | returned ret oc fx =>
    rw [ho] at hm
    cases oc with
    | none =>
      simp only [mask_ok] at hm
      constructor
      · intro e he hs
        have : e ∈ fx.filter RespEffect.is_set_events := List.mem_filter.mpr ⟨he, hs⟩
        rw [hm] at this
        simp at this
      · intro ret1 c1 fx1 h
        simp at h
    | some c2 =>
      simp only [mask_ok] at hm
      constructor
      · intro e he hs
        have hmem : e ∈ fx.filter RespEffect.is_set_events := List.mem_filter.mpr ⟨he, hs⟩
        rcases hm with ⟨hf, hx⟩ | ⟨hf, _⟩
        · rw [hf] at hmem
          refine ⟨by simpa using hmem, ?_, ret, c2, fx, rfl, hx⟩
          simp only [HandlerOutcome.effects]
          rw [List.countP_eq_length_filter, hf]
          rfl
        · rw [hf] at hmem
          simp at hmem
      · intro ret1 c1 fx1 h h0 h1
        simp only [HandlerOutcome.returned.injEq, Option.some.injEq] at h
        obtain ⟨_, hc, hfx⟩ := h
        subst hc
        subst hfx
        rcases hm with ⟨hf, _⟩ | ⟨_, hx⟩
        · have : RespEffect.cluster_set_events c.cs EventMask.RESPONSE_EVENT_NOTIFY_DEALER ∈
              fx.filter RespEffect.is_set_events := by
            rw [hf]
            simp
          exact (List.mem_filter.mp this).1
        · rw [hx h1] at h0
          exact Bool.noConfusion h0

/-! ## Close and abort of a streamed write -/

theorem free_CacheCont_closed (c : CacheContinuation) (h : c.cache_vc = none) :
    ∀ e ∈ free_CacheCont c, e.touches_vc = false := by
  unfold free_CacheCont cacheContAllocator_free
  simp only [h, Option.isSome_none, Bool.false_eq_true, if_false, List.append_nil]
  intro e he
  simp only [List.mem_append] at he
  rcases he with (he | he) | he
  · split at he <;> simp at he
    subst he
    rfl
  · split at he <;> simp at he
    subst he
    rfl
  · simp at he
    subst he
    rfl

theorem free_CacheCont_no_send (c : CacheContinuation) :
    ∀ e ∈ free_CacheCont c, e.is_send = false := by
  unfold free_CacheCont cacheContAllocator_free
  intro e he
  simp only [List.mem_append] at he
  rcases he with ((he | he) | he) | he
  · split at he <;> simp at he
    subst he
    rfl
  · split at he <;> simp at he
    subst he
    rfl
  · split at he <;> simp at he
    subst he
    rfl
  · simp at he
    subst he
    rfl

/-- C25: in `VCdataWrite`, on a `CLOSE(final_nbytes)` frame for a record whose
writer has not aborted and whose VIO and cache VC are set, `vio->nbytes` is
set to `final_nbytes`; if `vio->ndone` equals it the cache VC is closed
without an error code (once: the free routine finds `cache_vc` cleared), the
session is closed and the record freed; otherwise the VIO is reenabled and
the record stays alive (`EVENT_CONT`) with `expect_next = false` and the VC
still open, and the later `VC_EVENT_WRITE_COMPLETE` closes the VC, closes the
session and frees the record. -/
theorem close_frame_finalises (c : CacheContinuation) (env : HandlerEnv) (vio : CacheVio)
    (ha : c.writer_aborted = false) (hv : c.vio = some vio)
    (hvc : c.cache_vc.isSome = true) :
    (env.frame.close_nbytes = env.vio_ndone →
      VCdataWrite c Event.CLUSTER_CACHE_DATA_CLOSE env =
        HandlerOutcome.returned EVENT_DONE none
          ([RespEffect.do_io_close CloseKind.plain, RespEffect.cluster_close_session c.cs] ++
            free_CacheCont { c with expect_next := false,
                                    vio := some { nbytes := env.frame.close_nbytes },
                                    cache_vc := none }) ∧
      vc_closes (VCdataWrite c Event.CLUSTER_CACHE_DATA_CLOSE env).effects = 1) ∧
    (env.frame.close_nbytes ≠ env.vio_ndone →
      VCdataWrite c Event.CLUSTER_CACHE_DATA_CLOSE env =
        HandlerOutcome.returned EVENT_CONT
          (some { c with expect_next := false,
                         vio := some { nbytes := env.frame.close_nbytes } })
          [RespEffect.vio_reenable] ∧
      ∀ env1 : HandlerEnv,
        VCdataWrite { c with expect_next := false,
                             vio := some { nbytes := env.frame.close_nbytes } }
            Event.VC_EVENT_WRITE_COMPLETE env1 =
          HandlerOutcome.returned EVENT_DONE none
            ([RespEffect.do_io_close CloseKind.plain,
              RespEffect.cluster_close_session c.cs] ++
              free_CacheCont { c with expect_next := false,
                                      vio := some { nbytes := env.frame.close_nbytes },
                                      cache_vc := none })) := by
  have hnn : c.cache_vc.isNone = false := by
    cases hc : c.cache_vc with
    | none => simp [hc] at hvc
    | some v => rfl
  constructor
  · intro heq
    have h1 : VCdataWrite c Event.CLUSTER_CACHE_DATA_CLOSE env =
        HandlerOutcome.returned EVENT_DONE none
          ([RespEffect.do_io_close CloseKind.plain, RespEffect.cluster_close_session c.cs] ++
            free_CacheCont { c with expect_next := false,
                                    vio := some { nbytes := env.frame.close_nbytes },
                                    cache_vc := none }) := by
      simp [VCdataWrite, ha, hv, heq, write_complete, hnn, write_exit, close_and_free]
    refine ⟨h1, ?_⟩
    rw [h1]
    have hf : ∀ c1 : CacheContinuation,
        List.countP RespEffect.is_vc_close (free_CacheCont c1) = c1.owed :=
      free_CacheCont_vc_closes
    simp only [vc_closes, HandlerOutcome.effects, List.countP_append, hf]
    simp [RespEffect.is_vc_close, CacheContinuation.owed]
  · intro hne
    constructor
    · simp [VCdataWrite, ha, hv, hne]
    · intro env1
      simp [VCdataWrite, write_complete, hnn, write_exit, close_and_free]

/-- C25, instance: the `CLOSE` frame carries 650 and the VIO has done 650. -/
theorem close_frame_finalises_witness :
    vc_closes (VCdataWrite (sample_writing true) Event.CLUSTER_CACHE_DATA_CLOSE
      { sample_env 0 with frame := { zero_frame with close_nbytes := 650 },
                          vio_ndone := 650 }).effects = 1 :=
  ((close_frame_finalises (sample_writing true)
    { sample_env 0 with frame := { zero_frame with close_nbytes := 650 }, vio_ndone := 650 }
    { nbytes := 700 } (by decide) (by decide) (by decide)).1 (by decide)).2

theorem aborted_frame_exit (c : CacheContinuation) (frame : Event) (env : HandlerEnv)
    (ha : c.writer_aborted = true)
    (hf : frame ∈ [Event.CLUSTER_CACHE_DATA_WRITE_DONE, Event.CLUSTER_CACHE_DATA_CLOSE,
      Event.CLUSTER_CACHE_HEADER_ONLY_UPDATE, Event.CLUSTER_CACHE_DATA_ABORT,
      Event.CLUSTER_INTERNEL_ERROR]) :
    VCdataWrite c frame env =
      HandlerOutcome.returned EVENT_DONE none
        ((if frame = Event.CLUSTER_CACHE_DATA_WRITE_DONE then
            [RespEffect.cluster_send_message c.cs SendKind.CLUSTER_CACHE_DATA_ABORT
              Payload.empty Priority.PRIORITY_HIGH]
          else []) ++
          [RespEffect.cluster_close_session c.cs] ++
          free_CacheCont { c with expect_next := false }) := by
  simp only [List.mem_cons, List.mem_singleton, List.mem_nil_iff, or_false] at hf
  rcases hf with hf | hf | hf | hf | hf <;> subst hf <;>
    simp [VCdataWrite, ha, write_exit, close_and_free]

/-- C26: in `VCdataWrite`, on `VC_EVENT_ERROR` or `VC_EVENT_EOS` with the cache
VC set, the responder sets `writer_aborted`, closes the cache VC with
`EHTTP_ERROR` and clears `cache_vc` and `vio`; it stays alive (`EVENT_CONT`,
no session close) if and only if `expect_next` is true, otherwise it closes
the session and frees the record at once, the free routine not using the VC
again; and when it stays alive, the next peer frame (`WRITE_DONE`, `CLOSE`,
`HEADER_ONLY_UPDATE`, `ABORT` or internal error) closes the session and frees
the record without any call on the closed VC or its VIO. -/
theorem writer_abort (c : CacheContinuation) (event : Event) (env : HandlerEnv)
    (hev : event = Event.VC_EVENT_ERROR ∨ event = Event.VC_EVENT_EOS)
    (hvc : c.cache_vc.isSome = true) :
    (c.expect_next = true →
      VCdataWrite c event env =
        HandlerOutcome.returned EVENT_CONT (some c.aborted)
          [RespEffect.do_io_close CloseKind.EHTTP_ERROR]) ∧
    (c.expect_next = false →
      VCdataWrite c event env =
        HandlerOutcome.returned EVENT_DONE none
          ([RespEffect.do_io_close CloseKind.EHTTP_ERROR,
            RespEffect.cluster_close_session c.cs] ++ free_CacheCont c.aborted)) ∧
    ((VCdataWrite c event env).cont.isSome = true ↔ c.expect_next = true) ∧
    (∀ e ∈ free_CacheCont c.aborted, e.touches_vc = false) ∧
    (∀ (frame : Event) (env1 : HandlerEnv),
      frame ∈ [Event.CLUSTER_CACHE_DATA_WRITE_DONE, Event.CLUSTER_CACHE_DATA_CLOSE,
        Event.CLUSTER_CACHE_HEADER_ONLY_UPDATE, Event.CLUSTER_CACHE_DATA_ABORT,
        Event.CLUSTER_INTERNEL_ERROR] →
      ∃ fx, VCdataWrite c.aborted frame env1 = HandlerOutcome.returned EVENT_DONE none fx ∧
        RespEffect.cluster_close_session c.cs ∈ fx ∧ RespEffect.allocator_free ∈ fx ∧
        ∀ e ∈ fx, e.touches_vc = false) := by
  have hnn : c.cache_vc.isNone = false := by
    cases hc : c.cache_vc with
    | none => simp [hc] at hvc
    | some v => rfl
  have h1 : c.expect_next = true →
      VCdataWrite c event env =
        HandlerOutcome.returned EVENT_CONT (some c.aborted)
          [RespEffect.do_io_close CloseKind.EHTTP_ERROR] := by
    intro he
    rcases hev with hev | hev <;> subst hev <;>
      simp [VCdataWrite, hnn, he, CacheContinuation.aborted]
  have h2 : c.expect_next = false →
      VCdataWrite c event env =
        HandlerOutcome.returned EVENT_DONE none
          ([RespEffect.do_io_close CloseKind.EHTTP_ERROR,
            RespEffect.cluster_close_session c.cs] ++ free_CacheCont c.aborted) := by
    intro he
    rcases hev with hev | hev <;> subst hev <;>
      simp [VCdataWrite, hnn, he, CacheContinuation.aborted, write_exit, close_and_free]
  refine ⟨h1, h2, ?_, ?_, ?_⟩
  · cases he : c.expect_next with
    | true => simp [h1 he, HandlerOutcome.cont]
    | false => simp [h2 he, HandlerOutcome.cont]
  · exact free_CacheCont_closed c.aborted rfl
  · intro frame env1 hf
    refine ⟨_, aborted_frame_exit c.aborted frame env1 rfl hf, ?_, ?_, ?_⟩
    · simp [CacheContinuation.aborted]
    · simp [free_CacheCont, cacheContAllocator_free]
    · intro e he
      simp only [List.mem_append] at he
      rcases he with (he | he) | he
      · split at he <;> simp at he
        subst he
        rfl
      · simp at he
        subst he
        rfl
      · exact free_CacheCont_closed _ rfl e he

/-- C26, instance: the writer of `sample_writing` hits EOS while the next frame
is expected. -/
theorem writer_abort_witness :
    VCdataWrite (sample_writing true) Event.VC_EVENT_EOS (sample_env 0) =
      HandlerOutcome.returned EVENT_CONT (some (sample_writing true).aborted)
        [RespEffect.do_io_close CloseKind.EHTTP_ERROR] :=
  (writer_abort (sample_writing true) Event.VC_EVENT_EOS (sample_env 0) (Or.inr rfl)
    (by decide)).1 (by decide)

/-- C27, as stated, fails: the writer of `sample_writing` aborts with
`VC_EVENT_ERROR` while `expect_next` is false; the record is freed in the same
invocation and no message at all is sent to the initiator. -/
theorem abort_without_message_counterexample :
    (VCdataWrite (sample_writing false) Event.VC_EVENT_ERROR (sample_env 0)).cont = none ∧
    RespEffect.allocator_free ∈
      (VCdataWrite (sample_writing false) Event.VC_EVENT_ERROR (sample_env 0)).effects ∧
    (VCdataWrite (sample_writing false) Event.VC_EVENT_ERROR
      (sample_env 0)).effects.countP RespEffect.is_send = 0 := by
  decide

/-- C27, amended: when the local writer aborts in `VCdataWrite`
(`VC_EVENT_EOS` or `VC_EVENT_ERROR`), the invocation itself sends no message,
whatever `expect_next` is.  If the record stayed alive, a following
`WRITE_DONE` frame makes the responder send an `ABORT` message
(`PRIORITY_HIGH`) before it closes the session and frees the record; a
following `CLOSE`, `HEADER_ONLY_UPDATE`, `ABORT` or internal error frees the
record without any message. -/
theorem abort_message_only_on_write_done :
    (∀ (c : CacheContinuation) (event : Event) (env : HandlerEnv),
      event = Event.VC_EVENT_ERROR ∨ event = Event.VC_EVENT_EOS →
      (VCdataWrite c event env).effects.countP RespEffect.is_send = 0) ∧
    (∀ (c : CacheContinuation) (env : HandlerEnv),
      c.writer_aborted = true →
      VCdataWrite c Event.CLUSTER_CACHE_DATA_WRITE_DONE env =
        HandlerOutcome.returned EVENT_DONE none
          ([RespEffect.cluster_send_message c.cs SendKind.CLUSTER_CACHE_DATA_ABORT
              Payload.empty Priority.PRIORITY_HIGH,
            RespEffect.cluster_close_session c.cs] ++
            free_CacheCont { c with expect_next := false })) ∧
    (∀ (c : CacheContinuation) (frame : Event) (env : HandlerEnv),
      c.writer_aborted = true →
      frame ∈ [Event.CLUSTER_CACHE_DATA_CLOSE, Event.CLUSTER_CACHE_HEADER_ONLY_UPDATE,
        Event.CLUSTER_CACHE_DATA_ABORT, Event.CLUSTER_INTERNEL_ERROR] →
      (VCdataWrite c frame env).cont = none ∧
      RespEffect.allocator_free ∈ (VCdataWrite c frame env).effects ∧
      (VCdataWrite c frame env).effects.countP RespEffect.is_send = 0) := by
  have hfree : ∀ c1 : CacheContinuation,
      List.countP RespEffect.is_send (free_CacheCont c1) = 0 := by
    intro c1
    rw [List.countP_eq_zero]
    intro e he
    simp [free_CacheCont_no_send c1 e he]
  refine ⟨?_, ?_, ?_⟩
  · intro c event env hev
    rcases hev with hev | hev <;> subst hev <;> simp only [VCdataWrite] <;>
      repeat' split
    all_goals
      simp [HandlerOutcome.effects, write_exit, close_and_free, List.countP_append, hfree,
        RespEffect.is_send]
  · intro c env ha
    have := aborted_frame_exit c Event.CLUSTER_CACHE_DATA_WRITE_DONE env ha (by simp)
    simpa using this
  · intro c frame env ha hf
    have hmem : frame ∈ [Event.CLUSTER_CACHE_DATA_WRITE_DONE, Event.CLUSTER_CACHE_DATA_CLOSE,
        Event.CLUSTER_CACHE_HEADER_ONLY_UPDATE, Event.CLUSTER_CACHE_DATA_ABORT,
        Event.CLUSTER_INTERNEL_ERROR] := List.mem_cons_of_mem _ hf
    have hne : frame ≠ Event.CLUSTER_CACHE_DATA_WRITE_DONE := by
      intro h
      subst h
      simp at hf
    rw [aborted_frame_exit c frame env ha hmem]
    simp [HandlerOutcome.cont, HandlerOutcome.effects, hne, List.countP_append, hfree,
      RespEffect.is_send, free_CacheCont, cacheContAllocator_free]

end ClusterCache

namespace ClusterCache

/-! ## The opcodes handled by `cache_op_ClusterFunction` -/

/-- C28, evaluated where the code departs from it: `do_op` builds and sends a
`CACHE_UPDATE` request, but the `switch` of `cache_op_ClusterFunction` has no
case for that opcode: the request falls into the `default` branch, whose
`ink_assert(0)` does not stop a release build; the record is allocated and
bound to the session, no local cache call is made and no handler is
installed.  That holds for every `CACHE_UPDATE` request.  The seven other
opcodes `do_op` sends get exactly one local cache call and a handler. -/
theorem update_not_dispatched :
    (∃ r, do_op 1 7 sample_args CacheOpcode.CACHE_UPDATE sample_buffer 48 0 1 0 =
        DoOpOutcome.returned r ∧ r.msg.opcode = CacheOpcode.CACHE_UPDATE ∧
        r.effects.countP OpEffect.is_send = 1) ∧
    (cache_op_ClusterFunction sample_consts native_swaps 7 update_request 0 33).effects =
      [DispatchEffect.new_CacheCont, DispatchEffect.cluster_bind_session 7] ∧
    ((cache_op_ClusterFunction sample_consts native_swaps 7 update_request 0 33).cont.map
      fun c => c.handler) = some none ∧
    (∀ (k : ProtoConsts) (sw : ByteSwaps) (cs : Nat) (req : InboundRequest) (action : Nat),
      req.msg.as_long.opcode = CacheOpcode.CACHE_UPDATE →
      (cache_op_ClusterFunction k sw cs req 0 action).effects.countP
        DispatchEffect.is_cache_call = 0 ∧
      ((cache_op_ClusterFunction k sw cs req 0 action).cont.map fun c => c.handler) =
        some none) ∧
    (∀ (k : ProtoConsts) (sw : ByteSwaps) (cs : Nat) (req : InboundRequest) (action : Nat),
      req.msg.as_long.opcode ∈ [CacheOpcode.CACHE_OPEN_READ, CacheOpcode.CACHE_OPEN_READ_LONG,
        CacheOpcode.CACHE_OPEN_WRITE, CacheOpcode.CACHE_OPEN_WRITE_LONG,
        CacheOpcode.CACHE_REMOVE, CacheOpcode.CACHE_DEREF, CacheOpcode.CACHE_LINK] →
      (cache_op_ClusterFunction k sw cs req 0 action).effects.countP
        DispatchEffect.is_cache_call = 1 ∧
      ∃ c, (cache_op_ClusterFunction k sw cs req 0 action).cont = some c ∧
        c.handler.isSome = true) := by
  refine ⟨?_, by decide, by decide, ?_, ?_⟩
  · obtain ⟨r, hr, hm⟩ := do_op_of_fill_ok 1 7 sample_args CacheOpcode.CACHE_UPDATE
      sample_buffer 48 0 1 0 _ (by simp [map_opcode, fill_msg]; rfl)
    refine ⟨r, hr, ?_, ?_⟩
    · rw [hm]
      rfl
    · unfold do_op at hr
      simp [map_opcode, fill_msg, setup_ccvc] at hr
      rw [← hr]
      simp [OpEffect.is_send]
  · intro k sw cs req action ho
    simp [cache_op_ClusterFunction, ho, DispatchOutcome.effects, DispatchOutcome.cont,
      DispatchEffect.is_cache_call, new_CacheCont]
  · intro k sw cs req action ho
    simp only [List.mem_cons, List.mem_singleton, List.mem_nil_iff, or_false] at ho
    rcases ho with ho | ho | ho | ho | ho | ho | ho <;>
      simp [cache_op_ClusterFunction, ho, DispatchOutcome.effects, DispatchOutcome.cont,
        DispatchEffect.is_cache_call, keep_action] <;>
      (try split) <;> simp

/-! ## The bucket index -/

set_option maxRecDepth 20000 in
theorem xor_255 : ∀ x < 256, 255 ^^^ x = 255 - x := by decide

theorem xor_mod_256 (a b : Nat) : (a ^^^ b) % 256 = (a % 256) ^^^ (b % 256) := by
  apply Nat.eq_of_testBit_eq
  intro i
  have h := Nat.testBit_mod_two_pow (a ^^^ b) 8 i
  have ha := Nat.testBit_mod_two_pow a 8 i
  have hb := Nat.testBit_mod_two_pow b 8 i
  norm_num at h ha hb
  rw [h, Nat.testBit_xor, ha, hb]
  by_cases hi : i < 8 <;> simp [hi]

theorem xor_swap (a u v : Nat) : (a ^^^ u) ^^^ (a ^^^ v) = u ^^^ v := by
  apply Nat.eq_of_testBit_eq
  intro i
  simp only [Nat.testBit_xor]
  cases a.testBit i <;> cases u.testBit i <;> cases v.testBit i <;> rfl

theorem xor_move (a u v : Nat) : u ^^^ (a ^^^ v) = a ^^^ (u ^^^ v) := by
  apply Nat.eq_of_testBit_eq
  intro i
  simp only [Nat.testBit_xor]
  cases a.testBit i <;> cases u.testBit i <;> cases v.testBit i <;> rfl

theorem xor_compl_right (u v : Nat) (hu : u < 256) (hv : v < 256) :
    u ^^^ (255 - v) = 255 - (u ^^^ v) := by
  have hlt : u ^^^ v < 256 := @Nat.xor_lt_two_pow _ _ 8 hu hv
  rw [← xor_255 v hv, ← xor_255 _ hlt]
  exact xor_move 255 u v

theorem xor_compl_both (u v : Nat) (hu : u < 256) (hv : v < 256) :
    (255 - u) ^^^ (255 - v) = u ^^^ v := by
  rw [← xor_255 u hu, ← xor_255 v hv]
  exact xor_swap 255 u v

theorem ldiff_255_eq (m : Nat) : Nat.ldiff 255 m = 255 - m % 256 := by
  have hx : Nat.ldiff 255 m = 255 ^^^ (m % 256) := by
    apply Nat.eq_of_testBit_eq
    intro i
    have hm := Nat.testBit_mod_two_pow m 8 i
    have h255 := Nat.testBit_two_pow_sub_one 8 i
    norm_num at hm h255
    rw [Nat.testBit_ldiff, Nat.testBit_xor, hm, h255]
    by_cases hi : i < 8 <;> simp [hi]
  rw [hx]
  exact xor_255 _ (Nat.mod_lt _ (by norm_num))

theorem land_255_eq_emod (y : Int) : Int.land y 255 = y % 256 := by
  rcases y with m | m
  · show ((m &&& 255 : Nat) : Int) = (m : Int) % 256
    have := Nat.and_pow_two_sub_one_eq_mod m 8
    norm_num at this
    rw [this]
    norm_cast
  · show ((Nat.ldiff 255 m : Nat) : Int) = Int.negSucc m % 256
    rw [ldiff_255_eq, Int.negSucc_emod m (by norm_num)]
    have := Nat.mod_lt m (by norm_num : 0 < 256)
    omega

theorem tmod_emod_256 (x : Int) : Int.tmod x 256 % 256 = x % 256 := by
  rw [Int.tmod_def]
  omega

theorem int_xor_emod_256 (x y : Int) :
    Int.xor x y % 256 = (((x % 256).toNat ^^^ (y % 256).toNat : Nat) : Int) := by
  have hcast : ∀ k : Nat, ((k : Int) % 256).toNat = k % 256 := by
    intro k
    omega
  have hneg : ∀ k : Nat, (Int.negSucc k % 256).toNat = 255 - k % 256 := by
    intro k
    rw [Int.negSucc_emod k (by norm_num)]
    omega
  have hmod : ∀ k : Nat, k % 256 < 256 := fun k => Nat.mod_lt k (by norm_num)
  rcases x with m | m <;> rcases y with n | n
  · show (((m ^^^ n : Nat) : Int)) % 256 =
      ((((m : Int) % 256).toNat ^^^ ((n : Int) % 256).toNat : Nat) : Int)
    rw [hcast, hcast, ← xor_mod_256]
    norm_cast
  · show Int.negSucc (m ^^^ n) % 256 =
      ((((m : Int) % 256).toNat ^^^ (Int.negSucc n % 256).toNat : Nat) : Int)
    rw [hcast, hneg, xor_compl_right _ _ (hmod m) (hmod n), ← xor_mod_256,
      Int.negSucc_emod _ (by norm_num)]
    have := hmod (m ^^^ n)
    omega
  · show Int.negSucc (m ^^^ n) % 256 =
      (((Int.negSucc m % 256).toNat ^^^ ((n : Int) % 256).toNat : Nat) : Int)
    rw [hcast, hneg, Nat.xor_comm (255 - m % 256) (n % 256),
      xor_compl_right _ _ (hmod n) (hmod m), ← xor_mod_256, Nat.xor_comm n m,
      Int.negSucc_emod _ (by norm_num)]
    have := hmod (m ^^^ n)
    omega
  · show (((m ^^^ n : Nat) : Int)) % 256 =
      (((Int.negSucc m % 256).toNat ^^^ (Int.negSucc n % 256).toNat : Nat) : Int)
    rw [hneg, hneg, xor_compl_both _ _ (hmod m) (hmod n), ← xor_mod_256]
    norm_cast

theorem to_int32_emod_256 (a : Nat) : (to_int32 a % 256).toNat = a % 256 := by
  unfold to_int32
  split <;> omega

theorem MD5ToIndex_eq (p : INK_MD5) :
    MD5ToIndex p = (((p.fold >>> 32) ^^^ (p.fold &&& 0xFFFFFFFF)) % 256 : Nat) := by
  have hdef : MD5ToIndex p = Int.land
      (Int.tmod (Int.xor (to_int32 (p.fold >>> 32)) (to_int32 (p.fold &&& 0xFFFFFFFF))) 256)
      255 := rfl
  rw [hdef, land_255_eq_emod, tmod_emod_256, int_xor_emod_256, to_int32_emod_256,
    to_int32_emod_256, ← xor_mod_256]

theorem set_bucket_other (t : HashTable) (i n : Nat) (q : List Entry) (h : n ≠ i) :
    set_bucket t i q n = t n := by
  simp [set_bucket, h]

/-- C29: for every digest, `MD5ToIndex` returns an index in
`[0, MAX_TABLE_ENTRIES) = [0, 256)`, and the index equals the low 8 bits of
(high 32 bits XOR low 32 bits) of the 64-bit fold, also when the signed
32-bit XOR is negative and its C remainder modulo 256 is negative (as for
`sample_negative`, where the remainder is -255 and the index 1); `insert` and
`lookup` of the digest leave every bucket other than that in-range bucket
untouched. -/
theorem MD5ToIndex_low_bits (p : INK_MD5) :
    0 ≤ MD5ToIndex p ∧ MD5ToIndex p < (MAX_TABLE_ENTRIES : Int) ∧
    MD5ToIndex p = (((p.fold >>> 32) ^^^ (p.fold &&& 0xFFFFFFFF)) % 256 : Nat) ∧
    bucket_of p < MAX_TABLE_ENTRIES ∧
    (∀ (t : HashTable) (held : Nat → Bool) (vc n : Nat), n ≠ bucket_of p →
      (insert t held p vc).2 n = t n ∧ (lookup t held p).2 n = t n) ∧
    Int.tmod (Int.xor (to_int32 (sample_negative.fold >>> 32))
      (to_int32 (sample_negative.fold &&& 0xFFFFFFFF))) 256 = -255 ∧
    MD5ToIndex sample_negative = 1 := by
  have heq := MD5ToIndex_eq p
  have hlt : ((p.fold >>> 32) ^^^ (p.fold &&& 0xFFFFFFFF)) % 256 < 256 :=
    Nat.mod_lt _ (by norm_num)
  refine ⟨?_, ?_, heq, bucket_of_lt p, ?_, ?_, ?_⟩
  · rw [heq]
    omega
  · rw [heq]
    unfold MAX_TABLE_ENTRIES
    omega
  · intro t held vc n hn
    constructor
    · unfold insert
      simp only []
      split
      · rfl
      · exact set_bucket_other _ _ _ _ hn
    · unfold lookup
      simp only []
      split
      · rfl
      · split
        · exact set_bucket_other _ _ _ _ hn
        · rfl
  · decide
  · rw [MD5ToIndex_eq]
    decide

end ClusterCache

namespace Blacklist

theorem first_match_some (host : List Nat) (sites : List (List Nat)) :
    (first_match host sites).isSome = true ↔
      ∃ site ∈ sites, strncmp host site host.length = 0 := by
  induction sites with
  | nil => simp [first_match]
  | cons s rest ih =>
    unfold first_match
    by_cases h : strncmp host s host.length = 0
    · simp [h]
    · simp [h, ih]

theorem strncmp_prefix (host : List Nat) :
    ∀ site : List Nat, (∀ b ∈ host, b ≠ 0) →
      (strncmp host site host.length = 0 ↔ host <+: site) := by
  induction host with
  | nil =>
    intro site _
    simp [strncmp]
  | cons a rest ih =>
    intro site hnz
    have ha : a ≠ 0 := hnz a (by simp)
    have hrest : ∀ b ∈ rest, b ≠ 0 := fun b hb => hnz b (by simp [hb])
    cases site with
    | nil =>
      simp [strncmp, ha]
    | cons b site1 =>
      simp only [List.length_cons, strncmp, List.headD_cons, List.tail_cons]
      by_cases hab : a = b
      · subst hab
        simp [ha, ih site1 hrest, List.cons_prefix_cons]
      · have : (a : Int) - (b : Int) ≠ 0 := by omega
        simp [hab, this, List.cons_prefix_cons]

/-- C30, evaluated where the code departs from it: with `example.com` as the
only blacklisted site and the sites mutex acquired, a request for the host
`example.co`, which is not equal to any blacklisted site, is denied: the
send-response hook is added and the transaction reenabled with
`TS_EVENT_HTTP_ERROR`.  In general, with the mutex acquired `handle_dns`
denies exactly when `strncmp(host, sites[i], host_length) == 0` for one of the
loaded sites, and otherwise reenables with `TS_EVENT_HTTP_CONTINUE`; for a
host without NUL bytes that comparison holds exactly when the host is a
prefix of the site. -/
theorem prefix_host_denied :
    bytes "example.co" ≠ bytes "example.com" ∧
    handle_dns (sample_dns "example.co") [bytes "example.com"] =
      [TsCall.TSDebug "blacklisting site: %s\n", TsCall.TSHttpTxnHookAdd_send_response,
       TsCall.TSHandleMLocRelease_url, TsCall.TSHandleMLocRelease_hdr,
       TsCall.TSHttpTxnReenable TsEvent.TS_EVENT_HTTP_ERROR, TsCall.TSMutexUnlock] ∧
    (∀ (env : DnsEnv) (host : List Nat) (sites : List (List Nat)),
      env.req_get_ok = true → env.url_get_ok = true → env.host = some host →
      env.lock_ok = true →
      (TsCall.TSHttpTxnReenable TsEvent.TS_EVENT_HTTP_ERROR ∈ handle_dns env sites ↔
        ∃ site ∈ sites, strncmp host site host.length = 0) ∧
      (TsCall.TSHttpTxnReenable TsEvent.TS_EVENT_HTTP_ERROR ∉ handle_dns env sites →
        TsCall.TSHttpTxnReenable TsEvent.TS_EVENT_HTTP_CONTINUE ∈ handle_dns env sites)) ∧
    (∀ host site : List Nat, (∀ b ∈ host, b ≠ 0) →
      (strncmp host site host.length = 0 ↔ host <+: site)) := by
  refine ⟨by decide, by decide, ?_, fun host site h => strncmp_prefix host site h⟩
  intro env host sites h1 h2 h3 h4
  have hm := first_match_some host sites
  cases hf : first_match host sites with
  | none =>
    rw [hf] at hm
    simp [handle_dns, h1, h2, h3, h4, hf]
    simpa using hm
  | some s =>
    rw [hf] at hm
    simp [handle_dns, h1, h2, h3, h4, hf]
    simpa using hm

end Blacklist
